import Mathlib

/-!
# eco-goinfra resource builders: a shallow embedding

The Go builders of `pkg/lso`, `pkg/mco`, `pkg/storage` and `pkg/servicemesh` are
embedded as pure functions.  Conventions:

* a Go pointer is an `Option` (`none` is `nil`); a method with a pointer receiver takes the
  receiver as `Option Builder` and returns, in `Outcome.recv`, the receiver as the method
  left it (methods mutate the builder in place);
* a method that dereferences `nil` crashes: the embedding returns `none` for the whole
  call (`Exec α = Option α`);
* the remote accessor is a record of state-passing functions over an arbitrary store
  state `σ`; every call made on it is appended to `Outcome.calls`;
* a Go `error` is `Option GoError` (`none` is the nil error);
* pointers are embedded by value: `Object` and `Definition` hold the pointed-to record.
-/

/-! ## Go runtime and library fragments -/

/-- A non-nil Go error: its `Error()` text and whether `k8serrors.IsNotFound` accepts it. -/
structure GoError where
  text : String
  notFound : Bool
  deriving DecidableEq, Repr

/-- The result of running Go code that may dereference nil: `none` is the crash. -/
abbrev Exec (α : Type) : Type := Option α

/-- What one method call leaves behind: the receiver after the call, the returned
value, the state of the remote store and the calls issued on the accessor, in order. -/
structure Outcome (B V σ C : Type) where
  recv : Option B
  ret : V
  state : σ
  calls : List C

namespace k8serrors

/-- The classifier `k8serrors.IsNotFound`; a nil error is not a not-found error. -/
def IsNotFound (err : Option GoError) : Bool :=
  match err with
  | none => false
  | some e => e.notFound

end k8serrors

namespace fmt

/-- The flag characters a formatting directive may start with. -/
def isFlag (c : Char) : Bool :=
  c == '#' || c == '0' || c == '+' || c == '-' || c == ' '

/-- Skips the flags of a directive. -/
def skipFlags : List Char → List Char
  | [] => []
  | c :: cs => if isFlag c then skipFlags cs else c :: cs

/-- The decimal scan `parsenum` of package fmt: whether a number was read and what
follows it; a number above 10^6 abandons the rest of the format. -/
def parsenum (num : Nat) (isnum : Bool) : List Char → Bool × List Char
  | [] => (isnum, [])
  | c :: cs =>
    if c.isDigit then
      if num > 1000000 then (false, [])
      else parsenum (num * 10 + (c.toNat - 48)) true cs
    else (isnum, c :: cs)

/-- The scan `parseArgNumber` of package fmt on a text starting with an opening
bracket: how many characters the index takes and whether it is well formed. -/
def parseArgNumber (cs : List Char) : Nat × Bool :=
  if cs.length < 3 then (1, false)
  else
    match (cs.drop 1).indexOf? ']' with
    | none => (1, false)
    | some j =>
      let r := parsenum 0 false ((cs.drop 1).take j)
      (j + 2, r.1 && r.2.isEmpty)

/-- The step `argNumber` of package fmt when no operand was passed: the rest of the
format, whether an index was found, and whether a bracket was met (every index is
then out of range). -/
def argNumber (cs : List Char) : List Char × Bool × Bool :=
  match cs with
  | '[' :: _ =>
    let r := parseArgNumber cs
    (cs.drop r.1, r.2, true)
  | _ => (cs, false, false)

/-- One directive of a format printed without operands: the text after the percent
sign is consumed up to and including the verb; the result is the text written and
the rest of the format.  A dot starts a precision only when something follows it
(`i+1 < end`); a dot that ends the format is the verb. -/
def directive (cs : List Char) : List Char × List Char :=
  let a1 := argNumber (skipFlags cs)
  let w : List Char × List Char × Bool :=
    match a1.1 with
    | '*' :: r => ("%!(BADWIDTH)".toList, r, false)
    | cs2 => ([], (parsenum 0 false cs2).2, a1.2.1)
  let p : List Char × List Char × Bool × Bool :=
    match w.2.1 with
    | '.' :: c :: r =>
      let a2 := argNumber (c :: r)
      match a2.1 with
      | '*' :: r2 => ("%!(BADPREC)".toList, r2, false, a2.2.2)
      | r1 => ([], (parsenum 0 false r1).2, a2.2.1, a2.2.2)
    | cs3 => ([], cs3, w.2.2, false)
  let a3 : List Char × Bool :=
    if p.2.2.1 then (p.2.1, false)
    else let a := argNumber p.2.1; (a.1, a.2.2)
  let bad := a1.2.2 || p.2.2.2 || a3.2
  match a3.1 with
  | [] => (w.1 ++ p.1 ++ "%!(NOVERB)".toList, [])
  | v :: r =>
    if v == '%' then (w.1 ++ p.1 ++ ['%'], r)
    else if bad then (w.1 ++ p.1 ++ "%!".toList ++ [v] ++ "(BADINDEX)".toList, r)
    else (w.1 ++ p.1 ++ "%!".toList ++ [v] ++ "(MISSING)".toList, r)

/-- The loop `doPrintf` of package fmt for an empty operand list. -/
def doPrintf : Nat → List Char → List Char
  | 0, _ => []
  | _, [] => []
  | fuel + 1, c :: cs =>
    if c == '%' then
      let d := directive cs
      d.1 ++ doPrintf fuel d.2
    else c :: doPrintf fuel cs

/-- The call `fmt.Sprintf(format)` with no operand. -/
def Sprintf (format : String) : String :=
  String.mk (doPrintf format.length format.toList)

/-- The call `fmt.Errorf(format)` with no operand: a plain error, never a not-found. -/
def Errorf (format : String) : GoError :=
  { text := Sprintf format, notFound := false }

/-- The error `fmt.Errorf` builds from a constant format whose only directives are
`%s`, given string operands: `text` is the format with the operands written in
place (operands are not scanned for directives). -/
def ErrorfText (text : String) : GoError :=
  { text := text, notFound := false }

/-- The error `fmt.Errorf` builds from a constant format ending in `%w`: the text is
the constant part followed by the text of the wrapped error, and the wrapped error
stays visible to `k8serrors.IsNotFound`. -/
def ErrorfWrap (text : String) (err : GoError) : GoError :=
  { text := text ++ err.text, notFound := err.notFound }

end fmt

namespace metav1

/-- The type `metav1.Time`; its zero value is the zero instant. -/
structure Time where
  ticks : Int := 0
  deriving DecidableEq, Repr

/-- The fields of `metav1.ObjectMeta` the builders read or write. -/
structure ObjectMeta where
  Name : String := ""
  Namespace : String := ""
  Generation : Int := 0
  ResourceVersion : String := ""
  CreationTimestamp : Time := {}
  deriving DecidableEq, Repr

end metav1

namespace goclient

/-- The key `goclient.ObjectKey` of a remote Get. -/
structure ObjectKey where
  Name : String := ""
  Namespace : String := ""
  deriving DecidableEq, Repr

/-- One call on a `goclient.Client`, with its argument. -/
inductive Call (R : Type) where
  | Get (key : ObjectKey)
  | Create (obj : R)
  | Update (obj : R)
  | Delete (obj : R)
  deriving DecidableEq, Repr

/-- Modelled from the spec: the remote accessor capability (section 6), which is the
controller-runtime client the builders are handed and is not part of the sources.
`Get` yields what the call wrote into the object it was given together with its
error; the other three yield their error.  Each may change the remote state. -/
structure Client (σ R : Type) where
  Get : ObjectKey → σ → (R × Option GoError) × σ
  Create : R → σ → Option GoError × σ
  Update : R → σ → Option GoError × σ
  Delete : R → σ → Option GoError × σ

end goclient

namespace clients

/-- Modelled from the spec: the struct `clients.Settings` handed to the constructors
(it is declared outside the sources); only its embedded `goclient.Client`
interface value is used by the builders embedded here, and it may be nil. -/
structure Settings (σ R : Type) where
  Client : Option (goclient.Client σ R)

end clients

namespace gomap

/-- The read `m[k]` of a Go `map[string]string` held by value as the list of its entries:
the value of the first entry under `k`, if any. -/
def get (m : List (String × String)) (k : String) : Option String :=
  match m with
  | [] => none
  | e :: rest => if e.1 == k then some e.2 else get rest k

/-- The write `m[k] = v`: the entry under `k` is replaced, or a new one is added. -/
def set (m : List (String × String)) (k v : String) : List (String × String) :=
  match m with
  | [] => [(k, v)]
  | e :: rest => if e.1 == k then (k, v) :: rest else e :: set rest k v

end gomap

namespace goruntime

/-- The comparison `&x == nil` for a parameter or local variable `x`: a variable has an
address, so the comparison is false whatever the value of `x`. -/
def addrIsNil {α : Type} (_x : α) : Bool := false

end goruntime

/-! ## pkg/lso: LocalVolumeSetBuilder -/

namespace corev1

/-- The external schema `corev1.NodeSelector`; the builders store it without looking inside. -/
structure NodeSelector where
  NodeSelectorTerms : List String := []
  deriving DecidableEq, Repr

end corev1

namespace lsov1alpha1

/-- The external schema `lsov1alpha1.DeviceInclusionSpec`; stored without inspection. -/
structure DeviceInclusionSpec where
  DeviceTypes : List String := []
  deriving DecidableEq, Repr

/-- The fields of `lsov1alpha1.LocalVolumeSetSpec` the builder writes. -/
structure LocalVolumeSetSpec where
  NodeSelector : Option corev1.NodeSelector := none
  StorageClassName : String := ""
  VolumeMode : String := ""
  FSType : String := ""
  MaxDeviceCount : Option Int := none
  DeviceInclusionSpec : Option DeviceInclusionSpec := none
  deriving DecidableEq, Repr

/-- The resource `lsov1alpha1.LocalVolumeSet`. -/
structure LocalVolumeSet where
  ObjectMeta : metav1.ObjectMeta := {}
  Spec : LocalVolumeSetSpec := {}
  deriving DecidableEq, Repr

end lsov1alpha1

namespace lso

open lsov1alpha1

/-- The struct `LocalVolumeSetBuilder`. -/
structure LocalVolumeSetBuilder (σ : Type) where
  Definition : Option LocalVolumeSet := none
  Object : Option LocalVolumeSet := none
  errorMsg : String := ""
  apiClient : Option (goclient.Client σ LocalVolumeSet) := none

/-- The calls a LocalVolumeSetBuilder issues on its accessor. -/
abbrev Call : Type := goclient.Call LocalVolumeSet

variable {σ : Type}

/-- The constructor `NewLocalVolumeSetBuilder`. -/
def NewLocalVolumeSetBuilder (apiClient : Option (clients.Settings σ LocalVolumeSet))
    (name nsname : String) : Option (LocalVolumeSetBuilder σ) :=
  match apiClient with
  | none => none
  | some settings =>
    let builder : LocalVolumeSetBuilder σ :=
      { apiClient := settings.Client
        Definition := some { ObjectMeta := { Name := name, Namespace := nsname } } }
    if name == "" then
      some { builder with errorMsg := "localVolumeSet 'name' cannot be empty" }
    else if nsname == "" then
      some { builder with errorMsg := "localVolumeSet 'nsname' cannot be empty" }
    else some builder

/-- The method `LocalVolumeSetBuilder.validate`; it never writes to the builder.  The text
of `msg.UndefinedCrdObjectErrString`, declared outside the sources, is a parameter. -/
def LocalVolumeSetBuilder.validate (UndefinedCrdObjectErrString : String → String)
    (builder : Option (LocalVolumeSetBuilder σ)) : Bool × Option GoError :=
  let resourceCRD := "LocalVolumeSet"
  match builder with
  | none => (false, some (fmt.ErrorfText ("error: received nil " ++ resourceCRD ++ " builder")))
  | some b =>
    if b.Definition.isNone then
      (false, some (fmt.Errorf (UndefinedCrdObjectErrString resourceCRD)))
    else if b.apiClient.isNone then
      (false, some (fmt.ErrorfText (resourceCRD ++ " builder cannot have nil apiClient")))
    else if b.errorMsg != "" then
      (false, some (fmt.Errorf b.errorMsg))
    else (true, none)

/-- The method `LocalVolumeSetBuilder.Get`. -/
def LocalVolumeSetBuilder.Get (U : String → String)
    (builder : Option (LocalVolumeSetBuilder σ)) (s : σ) :
    Exec (Outcome (LocalVolumeSetBuilder σ) (Option LocalVolumeSet × Option GoError) σ Call) :=
  match LocalVolumeSetBuilder.validate U builder with
  | (false, err) => some { recv := builder, ret := (none, err), state := s, calls := [] }
  | (true, _) =>
    match builder with
    | none => none
    | some b =>
      match b.Definition, b.apiClient with
      | some d, some c =>
        let key : goclient.ObjectKey :=
          { Name := d.ObjectMeta.Name, Namespace := d.ObjectMeta.Namespace }
        let r := c.Get key s
        match r.1.2 with
        | some err =>
          some { recv := builder, ret := (none, some err), state := r.2,
                 calls := [goclient.Call.Get key] }
        | none =>
          some { recv := builder, ret := (some r.1.1, none), state := r.2,
                 calls := [goclient.Call.Get key] }
      | _, _ => none

/-- The method `LocalVolumeSetBuilder.Exists`. -/
def LocalVolumeSetBuilder.Exists (U : String → String)
    (builder : Option (LocalVolumeSetBuilder σ)) (s : σ) :
    Exec (Outcome (LocalVolumeSetBuilder σ) Bool σ Call) :=
  match LocalVolumeSetBuilder.validate U builder with
  | (false, _) => some { recv := builder, ret := false, state := s, calls := [] }
  | (true, _) =>
    match LocalVolumeSetBuilder.Get U builder s with
    | none => none
    | some g =>
      match g.recv with
      | none => none
      | some b =>
        some { recv := some { b with Object := g.ret.1 }
               ret := g.ret.2.isNone || !k8serrors.IsNotFound g.ret.2
               state := g.state, calls := g.calls }

/-- The method `LocalVolumeSetBuilder.Create`. -/
def LocalVolumeSetBuilder.Create (U : String → String)
    (builder : Option (LocalVolumeSetBuilder σ)) (s : σ) :
    Exec (Outcome (LocalVolumeSetBuilder σ)
      (Option (LocalVolumeSetBuilder σ) × Option GoError) σ Call) :=
  match LocalVolumeSetBuilder.validate U builder with
  | (false, err) => some { recv := builder, ret := (builder, err), state := s, calls := [] }
  | (true, _) =>
    match LocalVolumeSetBuilder.Exists U builder s with
    | none => none
    | some e =>
      if e.ret then
        some { recv := e.recv, ret := (e.recv, none), state := e.state, calls := e.calls }
      else
        match e.recv with
        | none => none
        | some b =>
          match b.Definition, b.apiClient with
          | some d, some c =>
            let r := c.Create d e.state
            match r.1 with
            | none =>
              let b1 := { b with Object := b.Definition }
              some { recv := some b1, ret := (some b1, none), state := r.2,
                     calls := e.calls ++ [goclient.Call.Create d] }
            | some err =>
              some { recv := some b, ret := (some b, some err), state := r.2,
                     calls := e.calls ++ [goclient.Call.Create d] }
          | _, _ => none

/-- The method `LocalVolumeSetBuilder.Update`. -/
def LocalVolumeSetBuilder.Update (U : String → String)
    (builder : Option (LocalVolumeSetBuilder σ)) (s : σ) :
    Exec (Outcome (LocalVolumeSetBuilder σ)
      (Option (LocalVolumeSetBuilder σ) × Option GoError) σ Call) :=
  match LocalVolumeSetBuilder.validate U builder with
  | (false, err) => some { recv := builder, ret := (builder, err), state := s, calls := [] }
  | (true, _) =>
    match LocalVolumeSetBuilder.Exists U builder s with
    | none => none
    | some e =>
      match e.recv with
      | none => none
      | some b =>
        match b.Definition, b.apiClient with
        | some d, some c =>
          if !e.ret then
            some { recv := some b
                   ret := (none, some (fmt.ErrorfText ("localVolumeSet object " ++ d.ObjectMeta.Name
                     ++ " does not exist in namespace " ++ d.ObjectMeta.Namespace)))
                   state := e.state, calls := e.calls }
          else
            let d1 : LocalVolumeSet :=
              { d with ObjectMeta :=
                  { d.ObjectMeta with CreationTimestamp := {}, ResourceVersion := "" } }
            let b1 := { b with Definition := some d1 }
            let r := c.Update d1 e.state
            match r.1 with
            | some err =>
              some { recv := some b1, ret := (none, some err), state := r.2,
                     calls := e.calls ++ [goclient.Call.Update d1] }
            | none =>
              let b2 := { b1 with Object := b1.Definition }
              some { recv := some b2, ret := (some b2, none), state := r.2,
                     calls := e.calls ++ [goclient.Call.Update d1] }
        | _, _ => none

/-- The method `LocalVolumeSetBuilder.Delete`. -/
def LocalVolumeSetBuilder.Delete (U : String → String)
    (builder : Option (LocalVolumeSetBuilder σ)) (s : σ) :
    Exec (Outcome (LocalVolumeSetBuilder σ) (Option GoError) σ Call) :=
  match LocalVolumeSetBuilder.validate U builder with
  | (false, err) => some { recv := builder, ret := err, state := s, calls := [] }
  | (true, _) =>
    match LocalVolumeSetBuilder.Exists U builder s with
    | none => none
    | some e =>
      if !e.ret then
        some { recv := e.recv
               ret := some (fmt.ErrorfText
                 "localVolumeSet cannot be deleted because it does not exist")
               state := e.state, calls := e.calls }
      else
        match e.recv with
        | none => none
        | some b =>
          match b.Definition, b.apiClient with
          | some d, some c =>
            let r := c.Delete d e.state
            match r.1 with
            | some err =>
              some { recv := some b
                     ret := some (fmt.ErrorfWrap "can not delete localVolumeSet: " err)
                     state := r.2, calls := e.calls ++ [goclient.Call.Delete d] }
            | none =>
              some { recv := some { b with Object := none }, ret := none, state := r.2,
                     calls := e.calls ++ [goclient.Call.Delete d] }
          | _, _ => none

/-- The function `PullLocalVolumeSet`.  It has no receiver: `recv` is nil in its outcome. -/
def PullLocalVolumeSet (U : String → String)
    (apiClient : Option (clients.Settings σ LocalVolumeSet)) (name nsname : String) (s : σ) :
    Exec (Outcome (LocalVolumeSetBuilder σ)
      (Option (LocalVolumeSetBuilder σ) × Option GoError) σ Call) :=
  match apiClient with
  | none =>
    some { recv := none
           ret := (none, some (fmt.ErrorfText "localVolumeSet 'apiClient' cannot be empty"))
           state := s, calls := [] }
  | some settings =>
    let builder : LocalVolumeSetBuilder σ :=
      { apiClient := settings.Client
        Definition := some { ObjectMeta := { Name := name, Namespace := nsname } } }
    if name == "" then
      some { recv := none
             ret := (none, some (fmt.ErrorfText "localVolumeSet 'name' cannot be empty"))
             state := s, calls := [] }
    else if nsname == "" then
      some { recv := none
             ret := (none, some (fmt.ErrorfText "localVolumeSet 'nsname' cannot be empty"))
             state := s, calls := [] }
    else
      match LocalVolumeSetBuilder.Exists U (some builder) s with
      | none => none
      | some e =>
        if !e.ret then
          some { recv := none
                 ret := (none, some (fmt.ErrorfText ("localVolumeSet object " ++ name
                   ++ " does not exist in namespace " ++ nsname)))
                 state := e.state, calls := e.calls }
        else
          match e.recv with
          | none => none
          | some b =>
            let b1 := { b with Definition := b.Object }
            some { recv := none, ret := (some b1, none), state := e.state, calls := e.calls }

/-- The method `LocalVolumeSetBuilder.WithGeneration`.  A mutator returns its receiver:
the result is the builder as the method left it.  The log line at the top of the
method reads the name and namespace of the Definition before the gate is run. -/
def LocalVolumeSetBuilder.WithGeneration (U : String → String)
    (builder : Option (LocalVolumeSetBuilder σ)) (generation : Int) :
    Exec (Option (LocalVolumeSetBuilder σ)) :=
  match builder with
  | none => none
  | some b =>
    match b.Definition with
    | none => none
    | some d =>
      if !(LocalVolumeSetBuilder.validate U builder).1 then some builder
      else if generation == 0 then
        some (some { b with errorMsg := "'generation' argument cannot be equal zero" })
      else
        let d1 : LocalVolumeSet :=
          { d with ObjectMeta := { d.ObjectMeta with Generation := generation } }
        some (some { b with Definition := some d1 })

/-- The method `LocalVolumeSetBuilder.WithNodeSelector`. -/
def LocalVolumeSetBuilder.WithNodeSelector (U : String → String)
    (builder : Option (LocalVolumeSetBuilder σ)) (nodeSelector : corev1.NodeSelector) :
    Exec (Option (LocalVolumeSetBuilder σ)) :=
  match builder with
  | none => none
  | some b =>
    match b.Definition with
    | none => none
    | some d =>
      if !(LocalVolumeSetBuilder.validate U builder).1 then some builder
      else
        let d1 : LocalVolumeSet :=
          { d with Spec := { d.Spec with NodeSelector := some nodeSelector } }
        some (some { b with Definition := some d1 })

/-- The method `LocalVolumeSetBuilder.WithStorageClassName`. -/
def LocalVolumeSetBuilder.WithStorageClassName (U : String → String)
    (builder : Option (LocalVolumeSetBuilder σ)) (storageClassName : String) :
    Exec (Option (LocalVolumeSetBuilder σ)) :=
  match builder with
  | none => none
  | some b =>
    match b.Definition with
    | none => none
    | some d =>
      if !(LocalVolumeSetBuilder.validate U builder).1 then some builder
      else if storageClassName == "" then
        some (some { b with errorMsg := "'storageClassName' argument cannot be empty" })
      else
        let d1 : LocalVolumeSet :=
          { d with Spec := { d.Spec with StorageClassName := storageClassName } }
        some (some { b with Definition := some d1 })

/-- The method `LocalVolumeSetBuilder.WithVolumeMode`. -/
def LocalVolumeSetBuilder.WithVolumeMode (U : String → String)
    (builder : Option (LocalVolumeSetBuilder σ)) (volumeMode : String) :
    Exec (Option (LocalVolumeSetBuilder σ)) :=
  match builder with
  | none => none
  | some b =>
    match b.Definition with
    | none => none
    | some d =>
      if !(LocalVolumeSetBuilder.validate U builder).1 then some builder
      else if volumeMode == "" then
        some (some { b with errorMsg := "'volumeMode' argument cannot be empty" })
      else
        let d1 : LocalVolumeSet :=
          { d with Spec := { d.Spec with VolumeMode := volumeMode } }
        some (some { b with Definition := some d1 })

/-- The method `LocalVolumeSetBuilder.WithFSType`. -/
def LocalVolumeSetBuilder.WithFSType (U : String → String)
    (builder : Option (LocalVolumeSetBuilder σ)) (fstype : String) :
    Exec (Option (LocalVolumeSetBuilder σ)) :=
  match builder with
  | none => none
  | some b =>
    match b.Definition with
    | none => none
    | some d =>
      if !(LocalVolumeSetBuilder.validate U builder).1 then some builder
      else if fstype == "" then
        some (some { b with errorMsg := "'fstype' argument cannot be empty" })
      else
        let d1 : LocalVolumeSet :=
          { d with Spec := { d.Spec with FSType := fstype } }
        some (some { b with Definition := some d1 })

/-- The method `LocalVolumeSetBuilder.WithMaxDeviceCount`. -/
def LocalVolumeSetBuilder.WithMaxDeviceCount (U : String → String)
    (builder : Option (LocalVolumeSetBuilder σ)) (maxDeviceCount : Int) :
    Exec (Option (LocalVolumeSetBuilder σ)) :=
  match builder with
  | none => none
  | some b =>
    match b.Definition with
    | none => none
    | some d =>
      if !(LocalVolumeSetBuilder.validate U builder).1 then some builder
      else if maxDeviceCount == 0 then
        some (some { b with errorMsg := "'maxDeviceCount' argument cannot be equal zero" })
      else
        let d1 : LocalVolumeSet :=
          { d with Spec := { d.Spec with MaxDeviceCount := some maxDeviceCount } }
        some (some { b with Definition := some d1 })

/-- The method `LocalVolumeSetBuilder.WithDeviceInclusionSpec`. -/
def LocalVolumeSetBuilder.WithDeviceInclusionSpec (U : String → String)
    (builder : Option (LocalVolumeSetBuilder σ))
    (deviceInclusionSpec : lsov1alpha1.DeviceInclusionSpec) :
    Exec (Option (LocalVolumeSetBuilder σ)) :=
  match builder with
  | none => none
  | some b =>
    match b.Definition with
    | none => none
    | some d =>
      if !(LocalVolumeSetBuilder.validate U builder).1 then some builder
      else
        let d1 : LocalVolumeSet :=
          { d with Spec := { d.Spec with DeviceInclusionSpec := some deviceInclusionSpec } }
        some (some { b with Definition := some d1 })

/-- One call of a mutator of LocalVolumeSetBuilder, with its argument. -/
inductive Mutation where
  | WithGeneration (generation : Int)
  | WithNodeSelector (nodeSelector : corev1.NodeSelector)
  | WithStorageClassName (storageClassName : String)
  | WithVolumeMode (volumeMode : String)
  | WithFSType (fstype : String)
  | WithMaxDeviceCount (maxDeviceCount : Int)
  | WithDeviceInclusionSpec (deviceInclusionSpec : lsov1alpha1.DeviceInclusionSpec)

/-- Runs one mutator call on a builder. -/
def Mutation.run (U : String → String) (m : Mutation)
    (builder : Option (LocalVolumeSetBuilder σ)) : Exec (Option (LocalVolumeSetBuilder σ)) :=
  match m with
  | Mutation.WithGeneration g => LocalVolumeSetBuilder.WithGeneration U builder g
  | Mutation.WithNodeSelector n => LocalVolumeSetBuilder.WithNodeSelector U builder n
  | Mutation.WithStorageClassName n => LocalVolumeSetBuilder.WithStorageClassName U builder n
  | Mutation.WithVolumeMode v => LocalVolumeSetBuilder.WithVolumeMode U builder v
  | Mutation.WithFSType f => LocalVolumeSetBuilder.WithFSType U builder f
  | Mutation.WithMaxDeviceCount n => LocalVolumeSetBuilder.WithMaxDeviceCount U builder n
  | Mutation.WithDeviceInclusionSpec d =>
    LocalVolumeSetBuilder.WithDeviceInclusionSpec U builder d

/-- Runs a chain of mutator calls, each on the builder the previous one returned; a
crash ends the chain. -/
def runChain (U : String → String) :
    List Mutation → Option (LocalVolumeSetBuilder σ) → Exec (Option (LocalVolumeSetBuilder σ))
  | [], builder => some builder
  | m :: ms, builder =>
    match m.run U builder with
    | none => none
    | some b1 => runChain U ms b1

end lso

/-! ## pkg/mco: KCBuilder -/

namespace metav1

/-- The type `metav1.LabelSelectorRequirement`; the builders store it without inspection. -/
structure LabelSelectorRequirement where
  Key : String := ""
  Operator : String := ""
  Values : List String := []
  deriving DecidableEq, Repr

/-- The type `metav1.LabelSelector`; a nil map or slice is `none`. -/
structure LabelSelector where
  MatchLabels : Option (List (String × String)) := none
  MatchExpressions : Option (List LabelSelectorRequirement) := none
  deriving DecidableEq, Repr

end metav1

namespace kubeletconfigv1beta1

/-- The field of `kubeletconfigv1beta1.KubeletConfiguration` the builder writes; a nil map
is `none`. -/
structure KubeletConfiguration where
  SystemReserved : Option (List (String × String)) := none
  deriving DecidableEq, Repr

end kubeletconfigv1beta1

namespace runtime

/-- The type `runtime.RawExtension`: the raw bytes (a nil slice is `none`) and the object;
the only objects the builder stores are `*KubeletConfiguration` values. -/
structure RawExtension where
  Raw : Option (List (Fin 256)) := none
  Object : Option kubeletconfigv1beta1.KubeletConfiguration := none
  deriving DecidableEq, Repr

end runtime

namespace mcv1

/-- The fields of `mcv1.KubeletConfigSpec` the builder reads or writes. -/
structure KubeletConfigSpec where
  MachineConfigPoolSelector : Option metav1.LabelSelector := none
  KubeletConfig : Option runtime.RawExtension := none
  deriving DecidableEq, Repr

/-- The resource `mcv1.KubeletConfig`. -/
structure KubeletConfig where
  ObjectMeta : metav1.ObjectMeta := {}
  Spec : KubeletConfigSpec := {}
  deriving DecidableEq, Repr

end mcv1

namespace mco

open mcv1

/-- One call on the typed client returned by `KubeletConfigs()`, with its argument. -/
inductive Call where
  | Get (name : String)
  | Create (obj : KubeletConfig)
  | Delete (name : String)
  deriving DecidableEq, Repr

/-- Modelled from the spec: the remote accessor capability (section 6) in the shape of
the typed client `KubeletConfigs()` returns, which is not part of the sources: Get and
Create return an object pointer and an error, Delete an error. -/
structure KubeletConfigInterface (σ : Type) where
  Get : String → σ → (Option KubeletConfig × Option GoError) × σ
  Create : KubeletConfig → σ → (Option KubeletConfig × Option GoError) × σ
  Delete : String → σ → Option GoError × σ

/-- Modelled from the spec: the struct `clients.Settings` as KCBuilder uses it (it is
declared outside the sources): the embedded machine-config client set behind
`KubeletConfigs()`, which may be nil. -/
structure Settings (σ : Type) where
  KubeletConfigs : Option (KubeletConfigInterface σ)

/-- The struct `KCBuilder`. -/
structure KCBuilder (σ : Type) where
  Definition : Option KubeletConfig := none
  Object : Option KubeletConfig := none
  apiClient : Option (Settings σ) := none
  errorMsg : String := ""

variable {σ : Type}

/-- The constructor `NewKCBuilder`. -/
def NewKCBuilder (apiClient : Option (Settings σ)) (name : String) : Option (KCBuilder σ) :=
  let builder : KCBuilder σ :=
    { apiClient := apiClient
      Definition := some { ObjectMeta := { Name := name } } }
  if name == "" then
    some { builder with errorMsg := "KubeletConfig 'name' cannot be empty" }
  else some builder

/-- The method `KCBuilder.validate`: the builder as the checks left it (they may write
`errorMsg`), whether it is valid, and the error. -/
def KCBuilder.validate (UndefinedCrdObjectErrString : String → String)
    (builder : Option (KCBuilder σ)) : Option (KCBuilder σ) × Bool × Option GoError :=
  let resourceCRD := "KubeletConfig"
  match builder with
  | none =>
    (none, false, some (fmt.ErrorfText ("error: received nil " ++ resourceCRD ++ " builder")))
  | some b =>
    let b1 := if b.Definition.isNone then
      { b with errorMsg := UndefinedCrdObjectErrString resourceCRD } else b
    let b2 := if b1.apiClient.isNone then
      { b1 with errorMsg := resourceCRD ++ " builder cannot have nil apiClient" } else b1
    if b2.errorMsg != "" then (some b2, false, some (fmt.Errorf b2.errorMsg))
    else (some b2, true, none)

/-- The method `KCBuilder.Exists`. -/
def KCBuilder.Exists (U : String → String) (builder : Option (KCBuilder σ)) (s : σ) :
    Exec (Outcome (KCBuilder σ) Bool σ Call) :=
  match KCBuilder.validate U builder with
  | (b0, false, _) => some { recv := b0, ret := false, state := s, calls := [] }
  | (b0, true, _) =>
    match b0 with
    | none => none
    | some b =>
      match b.Definition, b.apiClient with
      | some d, some settings =>
        match settings.KubeletConfigs with
        | none => none
        | some kc =>
          let r := kc.Get d.ObjectMeta.Name s
          some { recv := some { b with Object := r.1.1 }
                 ret := r.1.2.isNone || !k8serrors.IsNotFound r.1.2
                 state := r.2, calls := [Call.Get d.ObjectMeta.Name] }
      | _, _ => none

/-- The method `KCBuilder.Create`. -/
def KCBuilder.Create (U : String → String) (builder : Option (KCBuilder σ)) (s : σ) :
    Exec (Outcome (KCBuilder σ) (Option (KCBuilder σ) × Option GoError) σ Call) :=
  match KCBuilder.validate U builder with
  | (b0, false, err) => some { recv := b0, ret := (b0, err), state := s, calls := [] }
  | (b0, true, _) =>
    match KCBuilder.Exists U b0 s with
    | none => none
    | some e =>
      if e.ret then
        some { recv := e.recv, ret := (e.recv, none), state := e.state, calls := e.calls }
      else
        match e.recv with
        | none => none
        | some b =>
          match b.Definition, b.apiClient with
          | some d, some settings =>
            match settings.KubeletConfigs with
            | none => none
            | some kc =>
              let r := kc.Create d e.state
              let b1 := { b with Object := r.1.1 }
              some { recv := some b1, ret := (some b1, r.1.2), state := r.2,
                     calls := e.calls ++ [Call.Create d] }
          | _, _ => none

/-- The method `KCBuilder.Delete`. -/
def KCBuilder.Delete (U : String → String) (builder : Option (KCBuilder σ)) (s : σ) :
    Exec (Outcome (KCBuilder σ) (Option GoError) σ Call) :=
  match KCBuilder.validate U builder with
  | (b0, false, err) => some { recv := b0, ret := err, state := s, calls := [] }
  | (b0, true, _) =>
    match KCBuilder.Exists U b0 s with
    | none => none
    | some e =>
      if !e.ret then
        some { recv := e.recv
               ret := some (fmt.ErrorfText
                 "kubeletconfig cannot be deleted because it does not exist")
               state := e.state, calls := e.calls }
      else
        match e.recv with
        | none => none
        | some b =>
          match b.Object, b.apiClient with
          | some o, some settings =>
            match settings.KubeletConfigs with
            | none => none
            | some kc =>
              let r := kc.Delete o.ObjectMeta.Name e.state
              match r.1 with
              | some err =>
                some { recv := some b
                       ret := some (fmt.ErrorfWrap "cannot delete kubeletconfig: " err)
                       state := r.2, calls := e.calls ++ [Call.Delete o.ObjectMeta.Name] }
              | none =>
                some { recv := some { b with Object := none }, ret := none, state := r.2,
                       calls := e.calls ++ [Call.Delete o.ObjectMeta.Name] }
          | _, _ => none

/-- The function `PullKubeletConfig`.  It has no receiver: `recv` is nil in its outcome. -/
def PullKubeletConfig (U : String → String) (apiClient : Option (Settings σ)) (name : String)
    (s : σ) :
    Exec (Outcome (KCBuilder σ) (Option (KCBuilder σ) × Option GoError) σ Call) :=
  let builder : KCBuilder σ :=
    { apiClient := apiClient
      Definition := some { ObjectMeta := { Name := name } } }
  let builder1 := if name == "" then
    { builder with errorMsg := "kubeletconfig 'name' cannot be empty" } else builder
  match KCBuilder.Exists U (some builder1) s with
  | none => none
  | some e =>
    if !e.ret then
      some { recv := none
             ret := (none, some (fmt.ErrorfText ("kubeletconfig object " ++ name
               ++ " doesn't exist")))
             state := e.state, calls := e.calls }
    else
      match e.recv with
      | none => none
      | some b =>
        let b1 := { b with Definition := b.Object }
        some { recv := none, ret := (some b1, none), state := e.state, calls := e.calls }

/-- The method `KCBuilder.WithMCPoolSelector`: the builder it returns, which is the
receiver as the method left it. -/
def KCBuilder.WithMCPoolSelector (U : String → String) (builder : Option (KCBuilder σ))
    (key value : String) : Exec (Option (KCBuilder σ)) :=
  match KCBuilder.validate U builder with
  | (b0, false, _) => some b0
  | (b0, true, _) =>
    match b0 with
    | none => none
    | some b =>
      match b.Definition with
      | none => none
      | some d =>
        if key == "" then some (some { b with errorMsg := "'key' cannot be empty" })
        else
          let selector : metav1.LabelSelector :=
            match d.Spec.MachineConfigPoolSelector with
            | none => {}
            | some sel => sel
          let labels : List (String × String) :=
            match selector.MatchLabels with
            | none => []
            | some m => m
          let selector1 : metav1.LabelSelector :=
            { selector with MatchLabels := some (gomap.set labels key value) }
          let d1 : KubeletConfig :=
            { d with Spec := { d.Spec with MachineConfigPoolSelector := some selector1 } }
          some (some { b with Definition := some d1 })

/-- The method `KCBuilder.WithSystemReserved`: the builder it returns, which is the
receiver as the method left it. -/
def KCBuilder.WithSystemReserved (U : String → String) (builder : Option (KCBuilder σ))
    (cpu memory : String) : Exec (Option (KCBuilder σ)) :=
  match KCBuilder.validate U builder with
  | (b0, false, _) => some b0
  | (b0, true, _) =>
    match b0 with
    | none => none
    | some b =>
      match b.Definition with
      | none => none
      | some d =>
        if cpu == "" then some (some { b with errorMsg := "'cpu' cannot be empty" })
        else if memory == "" then
          some (some { b with errorMsg := "'memory' cannot be empty" })
        else
          let raw : runtime.RawExtension :=
            match d.Spec.KubeletConfig with
            | none => {}
            | some r => r
          let raw1 : runtime.RawExtension :=
            match raw.Raw with
            | none => { raw with Raw := some [] }
            | some _ => raw
          let systemReservedKubeletConfiguration :
              kubeletconfigv1beta1.KubeletConfiguration :=
            { SystemReserved := some (gomap.set (gomap.set [] cpu cpu) memory memory) }
          let raw2 : runtime.RawExtension :=
            { raw1 with Object := some systemReservedKubeletConfiguration }
          let d1 : KubeletConfig := { d with Spec := { d.Spec with KubeletConfig := some raw2 } }
          some (some { b with Definition := some d1 })

/-- The builder pointer a `KCAdditionalOptions` function returns: nil, the pointer it was
given, or a pointer to another builder. -/
inductive Returned (σ : Type) where
  | nil
  | given
  | other (b : KCBuilder σ)

/-- What one call of a `KCAdditionalOptions` function leaves behind: the builder it was
given as the function left it, the pointer it returns and its error. -/
structure Applied (σ : Type) where
  given : KCBuilder σ
  builder : Returned σ
  err : Option GoError

/-- The type `KCAdditionalOptions`, a function value supplied by the caller; `WithOptions`
calls it on its non-nil receiver only.  The function may crash; what it does to anything
but the builder is outside the embedding. -/
abbrev KCAdditionalOptions (σ : Type) : Type := KCBuilder σ → Exec (Applied σ)

/-- What `WithOptions` leaves behind: the receiver as the method left it, the builder it
returns, and the positions in `options` of the functions it called, in call order. -/
structure OptionsOutcome (σ : Type) where
  recv : Option (KCBuilder σ)
  ret : Option (KCBuilder σ)
  invoked : List Nat

/-- The loop of `WithOptions` over the options from position `i` on.  The result of an
option is bound to a variable `builder` local to the loop body, which shadows the
receiver: the deferred error is written through the returned pointer and that pointer
is returned, while the next iteration uses the receiver again. -/
def KCBuilder.applyOptions (b : KCBuilder σ) (i : Nat) :
    List (Option (KCAdditionalOptions σ)) → Exec (OptionsOutcome σ)
  | [] => some { recv := some b, ret := some b, invoked := [] }
  | none :: rest => KCBuilder.applyOptions b (i + 1) rest
  | some option :: rest =>
    match option b with
    | none => none
    | some r =>
      match r.err with
      | some err =>
        match r.builder with
        | Returned.nil => none
        | Returned.given =>
          let b1 : KCBuilder σ := { r.given with errorMsg := err.text }
          some { recv := some b1, ret := some b1, invoked := [i] }
        | Returned.other o =>
          some { recv := some r.given, ret := some { o with errorMsg := err.text },
                 invoked := [i] }
      | none =>
        match KCBuilder.applyOptions r.given (i + 1) rest with
        | none => none
        | some out => some { out with invoked := i :: out.invoked }

/-- The method `KCBuilder.WithOptions`; a nil entry of `options` is `none`. -/
def KCBuilder.WithOptions (U : String → String) (builder : Option (KCBuilder σ))
    (options : List (Option (KCAdditionalOptions σ))) : Exec (OptionsOutcome σ) :=
  match KCBuilder.validate U builder with
  | (b0, false, _) => some { recv := b0, ret := b0, invoked := [] }
  | (b0, true, _) =>
    match b0 with
    | none => none
    | some b => KCBuilder.applyOptions b 0 options

end mco

/-! ## pkg/storage: StorageClusterBuilder -/

namespace ocsoperatorv1

/-- The external schema `ocsoperatorv1.ManagedResourcesSpec`; stored without inspection. -/
structure ManagedResourcesSpec where
  CephBlockPools : String := ""
  deriving DecidableEq, Repr

/-- The external schema `ocsoperatorv1.MultiCloudGatewaySpec`; stored without inspection. -/
structure MultiCloudGatewaySpec where
  ReconcileStrategy : String := ""
  deriving DecidableEq, Repr

/-- The external schema `ocsoperatorv1.StorageDeviceSet`; stored without inspection. -/
structure StorageDeviceSet where
  Name : String := ""
  Count : Int := 0
  deriving DecidableEq, Repr

/-- The fields of `ocsoperatorv1.StorageClusterSpec` the builder reads or writes. -/
structure StorageClusterSpec where
  ManageNodes : Bool := false
  ManagedResources : ManagedResourcesSpec := {}
  MonDataDirHostPath : String := ""
  MultiCloudGateway : Option MultiCloudGatewaySpec := none
  StorageDeviceSets : Option (List StorageDeviceSet) := none
  deriving DecidableEq, Repr

/-- The type `metav1.TypeMeta` of a StorageCluster. -/
structure TypeMeta where
  Kind : String := ""
  APIVersion : String := ""
  deriving DecidableEq, Repr

/-- The resource `ocsoperatorv1.StorageCluster`. -/
structure StorageCluster where
  TypeMeta : TypeMeta := {}
  ObjectMeta : metav1.ObjectMeta := {}
  Spec : StorageClusterSpec := {}
  deriving DecidableEq, Repr

end ocsoperatorv1

namespace storage

open ocsoperatorv1

/-- The package constants `StorageClusterKind`, `APIGroup` and `APIVersion`, declared
outside the sources and taken as parameters. -/
structure Consts where
  StorageClusterKind : String
  APIGroup : String
  APIVersion : String

/-- A value of the interface type `goclient.Client` as the field `apiClient` of a
StorageClusterBuilder holds it: the nil interface, or a `*clients.Settings` converted
to the interface, where the pointer itself may be nil. -/
inductive ClientIface (σ : Type) where
  | nil
  | settings (p : Option (clients.Settings σ StorageCluster))

/-- The client behind an interface value, when a method can be called on it: calling
through the nil interface, through a nil `*clients.Settings` or through a Settings whose
embedded client is nil crashes. -/
def ClientIface.client {σ : Type} : ClientIface σ → Option (goclient.Client σ StorageCluster)
  | ClientIface.nil => none
  | ClientIface.settings none => none
  | ClientIface.settings (some st) => st.Client

/-- The comparison `apiClient == nil` on the interface value. -/
def ClientIface.isNil {σ : Type} : ClientIface σ → Bool
  | ClientIface.nil => true
  | ClientIface.settings _ => false

/-- The struct `StorageClusterBuilder`. -/
structure StorageClusterBuilder (σ : Type) where
  Definition : Option StorageCluster := none
  Object : Option StorageCluster := none
  apiClient : ClientIface σ := ClientIface.nil
  errorMsg : String := ""

/-- The calls a StorageClusterBuilder issues on its accessor. -/
abbrev Call : Type := goclient.Call StorageCluster

variable {σ : Type}

/-- The constructor `StorageClusterNewBuilder`. -/
def StorageClusterNewBuilder (k : Consts)
    (apiClient : Option (clients.Settings σ StorageCluster)) (name nsname : String) :
    Option (StorageClusterBuilder σ) :=
  let builder : StorageClusterBuilder σ :=
    { apiClient := ClientIface.settings apiClient
      Definition := some
        { TypeMeta := { Kind := k.StorageClusterKind
                        APIVersion := k.APIGroup ++ "/" ++ k.APIVersion }
          ObjectMeta := { Name := name, Namespace := nsname } } }
  let builder1 := if name == "" then
    { builder with errorMsg := "storageCluster 'name' cannot be empty" } else builder
  let builder2 := if nsname == "" then
    { builder1 with errorMsg := "storageCluster 'nsname' cannot be empty" } else builder1
  some builder2

/-- The method `StorageClusterBuilder.validate`; it never writes to the builder. -/
def StorageClusterBuilder.validate (UndefinedCrdObjectErrString : String → String)
    (builder : Option (StorageClusterBuilder σ)) : Bool × Option GoError :=
  let resourceCRD := "StorageCluster"
  match builder with
  | none => (false, some (fmt.ErrorfText ("error: received nil " ++ resourceCRD ++ " builder")))
  | some b =>
    if b.Definition.isNone then
      (false, some (fmt.Errorf (UndefinedCrdObjectErrString resourceCRD)))
    else if b.apiClient.isNil then
      (false, some (fmt.ErrorfText (resourceCRD ++ " builder cannot have nil apiClient")))
    else (true, none)

/-- The method `StorageClusterBuilder.Get`. -/
def StorageClusterBuilder.Get (U : String → String)
    (builder : Option (StorageClusterBuilder σ)) (s : σ) :
    Exec (Outcome (StorageClusterBuilder σ) (Option StorageCluster × Option GoError) σ Call) :=
  match StorageClusterBuilder.validate U builder with
  | (false, err) => some { recv := builder, ret := (none, err), state := s, calls := [] }
  | (true, _) =>
    match builder with
    | none => none
    | some b =>
      match b.Definition, b.apiClient.client with
      | some d, some c =>
        let key : goclient.ObjectKey := { Name := d.ObjectMeta.Name }
        let r := c.Get key s
        match r.1.2 with
        | some err =>
          some { recv := builder, ret := (none, some err), state := r.2,
                 calls := [goclient.Call.Get key] }
        | none =>
          some { recv := builder, ret := (some r.1.1, none), state := r.2,
                 calls := [goclient.Call.Get key] }
      | _, _ => none

/-- The method `StorageClusterBuilder.Exists`. -/
def StorageClusterBuilder.Exists (U : String → String)
    (builder : Option (StorageClusterBuilder σ)) (s : σ) :
    Exec (Outcome (StorageClusterBuilder σ) Bool σ Call) :=
  match StorageClusterBuilder.validate U builder with
  | (false, _) => some { recv := builder, ret := false, state := s, calls := [] }
  | (true, _) =>
    match StorageClusterBuilder.Get U builder s with
    | none => none
    | some g =>
      match g.recv with
      | none => none
      | some b =>
        some { recv := some { b with Object := g.ret.1 }
               ret := g.ret.2.isNone || !k8serrors.IsNotFound g.ret.2
               state := g.state, calls := g.calls }

/-- The method `StorageClusterBuilder.Create`. -/
def StorageClusterBuilder.Create (U : String → String)
    (builder : Option (StorageClusterBuilder σ)) (s : σ) :
    Exec (Outcome (StorageClusterBuilder σ)
      (Option (StorageClusterBuilder σ) × Option GoError) σ Call) :=
  match StorageClusterBuilder.validate U builder with
  | (false, err) => some { recv := builder, ret := (builder, err), state := s, calls := [] }
  | (true, _) =>
    match StorageClusterBuilder.Exists U builder s with
    | none => none
    | some e =>
      if e.ret then
        some { recv := e.recv, ret := (e.recv, none), state := e.state, calls := e.calls }
      else
        match e.recv with
        | none => none
        | some b =>
          match b.Definition, b.apiClient.client with
          | some d, some c =>
            let r := c.Create d e.state
            match r.1 with
            | none =>
              let b1 := { b with Object := b.Definition }
              some { recv := some b1, ret := (some b1, none), state := r.2,
                     calls := e.calls ++ [goclient.Call.Create d] }
            | some err =>
              some { recv := some b, ret := (some b, some err), state := r.2,
                     calls := e.calls ++ [goclient.Call.Create d] }
          | _, _ => none

/-- The method `StorageClusterBuilder.Delete`. -/
def StorageClusterBuilder.Delete (U : String → String)
    (builder : Option (StorageClusterBuilder σ)) (s : σ) :
    Exec (Outcome (StorageClusterBuilder σ) (Option GoError) σ Call) :=
  match StorageClusterBuilder.validate U builder with
  | (false, err) => some { recv := builder, ret := err, state := s, calls := [] }
  | (true, _) =>
    match builder with
    | none => none
    | some b =>
      match b.Definition, b.apiClient.client with
      | some d, some c =>
        let r := c.Delete d s
        match r.1 with
        | some err =>
          some { recv := some b
                 ret := some (fmt.ErrorfWrap "can not delete storageCluster: " err)
                 state := r.2, calls := [goclient.Call.Delete d] }
        | none =>
          some { recv := some { b with Object := none }, ret := none, state := r.2,
                 calls := [goclient.Call.Delete d] }
      | _, _ => none

/-- The method `StorageClusterBuilder.Update`. -/
def StorageClusterBuilder.Update (U : String → String)
    (builder : Option (StorageClusterBuilder σ)) (s : σ) :
    Exec (Outcome (StorageClusterBuilder σ)
      (Option (StorageClusterBuilder σ) × Option GoError) σ Call) :=
  match StorageClusterBuilder.validate U builder with
  | (false, err) => some { recv := builder, ret := (builder, err), state := s, calls := [] }
  | (true, _) =>
    match StorageClusterBuilder.Exists U builder s with
    | none => none
    | some e =>
      match e.recv with
      | none => none
      | some b =>
        match b.Definition, b.apiClient.client with
        | some d, some c =>
          if !e.ret then
            some { recv := some b
                   ret := (none, some (fmt.ErrorfText ("storageCluster object "
                     ++ d.ObjectMeta.Name ++ " doesn't exist in namespace "
                     ++ d.ObjectMeta.Namespace)))
                   state := e.state, calls := e.calls }
          else
            let r := c.Update d e.state
            match r.1 with
            | none =>
              let b1 := { b with Object := b.Definition }
              some { recv := some b1, ret := (some b1, none), state := r.2,
                     calls := e.calls ++ [goclient.Call.Update d] }
            | some err =>
              some { recv := some b, ret := (some b, some err), state := r.2,
                     calls := e.calls ++ [goclient.Call.Update d] }
        | _, _ => none

/-- The function `PullStorageCluster`.  It has no receiver: `recv` is nil in its outcome. -/
def PullStorageCluster (U : String → String)
    (apiClient : Option (clients.Settings σ StorageCluster)) (name nsname : String) (s : σ) :
    Exec (Outcome (StorageClusterBuilder σ)
      (Option (StorageClusterBuilder σ) × Option GoError) σ Call) :=
  match apiClient with
  | none =>
    some { recv := none
           ret := (none, some (fmt.ErrorfText "storageCluster 'apiClient' cannot be empty"))
           state := s, calls := [] }
  | some settings =>
    let builder : StorageClusterBuilder σ :=
      { apiClient := ClientIface.settings (some settings)
        Definition := some { ObjectMeta := { Name := name, Namespace := nsname } } }
    if name == "" then
      some { recv := none
             ret := (none, some (fmt.ErrorfText "storageCluster 'name' cannot be empty"))
             state := s, calls := [] }
    else if nsname == "" then
      some { recv := none
             ret := (none, some (fmt.ErrorfText "storageCluster 'namespace' cannot be empty"))
             state := s, calls := [] }
    else
      match StorageClusterBuilder.Exists U (some builder) s with
      | none => none
      | some e =>
        if !e.ret then
          some { recv := none
                 ret := (none, some (fmt.ErrorfText ("storageCluster object " ++ name
                   ++ " doesn't exist in namespace " ++ nsname)))
                 state := e.state, calls := e.calls }
        else
          match e.recv with
          | none => none
          | some b =>
            let b1 := { b with Definition := b.Object }
            some { recv := none, ret := (some b1, none), state := e.state, calls := e.calls }

/-- The method `StorageClusterBuilder.GetManageNodes`. -/
def StorageClusterBuilder.GetManageNodes (U : String → String)
    (builder : Option (StorageClusterBuilder σ)) (s : σ) :
    Exec (Outcome (StorageClusterBuilder σ) (Bool × Option GoError) σ Call) :=
  match StorageClusterBuilder.validate U builder with
  | (false, err) => some { recv := builder, ret := (false, err), state := s, calls := [] }
  | (true, _) =>
    match StorageClusterBuilder.Exists U builder s with
    | none => none
    | some e =>
      match e.recv with
      | none => none
      | some b =>
        match b.Definition with
        | none => none
        | some d =>
          if !e.ret then
            some { recv := some b
                   ret := (false, some (fmt.ErrorfText ("storageCluster object "
                     ++ d.ObjectMeta.Name ++ " doesn't exist in namespace "
                     ++ d.ObjectMeta.Namespace)))
                   state := e.state, calls := e.calls }
          else
            match b.Object with
            | none => none
            | some o =>
              some { recv := some b, ret := (o.Spec.ManageNodes, none), state := e.state,
                     calls := e.calls }

/-- The method `StorageClusterBuilder.GetManagedResources`; the pointer it returns is
embedded by value. -/
def StorageClusterBuilder.GetManagedResources (U : String → String)
    (builder : Option (StorageClusterBuilder σ)) (s : σ) :
    Exec (Outcome (StorageClusterBuilder σ) (Option ManagedResourcesSpec × Option GoError)
      σ Call) :=
  match StorageClusterBuilder.validate U builder with
  | (false, err) => some { recv := builder, ret := (none, err), state := s, calls := [] }
  | (true, _) =>
    match StorageClusterBuilder.Exists U builder s with
    | none => none
    | some e =>
      match e.recv with
      | none => none
      | some b =>
        match b.Definition with
        | none => none
        | some d =>
          if !e.ret then
            some { recv := some b
                   ret := (none, some (fmt.ErrorfText ("storageCluster object "
                     ++ d.ObjectMeta.Name ++ " doesn't exist in namespace "
                     ++ d.ObjectMeta.Namespace)))
                   state := e.state, calls := e.calls }
          else
            match b.Object with
            | none => none
            | some o =>
              some { recv := some b, ret := (some o.Spec.ManagedResources, none),
                     state := e.state, calls := e.calls }

/-- The method `StorageClusterBuilder.GetMonDataDirHostPath`. -/
def StorageClusterBuilder.GetMonDataDirHostPath (U : String → String)
    (builder : Option (StorageClusterBuilder σ)) (s : σ) :
    Exec (Outcome (StorageClusterBuilder σ) (String × Option GoError) σ Call) :=
  match StorageClusterBuilder.validate U builder with
  | (false, err) => some { recv := builder, ret := ("", err), state := s, calls := [] }
  | (true, _) =>
    match StorageClusterBuilder.Exists U builder s with
    | none => none
    | some e =>
      match e.recv with
      | none => none
      | some b =>
        match b.Definition with
        | none => none
        | some d =>
          if !e.ret then
            some { recv := some b
                   ret := ("", some (fmt.ErrorfText ("storageCluster object "
                     ++ d.ObjectMeta.Name ++ " doesn't exist in namespace "
                     ++ d.ObjectMeta.Namespace)))
                   state := e.state, calls := e.calls }
          else
            match b.Object with
            | none => none
            | some o =>
              some { recv := some b, ret := (o.Spec.MonDataDirHostPath, none),
                     state := e.state, calls := e.calls }

/-- The method `StorageClusterBuilder.GetMultiCloudGateway`. -/
def StorageClusterBuilder.GetMultiCloudGateway (U : String → String)
    (builder : Option (StorageClusterBuilder σ)) (s : σ) :
    Exec (Outcome (StorageClusterBuilder σ) (Option MultiCloudGatewaySpec × Option GoError)
      σ Call) :=
  match StorageClusterBuilder.validate U builder with
  | (false, err) => some { recv := builder, ret := (none, err), state := s, calls := [] }
  | (true, _) =>
    match StorageClusterBuilder.Exists U builder s with
    | none => none
    | some e =>
      match e.recv with
      | none => none
      | some b =>
        match b.Definition with
        | none => none
        | some d =>
          if !e.ret then
            some { recv := some b
                   ret := (none, some (fmt.ErrorfText ("storageCluster object "
                     ++ d.ObjectMeta.Name ++ " doesn't exist in namespace "
                     ++ d.ObjectMeta.Namespace)))
                   state := e.state, calls := e.calls }
          else
            match b.Object with
            | none => none
            | some o =>
              some { recv := some b, ret := (o.Spec.MultiCloudGateway, none),
                     state := e.state, calls := e.calls }

/-- The method `StorageClusterBuilder.GetStorageDeviceSets`; a nil slice is `none`. -/
def StorageClusterBuilder.GetStorageDeviceSets (U : String → String)
    (builder : Option (StorageClusterBuilder σ)) (s : σ) :
    Exec (Outcome (StorageClusterBuilder σ) (Option (List StorageDeviceSet) × Option GoError)
      σ Call) :=
  match StorageClusterBuilder.validate U builder with
  | (false, err) => some { recv := builder, ret := (none, err), state := s, calls := [] }
  | (true, _) =>
    match StorageClusterBuilder.Exists U builder s with
    | none => none
    | some e =>
      match e.recv with
      | none => none
      | some b =>
        match b.Definition with
        | none => none
        | some d =>
          if !e.ret then
            some { recv := some b
                   ret := (none, some (fmt.ErrorfText ("storageCluster object "
                     ++ d.ObjectMeta.Name ++ " doesn't exist in namespace "
                     ++ d.ObjectMeta.Namespace)))
                   state := e.state, calls := e.calls }
          else
            match b.Object with
            | none => none
            | some o =>
              some { recv := some b, ret := (o.Spec.StorageDeviceSets, none),
                     state := e.state, calls := e.calls }

/-- The method `StorageClusterBuilder.WithManagedResources`: the builder it returns, which
is the receiver as the method left it. -/
def StorageClusterBuilder.WithManagedResources (U : String → String)
    (builder : Option (StorageClusterBuilder σ))
    (expectedManagedResources : ManagedResourcesSpec) :
    Exec (Option (StorageClusterBuilder σ)) :=
  match StorageClusterBuilder.validate U builder with
  | (false, _) => some builder
  | (true, _) =>
    match builder with
    | none => none
    | some b =>
      match b.Definition with
      | none => none
      | some d =>
        if goruntime.addrIsNil expectedManagedResources then
          some (some { b with errorMsg := "the expectedManagedResources can not be empty" })
        else
          let d1 : StorageCluster :=
            { d with Spec := { d.Spec with ManagedResources := expectedManagedResources } }
          some (some { b with Definition := some d1 })

/-- The method `StorageClusterBuilder.WithMultiCloudGateway`: the builder it returns, which
is the receiver as the method left it. -/
def StorageClusterBuilder.WithMultiCloudGateway (U : String → String)
    (builder : Option (StorageClusterBuilder σ))
    (expectedMultiCloudGateway : MultiCloudGatewaySpec) :
    Exec (Option (StorageClusterBuilder σ)) :=
  match StorageClusterBuilder.validate U builder with
  | (false, _) => some builder
  | (true, _) =>
    match builder with
    | none => none
    | some b =>
      match b.Definition with
      | none => none
      | some d =>
        if goruntime.addrIsNil expectedMultiCloudGateway then
          some (some { b with errorMsg := "the expectedMultiCloudGateway can not be empty" })
        else
          let d1 : StorageCluster :=
            { d with Spec := { d.Spec with MultiCloudGateway := some expectedMultiCloudGateway } }
          some (some { b with Definition := some d1 })

/-- The method `StorageClusterBuilder.WithStorageDeviceSet`: the builder it returns, which
is the receiver as the method left it. -/
def StorageClusterBuilder.WithStorageDeviceSet (U : String → String)
    (builder : Option (StorageClusterBuilder σ))
    (expectedStorageDeviceSet : StorageDeviceSet) :
    Exec (Option (StorageClusterBuilder σ)) :=
  match StorageClusterBuilder.validate U builder with
  | (false, _) => some builder
  | (true, _) =>
    match builder with
    | none => none
    | some b =>
      match b.Definition with
      | none => none
      | some d =>
        if goruntime.addrIsNil expectedStorageDeviceSet then
          some (some { b with errorMsg := "the expectedStorageDeviceSet can not be empty" })
        else
          let sets : List StorageDeviceSet :=
            match d.Spec.StorageDeviceSets with
            | none => []
            | some l => l
          let d1 : StorageCluster :=
            { d with Spec := { d.Spec with
                StorageDeviceSets := some (sets ++ [expectedStorageDeviceSet]) } }
          some (some { b with Definition := some d1 })

end storage

/-! ## pkg/servicemesh: ControlPlaneBuilder and MemberRollBuilder -/

namespace istioV1

/-- The type `istioV1.HelmValues`; the builder stores it without inspection. -/
structure HelmValues where
  data : List (String × String) := []
  deriving DecidableEq, Repr

end istioV1

namespace istioV2

/-- The type `istioV2.Enablement`; a nil `Enabled` is `none`. -/
structure Enablement where
  Enabled : Option Bool := none
  deriving DecidableEq, Repr

/-- The type `istioV2.MetadataConfig`; a nil map is `none`. -/
structure MetadataConfig where
  Labels : Option (List (String × String)) := none
  Annotations : Option (List (String × String)) := none
  deriving DecidableEq, Repr

/-- The fields of `istioV2.ComponentIngressConfig` the builder writes. -/
structure ComponentIngressConfig where
  Enablement : Enablement := {}
  Metadata : Option MetadataConfig := none
  Hosts : Option (List String) := none
  ContextPath : String := ""
  TLS : Option istioV1.HelmValues := none
  deriving DecidableEq, Repr

/-- The fields of `istioV2.ComponentServiceConfig` the builder writes. -/
structure ComponentServiceConfig where
  Metadata : Option MetadataConfig := none
  NodePort : Option Int := none
  Ingress : Option ComponentIngressConfig := none
  deriving DecidableEq, Repr

/-- The fields of `istioV2.PrometheusInstallConfig` the builder writes. -/
structure PrometheusInstallConfig where
  SelfManaged : Bool := false
  Retention : String := ""
  ScrapeInterval : String := ""
  Service : Option ComponentServiceConfig := none
  UseTLS : Option Bool := none
  deriving DecidableEq, Repr

/-- The fields of `istioV2.PrometheusAddonConfig` the builder writes. -/
structure PrometheusAddonConfig where
  Enablement : Enablement := {}
  MetricsExpiryDuration : String := ""
  Scrape : Option Bool := none
  Install : Option PrometheusInstallConfig := none
  Address : Option String := none
  deriving DecidableEq, Repr

/-- The type `istioV2.JaegerMemoryStorageConfig`. -/
structure JaegerMemoryStorageConfig where
  MaxTraces : Option Int := none
  deriving DecidableEq, Repr

/-- The fields of `istioV2.JaegerElasticsearchStorageConfig` the builder writes. -/
structure JaegerElasticsearchStorageConfig where
  NodeCount : Option Int := none
  Storage : Option istioV1.HelmValues := none
  RedundancyPolicy : String := ""
  IndexCleaner : Option istioV1.HelmValues := none
  deriving DecidableEq, Repr

/-- The type `istioV2.JaegerStorageConfig`; `Type_` is its field `Type`, a string. -/
structure JaegerStorageConfig where
  Type_ : String := ""
  Memory : Option JaegerMemoryStorageConfig := none
  Elasticsearch : Option JaegerElasticsearchStorageConfig := none
  deriving DecidableEq, Repr

/-- The fields of `istioV2.JaegerIngressConfig` the builder writes. -/
structure JaegerIngressConfig where
  Enablement : Enablement := {}
  Metadata : Option MetadataConfig := none
  deriving DecidableEq, Repr

/-- The fields of `istioV2.JaegerInstallConfig` the builder writes. -/
structure JaegerInstallConfig where
  Storage : Option JaegerStorageConfig := none
  Ingress : Option JaegerIngressConfig := none
  deriving DecidableEq, Repr

/-- The type `istioV2.JaegerAddonConfig`. -/
structure JaegerAddonConfig where
  Name : String := ""
  Install : Option JaegerInstallConfig := none
  deriving DecidableEq, Repr

/-- The type `istioV2.GrafanaInstallConfig`; the builder stores it without inspection. -/
structure GrafanaInstallConfig where
  SelfManaged : Bool := false
  deriving DecidableEq, Repr

/-- The type `istioV2.GrafanaAddonConfig`. -/
structure GrafanaAddonConfig where
  Enablement : Enablement := {}
  Install : Option GrafanaInstallConfig := none
  Address : Option String := none
  deriving DecidableEq, Repr

/-- The type `istioV2.KialiDashboardConfig`. -/
structure KialiDashboardConfig where
  ViewOnly : Option Bool := none
  EnableGrafana : Option Bool := none
  EnablePrometheus : Option Bool := none
  EnableTracing : Option Bool := none
  deriving DecidableEq, Repr

/-- The type `istioV2.KialiInstallConfig`. -/
structure KialiInstallConfig where
  Dashboard : Option KialiDashboardConfig := none
  Service : Option ComponentServiceConfig := none
  deriving DecidableEq, Repr

/-- The type `istioV2.KialiAddonConfig`. -/
structure KialiAddonConfig where
  Enablement : Enablement := {}
  Name : String := ""
  Install : Option KialiInstallConfig := none
  deriving DecidableEq, Repr

/-- The type `istioV2.StackdriverAddonConfig`; the builder only ever stores its zero
value. -/
structure StackdriverAddonConfig where
  deriving DecidableEq, Repr

/-- The type `istioV2.ThreeScaleAddonConfig`; the builder only ever stores its zero
value. -/
structure ThreeScaleAddonConfig where
  deriving DecidableEq, Repr

/-- The type `istioV2.AddonsConfig`; an addon that is not configured is `none`. -/
structure AddonsConfig where
  Prometheus : Option PrometheusAddonConfig := none
  Stackdriver : Option StackdriverAddonConfig := none
  Jaeger : Option JaegerAddonConfig := none
  Grafana : Option GrafanaAddonConfig := none
  Kiali : Option KialiAddonConfig := none
  ThreeScale : Option ThreeScaleAddonConfig := none
  deriving DecidableEq, Repr

/-- The fields of `istioV2.GatewaysConfig` the builder writes. -/
structure GatewaysConfig where
  Enablement : Enablement := {}
  deriving DecidableEq, Repr

/-- The fields of `istioV2.ControlPlaneSpec` the builder reads or writes. -/
structure ControlPlaneSpec where
  Addons : Option AddonsConfig := none
  Gateways : Option GatewaysConfig := none
  deriving DecidableEq, Repr

/-- The resource `istioV2.ServiceMeshControlPlane`. -/
structure ServiceMeshControlPlane where
  ObjectMeta : metav1.ObjectMeta := {}
  Spec : ControlPlaneSpec := {}
  deriving DecidableEq, Repr

end istioV2

namespace istioV1

/-- The resource `istioV1.ServiceMeshMemberRoll`. -/
structure ServiceMeshMemberRoll where
  ObjectMeta : metav1.ObjectMeta := {}
  deriving DecidableEq, Repr

end istioV1

namespace servicemesh

open istioV2 istioV1

/-- The struct `ControlPlaneBuilder`. -/
structure ControlPlaneBuilder (σ : Type) where
  Definition : Option ServiceMeshControlPlane := none
  Object : Option ServiceMeshControlPlane := none
  errorMsg : String := ""
  apiClient : Option (clients.Settings σ ServiceMeshControlPlane) := none

/-- The struct `MemberRollBuilder`. -/
structure MemberRollBuilder (σ : Type) where
  Definition : Option ServiceMeshMemberRoll := none
  Object : Option ServiceMeshMemberRoll := none
  errorMsg : String := ""
  apiClient : Option (clients.Settings σ ServiceMeshMemberRoll) := none

variable {σ : Type}

/-- The constructor `NewServiceMeshControlPlane`. -/
def NewServiceMeshControlPlane (apiClient : Option (clients.Settings σ ServiceMeshControlPlane))
    (name nsname : String) : Option (ControlPlaneBuilder σ) :=
  let builder : ControlPlaneBuilder σ :=
    { apiClient := apiClient
      Definition := some { ObjectMeta := { Name := name, Namespace := nsname } } }
  let builder1 := if name == "" then
    { builder with errorMsg := "The serviceMeshControlPlane 'name' cannot be empty" }
    else builder
  let builder2 := if nsname == "" then
    { builder1 with errorMsg := "The serviceMeshControlPlane 'namespace' cannot be empty" }
    else builder1
  some builder2

/-- The method `ControlPlaneBuilder.validate`: the builder as the checks left it (they may
write `errorMsg`), whether it is valid, and the error. -/
def ControlPlaneBuilder.validate (UndefinedCrdObjectErrString : String → String)
    (builder : Option (ControlPlaneBuilder σ)) :
    Option (ControlPlaneBuilder σ) × Bool × Option GoError :=
  let resourceCRD := "ServiceMeshControlPlane"
  match builder with
  | none =>
    (none, false, some (fmt.ErrorfText ("error: received nil " ++ resourceCRD ++ " builder")))
  | some b =>
    let b1 := if b.Definition.isNone then
      { b with errorMsg := UndefinedCrdObjectErrString resourceCRD } else b
    let b2 := if b1.apiClient.isNone then
      { b1 with errorMsg := resourceCRD ++ " builder cannot have nil apiClient" } else b1
    if b2.errorMsg != "" then (some b2, false, some (fmt.Errorf b2.errorMsg))
    else (some b2, true, none)

/-- The method `ControlPlaneBuilder.Discover`. -/
def ControlPlaneBuilder.Discover (U : String → String)
    (builder : Option (ControlPlaneBuilder σ)) (s : σ) :
    Exec (Outcome (ControlPlaneBuilder σ) (Option GoError) σ
      (goclient.Call ServiceMeshControlPlane)) :=
  match ControlPlaneBuilder.validate U builder with
  | (b0, false, err) => some { recv := b0, ret := err, state := s, calls := [] }
  | (b0, true, _) =>
    match b0 with
    | none => none
    | some b =>
      match b.Definition, b.apiClient with
      | some d, some settings =>
        match settings.Client with
        | none => none
        | some c =>
          let key : goclient.ObjectKey :=
            { Name := d.ObjectMeta.Name, Namespace := d.ObjectMeta.Namespace }
          let r := c.Get key s
          some { recv := some { b with Object := some r.1.1 }, ret := r.1.2, state := r.2,
                 calls := [goclient.Call.Get key] }
      | _, _ => none

/-- The method `ControlPlaneBuilder.Exists`. -/
def ControlPlaneBuilder.Exists (U : String → String)
    (builder : Option (ControlPlaneBuilder σ)) (s : σ) :
    Exec (Outcome (ControlPlaneBuilder σ) Bool σ (goclient.Call ServiceMeshControlPlane)) :=
  match ControlPlaneBuilder.validate U builder with
  | (b0, false, _) => some { recv := b0, ret := false, state := s, calls := [] }
  | (b0, true, _) =>
    match ControlPlaneBuilder.Discover U b0 s with
    | none => none
    | some g =>
      some { recv := g.recv, ret := g.ret.isNone || !k8serrors.IsNotFound g.ret
             state := g.state, calls := g.calls }

/-- The method `ControlPlaneBuilder.WithAllAddonsDisabled`: the builder it returns, which
is the receiver as the method left it.  The method first fills in every addon that is
nil and then replaces the whole `Addons` value. -/
def ControlPlaneBuilder.WithAllAddonsDisabled (U : String → String)
    (builder : Option (ControlPlaneBuilder σ)) : Exec (Option (ControlPlaneBuilder σ)) :=
  match ControlPlaneBuilder.validate U builder with
  | (b0, false, _) => some b0
  | (b0, true, _) =>
    match b0 with
    | none => none
    | some b =>
      match b.Definition with
      | none => none
      | some d =>
        let enablement := false
        let addons0 : AddonsConfig :=
          match d.Spec.Addons with
          | none => {}
          | some a => a
        let addons1 : AddonsConfig :=
          match addons0.Grafana with
          | none => { addons0 with Grafana := some {} }
          | some _ => addons0
        let addons2 : AddonsConfig :=
          match addons1.Kiali with
          | none => { addons1 with Kiali := some {} }
          | some _ => addons1
        let addons3 : AddonsConfig :=
          match addons2.Jaeger with
          | none => { addons2 with Jaeger := some {} }
          | some _ => addons2
        let addons4 : AddonsConfig :=
          match addons3.Prometheus with
          | none => { addons3 with Prometheus := some {} }
          | some _ => addons3
        let addons5 : AddonsConfig :=
          match addons4.Stackdriver with
          | none => { addons4 with Stackdriver := some {} }
          | some _ => addons4
        let addons6 : AddonsConfig :=
          match addons5.ThreeScale with
          | none => { addons5 with ThreeScale := some {} }
          | some _ => addons5
        let d0 : ServiceMeshControlPlane := { d with Spec := { d.Spec with Addons := some addons6 } }
        let disableAllAddons : AddonsConfig :=
          { Prometheus := some { Enablement := { Enabled := some enablement } }
            Jaeger := some
              { Install := some
                  { Ingress := some { Enablement := { Enabled := some enablement } } } }
            Grafana := some { Enablement := { Enabled := some enablement } }
            Kiali := some { Enablement := { Enabled := some enablement } } }
        let d1 : ServiceMeshControlPlane :=
          { d0 with Spec := { d0.Spec with Addons := some disableAllAddons } }
        some (some { b with Definition := some d1 })

/-- The method `ControlPlaneBuilder.WithGrafanaAddon`: the builder it returns, which is the
receiver as the method left it. -/
def ControlPlaneBuilder.WithGrafanaAddon (U : String → String)
    (builder : Option (ControlPlaneBuilder σ)) (enablement : Bool)
    (install : Option GrafanaInstallConfig) (address : Option String) :
    Exec (Option (ControlPlaneBuilder σ)) :=
  match ControlPlaneBuilder.validate U builder with
  | (b0, false, _) => some b0
  | (b0, true, _) =>
    match b0 with
    | none => none
    | some b =>
      match b.Definition with
      | none => none
      | some d =>
        let grafanaAddon : GrafanaAddonConfig :=
          { Enablement := { Enabled := some enablement }
            Install := install
            Address := address }
        let addons0 : AddonsConfig :=
          match d.Spec.Addons with
          | none => {}
          | some a => a
        let addons1 : AddonsConfig :=
          match addons0.Grafana with
          | none => { addons0 with Grafana := some {} }
          | some _ => addons0
        let addons2 : AddonsConfig := { addons1 with Grafana := some grafanaAddon }
        let d1 : ServiceMeshControlPlane := { d with Spec := { d.Spec with Addons := some addons2 } }
        some (some { b with Definition := some d1 })

/-- The method `ControlPlaneBuilder.WithJaegerAddon`: the builder it returns, which is the
receiver as the method left it. -/
def ControlPlaneBuilder.WithJaegerAddon (U : String → String)
    (builder : Option (ControlPlaneBuilder σ)) (name : String) (storageType : String)
    (memoryStorageMaxTraces : Int) (elasticSearchNodesCount : Int)
    (elasticsearchStorage : istioV1.HelmValues) (elasticsearchRedundancyPolicy : String)
    (elasticsearchIndexCleaner : istioV1.HelmValues) (ingressEnablement : Bool)
    (ingressLabels ingressAnnotations : Option (List (String × String))) :
    Exec (Option (ControlPlaneBuilder σ)) :=
  match ControlPlaneBuilder.validate U builder with
  | (b0, false, _) => some b0
  | (b0, true, _) =>
    match b0 with
    | none => none
    | some b =>
      match b.Definition with
      | none => none
      | some d =>
        let storage : JaegerStorageConfig :=
          { Type_ := storageType
            Memory := some { MaxTraces := some memoryStorageMaxTraces }
            Elasticsearch := some
              { NodeCount := some elasticSearchNodesCount
                Storage := some elasticsearchStorage
                RedundancyPolicy := elasticsearchRedundancyPolicy
                IndexCleaner := some elasticsearchIndexCleaner } }
        let ingress : JaegerIngressConfig :=
          { Enablement := { Enabled := some ingressEnablement }
            Metadata := some { Labels := ingressLabels, Annotations := ingressAnnotations } }
        let jaegerAddon : JaegerAddonConfig :=
          { Name := name
            Install := some { Storage := some storage, Ingress := some ingress } }
        let addons0 : AddonsConfig :=
          match d.Spec.Addons with
          | none => {}
          | some a => a
        let addons1 : AddonsConfig :=
          match addons0.Jaeger with
          | none => { addons0 with Jaeger := some {} }
          | some _ => addons0
        let addons2 : AddonsConfig := { addons1 with Jaeger := some jaegerAddon }
        let d1 : ServiceMeshControlPlane := { d with Spec := { d.Spec with Addons := some addons2 } }
        some (some { b with Definition := some d1 })

/-- The method `ControlPlaneBuilder.WithKialiAddon`: the builder it returns, which is the
receiver as the method left it. -/
def ControlPlaneBuilder.WithKialiAddon (U : String → String)
    (builder : Option (ControlPlaneBuilder σ)) (enablement : Bool) (name : String)
    (dashboardViewOnly dashboardEnableGrafana dashboardEnablePrometheus
      dashboardEnableTracing : Bool)
    (serviceLabels serviceAnnotations : Option (List (String × String)))
    (serviceNodePort : Int) (ingressEnablement : Bool)
    (ingressLabels ingressAnnotations : Option (List (String × String)))
    (ingressHosts : Option (List String)) (ingressContextPath : String)
    (ingressTLS : istioV1.HelmValues) :
    Exec (Option (ControlPlaneBuilder σ)) :=
  match ControlPlaneBuilder.validate U builder with
  | (b0, false, _) => some b0
  | (b0, true, _) =>
    match b0 with
    | none => none
    | some b =>
      match b.Definition with
      | none => none
      | some d =>
        let dashboard : KialiDashboardConfig :=
          { ViewOnly := some dashboardViewOnly
            EnableGrafana := some dashboardEnableGrafana
            EnablePrometheus := some dashboardEnablePrometheus
            EnableTracing := some dashboardEnableTracing }
        let ingress : ComponentIngressConfig :=
          { Enablement := { Enabled := some ingressEnablement }
            Metadata := some { Labels := ingressLabels, Annotations := ingressAnnotations }
            Hosts := ingressHosts
            ContextPath := ingressContextPath
            TLS := some ingressTLS }
        let service : ComponentServiceConfig :=
          { Metadata := some { Labels := serviceLabels, Annotations := serviceAnnotations }
            NodePort := some serviceNodePort
            Ingress := some ingress }
        let kialiAddon : KialiAddonConfig :=
          { Enablement := { Enabled := some enablement }
            Name := name
            Install := some { Dashboard := some dashboard, Service := some service } }
        let addons0 : AddonsConfig :=
          match d.Spec.Addons with
          | none => {}
          | some a => a
        let addons1 : AddonsConfig :=
          match addons0.Kiali with
          | none => { addons0 with Kiali := some {} }
          | some _ => addons0
        let addons2 : AddonsConfig := { addons1 with Kiali := some kialiAddon }
        let d1 : ServiceMeshControlPlane := { d with Spec := { d.Spec with Addons := some addons2 } }
        some (some { b with Definition := some d1 })

/-- The method `ControlPlaneBuilder.WithPrometheusAddon`: the builder it returns, which is
the receiver as the method left it. -/
def ControlPlaneBuilder.WithPrometheusAddon (U : String → String)
    (builder : Option (ControlPlaneBuilder σ)) (enablement : Bool)
    (metricsExpiryDuration : String) (scrape : Bool)
    (installRetention installScrapeInterval : String)
    (serviceLabels serviceAnnotations : Option (List (String × String)))
    (serviceNodePort : Int) (ingressEnablement : Bool)
    (ingressLabels ingressAnnotations : Option (List (String × String)))
    (ingressHosts : Option (List String)) (ingressContextPath : String)
    (ingressTLS : istioV1.HelmValues) (useTLS : Bool) (address : String) :
    Exec (Option (ControlPlaneBuilder σ)) :=
  match ControlPlaneBuilder.validate U builder with
  | (b0, false, _) => some b0
  | (b0, true, _) =>
    match b0 with
    | none => none
    | some b =>
      match b.Definition with
      | none => none
      | some d =>
        let ingress : ComponentIngressConfig :=
          { Enablement := { Enabled := some ingressEnablement }
            Metadata := some { Labels := ingressLabels, Annotations := ingressAnnotations }
            Hosts := ingressHosts
            ContextPath := ingressContextPath
            TLS := some ingressTLS }
        let service : ComponentServiceConfig :=
          { Metadata := some { Labels := serviceLabels, Annotations := serviceAnnotations }
            NodePort := some serviceNodePort
            Ingress := some ingress }
        let install : PrometheusInstallConfig :=
          { SelfManaged := false
            Retention := installRetention
            ScrapeInterval := installScrapeInterval
            Service := some service
            UseTLS := some useTLS }
        let prometheusAddon : PrometheusAddonConfig :=
          { Enablement := { Enabled := some enablement }
            MetricsExpiryDuration := metricsExpiryDuration
            Scrape := some scrape
            Install := some install
            Address := some address }
        let addons0 : AddonsConfig :=
          match d.Spec.Addons with
          | none => {}
          | some a => a
        let addons1 : AddonsConfig :=
          match addons0.Prometheus with
          | none => { addons0 with Prometheus := some {} }
          | some _ => addons0
        let addons2 : AddonsConfig := { addons1 with Prometheus := some prometheusAddon }
        let d1 : ServiceMeshControlPlane := { d with Spec := { d.Spec with Addons := some addons2 } }
        some (some { b with Definition := some d1 })

/-- The constructor `NewServiceMeshMemberRoll`. -/
def NewServiceMeshMemberRoll (apiClient : Option (clients.Settings σ ServiceMeshMemberRoll))
    (name nsname : String) : Option (MemberRollBuilder σ) :=
  let builder : MemberRollBuilder σ :=
    { apiClient := apiClient
      Definition := some { ObjectMeta := { Name := name, Namespace := nsname } } }
  let builder1 := if name == "" then
    { builder with errorMsg := "The serviceMeshMemberRoll 'name' cannot be empty" }
    else builder
  let builder2 := if nsname == "" then
    { builder1 with errorMsg := "The serviceMeshMemberRoll 'namespace' cannot be empty" }
    else builder1
  some builder2

/-- The method `MemberRollBuilder.validate`: the builder as the checks left it (they may
write `errorMsg`), whether it is valid, and the error. -/
def MemberRollBuilder.validate (UndefinedCrdObjectErrString : String → String)
    (builder : Option (MemberRollBuilder σ)) :
    Option (MemberRollBuilder σ) × Bool × Option GoError :=
  let resourceCRD := "ServiceMeshMemberRoll"
  match builder with
  | none =>
    (none, false, some (fmt.ErrorfText ("error: received nil " ++ resourceCRD ++ " builder")))
  | some b =>
    let b1 := if b.Definition.isNone then
      { b with errorMsg := UndefinedCrdObjectErrString resourceCRD } else b
    let b2 := if b1.apiClient.isNone then
      { b1 with errorMsg := resourceCRD ++ " builder cannot have nil apiClient" } else b1
    if b2.errorMsg != "" then (some b2, false, some (fmt.Errorf b2.errorMsg))
    else (some b2, true, none)

/-- The method `MemberRollBuilder.Discover`. -/
def MemberRollBuilder.Discover (U : String → String)
    (builder : Option (MemberRollBuilder σ)) (s : σ) :
    Exec (Outcome (MemberRollBuilder σ) (Option GoError) σ
      (goclient.Call ServiceMeshMemberRoll)) :=
  match MemberRollBuilder.validate U builder with
  | (b0, false, err) => some { recv := b0, ret := err, state := s, calls := [] }
  | (b0, true, _) =>
    match b0 with
    | none => none
    | some b =>
      match b.Definition, b.apiClient with
      | some d, some settings =>
        match settings.Client with
        | none => none
        | some c =>
          let key : goclient.ObjectKey :=
            { Name := d.ObjectMeta.Name, Namespace := d.ObjectMeta.Namespace }
          let r := c.Get key s
          some { recv := some { b with Object := some r.1.1 }, ret := r.1.2, state := r.2,
                 calls := [goclient.Call.Get key] }
      | _, _ => none

/-- The method `MemberRollBuilder.Exists`. -/
def MemberRollBuilder.Exists (U : String → String)
    (builder : Option (MemberRollBuilder σ)) (s : σ) :
    Exec (Outcome (MemberRollBuilder σ) Bool σ (goclient.Call ServiceMeshMemberRoll)) :=
  match MemberRollBuilder.validate U builder with
  | (b0, false, _) => some { recv := b0, ret := false, state := s, calls := [] }
  | (b0, true, _) =>
    match MemberRollBuilder.Discover U b0 s with
    | none => none
    | some g =>
      some { recv := g.recv, ret := g.ret.isNone || !k8serrors.IsNotFound g.ret
             state := g.state, calls := g.calls }

end servicemesh

/-! ## pkg/schemes/assisted/models: DomainResolutionResponse -/

namespace errors

/-- The kinds of `*errors.Validation` that the validation of a DomainResolutionResponse
can build (package `github.com/go-openapi/errors`, which is not part of the sources). -/
inductive Kind where
  | Required
  | InvalidType
  | InvalidTypeName
  deriving DecidableEq, Repr

/-- An error of package `github.com/go-openapi/errors`: a `*Validation` with its kind,
its `Name`, its `In` and its value when that is a string (the message text, which is
composed from these, is left out), or a `*CompositeError` with its list of errors. -/
inductive Error where
  | Validation (kind : Kind) (Name In Value : String)
  | CompositeError (Errors : List Error)
  deriving Repr

mutual

/-- The methods `(*Validation).ValidateName` and `(*CompositeError).ValidateName`: a
validation without a name takes `name`, a named one has `name` and a dot put in front
of its name, and a composite error passes the call on to each of its errors. -/
def Error.ValidateName (name : String) : Error → Error
  | Error.Validation k n i v =>
    if name != "" then
      if n == "" then Error.Validation k name i v
      else Error.Validation k (name ++ "." ++ n) i v
    else Error.Validation k n i v
  | Error.CompositeError es => Error.CompositeError (ValidateNames name es)

/-- The loop of `(*CompositeError).ValidateName` over the errors of the list. -/
def ValidateNames (name : String) : List Error → List Error
  | [] => []
  | e :: es => Error.ValidateName name e :: ValidateNames name es

end

/-- The function `errors.Required`. -/
def Required (field in_ : String) : Error :=
  Error.Validation Kind.Required field in_ ""

/-- The function `errors.InvalidType` for a string value. -/
def InvalidType (name in_ : String) (value : String) : Error :=
  Error.Validation Kind.InvalidType name in_ value

/-- The function `errors.InvalidTypeName`: a validation without name. -/
def InvalidTypeName (typeName : String) : Error :=
  Error.Validation Kind.InvalidTypeName "" "" typeName

/-- The function `errors.CompositeValidationError`. -/
def CompositeValidationError (errs : List Error) : Error :=
  Error.CompositeError errs

end errors

namespace strfmt

/-- The methods of the interface `strfmt.Registry` that validation calls (package
`github.com/go-openapi/strfmt`, which is not part of the sources): whether a format
name is registered, and whether a text is accepted under a format. -/
structure Registry where
  ContainsName : String → Bool
  Validates : String → String → Bool

end strfmt

namespace swag

/-- The function `swag.IsZero` on a pointer to a struct without `IsZero` method and on a
slice (package `github.com/go-openapi/swag`): true exactly for nil. -/
def IsZero {α : Type} (data : Option α) : Bool :=
  data.isNone

end swag

namespace validate

/-- The function `validate.Required` on a pointer or a slice (package
`github.com/go-openapi/validate`): the value is refused when it equals the zero value
of its type, which is nil; an empty slice that is not nil is accepted. -/
def Required {α : Type} (path in_ : String) (data : Option α) : Option errors.Error :=
  match data with
  | none => some (errors.Required path in_)
  | some _ => none

/-- The function `validate.FormatOf`; a nil registry stands for `strfmt.Default`, which
is taken as a parameter. -/
def FormatOf (Default : strfmt.Registry) (path in_ format data : String)
    (registry : Option strfmt.Registry) : Option errors.Error :=
  let registry1 : strfmt.Registry :=
    match registry with
    | none => Default
    | some r => r
  if !registry1.ContainsName format then some (errors.InvalidTypeName format)
  else if !registry1.Validates format data then some (errors.InvalidType path in_ data)
  else none

end validate

namespace models

/-- The struct `DomainResolutionResponseDomain`; a nil slice or pointer is `none`, and the
string types `strfmt.IPv4` and `strfmt.IPv6` are strings. -/
structure DomainResolutionResponseDomain where
  Cnames : Option (List String) := none
  DomainName : Option String := none
  IPV4Addresses : Option (List String) := none
  IPV6Addresses : Option (List String) := none
  deriving DecidableEq, Repr

/-- The struct `DomainResolutionResponse`; a nil slice is `none`, a nil element `none`. -/
structure DomainResolutionResponse where
  Resolutions : Option (List (Option DomainResolutionResponseDomain)) := none
  deriving DecidableEq, Repr

/-- The method `DomainResolutionResponseDomain.validateDomainName`; the receiver is
dereferenced, and every caller passes a pointer it has found non-nil. -/
def DomainResolutionResponseDomain.validateDomainName (m : DomainResolutionResponseDomain)
    (_formats : Option strfmt.Registry) : Option errors.Error :=
  match validate.Required "domain_name" "body" m.DomainName with
  | some err => some err
  | none => none

/-- The loop of `validateIPV4Addresses` from index `i` on. -/
def DomainResolutionResponseDomain.validateIPV4AddressesLoop (Default : strfmt.Registry)
    (formats : Option strfmt.Registry) (i : Nat) : List String → Option errors.Error
  | [] => none
  | a :: rest =>
    match validate.FormatOf Default ("ipv4_addresses" ++ "." ++ toString i) "body" "ipv4" a
      formats with
    | some err => some err
    | none =>
      DomainResolutionResponseDomain.validateIPV4AddressesLoop Default formats (i + 1) rest

/-- The method `DomainResolutionResponseDomain.validateIPV4Addresses`. -/
def DomainResolutionResponseDomain.validateIPV4Addresses (Default : strfmt.Registry)
    (m : DomainResolutionResponseDomain) (formats : Option strfmt.Registry) :
    Option errors.Error :=
  if swag.IsZero m.IPV4Addresses then none
  else
    match m.IPV4Addresses with
    | none => none
    | some l => DomainResolutionResponseDomain.validateIPV4AddressesLoop Default formats 0 l

/-- The loop of `validateIPV6Addresses` from index `i` on. -/
def DomainResolutionResponseDomain.validateIPV6AddressesLoop (Default : strfmt.Registry)
    (formats : Option strfmt.Registry) (i : Nat) : List String → Option errors.Error
  | [] => none
  | a :: rest =>
    match validate.FormatOf Default ("ipv6_addresses" ++ "." ++ toString i) "body" "ipv6" a
      formats with
    | some err => some err
    | none =>
      DomainResolutionResponseDomain.validateIPV6AddressesLoop Default formats (i + 1) rest

/-- The method `DomainResolutionResponseDomain.validateIPV6Addresses`. -/
def DomainResolutionResponseDomain.validateIPV6Addresses (Default : strfmt.Registry)
    (m : DomainResolutionResponseDomain) (formats : Option strfmt.Registry) :
    Option errors.Error :=
  if swag.IsZero m.IPV6Addresses then none
  else
    match m.IPV6Addresses with
    | none => none
    | some l => DomainResolutionResponseDomain.validateIPV6AddressesLoop Default formats 0 l

/-- The method `DomainResolutionResponseDomain.Validate`. -/
def DomainResolutionResponseDomain.Validate (Default : strfmt.Registry)
    (m : DomainResolutionResponseDomain) (formats : Option strfmt.Registry) :
    Option errors.Error :=
  let res0 : List errors.Error := []
  let res1 : List errors.Error :=
    match DomainResolutionResponseDomain.validateDomainName m formats with
    | some err => res0 ++ [err]
    | none => res0
  let res2 : List errors.Error :=
    match DomainResolutionResponseDomain.validateIPV4Addresses Default m formats with
    | some err => res1 ++ [err]
    | none => res1
  let res3 : List errors.Error :=
    match DomainResolutionResponseDomain.validateIPV6Addresses Default m formats with
    | some err => res2 ++ [err]
    | none => res2
  if res3.length > 0 then some (errors.CompositeValidationError res3) else none

/-- The loop of `validateResolutions` from index `i` on: a nil element is skipped, and the
first element whose own validation fails ends the loop with that error, renamed. -/
def DomainResolutionResponse.validateResolutionsLoop (Default : strfmt.Registry)
    (formats : Option strfmt.Registry) (i : Nat) :
    List (Option DomainResolutionResponseDomain) → Option errors.Error
  | [] => none
  | r :: rest =>
    if swag.IsZero r then
      DomainResolutionResponse.validateResolutionsLoop Default formats (i + 1) rest
    else
      match r with
      | none => DomainResolutionResponse.validateResolutionsLoop Default formats (i + 1) rest
      | some e =>
        match DomainResolutionResponseDomain.Validate Default e formats with
        | some (errors.Error.Validation k n l v) =>
          some (errors.Error.ValidateName ("resolutions" ++ "." ++ toString i)
            (errors.Error.Validation k n l v))
        | some (errors.Error.CompositeError es) =>
          some (errors.Error.ValidateName ("resolutions" ++ "." ++ toString i)
            (errors.Error.CompositeError es))
        | none => DomainResolutionResponse.validateResolutionsLoop Default formats (i + 1) rest

/-- The method `DomainResolutionResponse.validateResolutions`; the receiver is
dereferenced. -/
def DomainResolutionResponse.validateResolutions (Default : strfmt.Registry)
    (m : DomainResolutionResponse) (formats : Option strfmt.Registry) :
    Option errors.Error :=
  match validate.Required "resolutions" "body" m.Resolutions with
  | some err => some err
  | none =>
    match m.Resolutions with
    | none => none
    | some l => DomainResolutionResponse.validateResolutionsLoop Default formats 0 l

/-- The method `DomainResolutionResponse.Validate`; a nil receiver crashes at the read of
`m.Resolutions`. -/
def DomainResolutionResponse.Validate (Default : strfmt.Registry)
    (m : Option DomainResolutionResponse) (formats : Option strfmt.Registry) :
    Exec (Option errors.Error) :=
  match m with
  | none => none
  | some r =>
    let res0 : List errors.Error := []
    let res1 : List errors.Error :=
      match DomainResolutionResponse.validateResolutions Default r formats with
      | some err => res0 ++ [err]
      | none => res0
    if res1.length > 0 then some (some (errors.CompositeValidationError res1)) else some none

end models

/-! ## Accessors that behave as a key-value store -/

namespace goclient

variable {σ R : Type}

/-- The not-found error a store reports for a key. -/
def notFoundError (key : ObjectKey) : GoError :=
  { text := key.Name ++ " not found", notFound := true }

/-- The already-exists error a store reports for a key. -/
def alreadyExistsError (key : ObjectKey) : GoError :=
  { text := key.Name ++ " already exists", notFound := false }

/-- An in-memory accessor: the remote state is the list of stored objects, `keyOf`
gives the key of an object and `empty` is the zero value a failed Get leaves in the
object it was given.  Get fails with not-found exactly when the key is absent, Create
refuses a present key, Update and Delete refuse an absent one. -/
def storeClient (empty : R) (keyOf : R → ObjectKey) : Client (List R) R where
  Get key s :=
    match s.find? (fun o => keyOf o == key) with
    | some o => ((o, none), s)
    | none => ((empty, some (notFoundError key)), s)
  Create o s :=
    if s.any (fun x => keyOf x == keyOf o) then (some (alreadyExistsError (keyOf o)), s)
    else (none, s ++ [o])
  Update o s :=
    if s.any (fun x => keyOf x == keyOf o) then
      (none, s.map (fun x => if keyOf x == keyOf o then o else x))
    else (some (notFoundError (keyOf o)), s)
  Delete o s :=
    if s.any (fun x => keyOf x == keyOf o) then
      (none, s.filter (fun x => !(keyOf x == keyOf o)))
    else (some (notFoundError (keyOf o)), s)

/-- What it means for an accessor to behave as a key-value store, as far as creation is
concerned: `holds s key` tells whether the store in state `s` has an object under
`key`; a Get leaves the store as it was and fails with not-found exactly when the key
is absent; an object whose Create succeeded is held under its key. -/
structure Client.IsStore (c : Client σ R) (keyOf : R → ObjectKey)
    (holds : σ → ObjectKey → Bool) : Prop where
  get_state : ∀ key s, (c.Get key s).2 = s
  get_notFound : ∀ key s, k8serrors.IsNotFound (c.Get key s).1.2 = true ↔ holds s key = false
  create_holds : ∀ o s, (c.Create o s).1 = none → holds (c.Create o s).2 (keyOf o) = true

end goclient

namespace lso

/-- The key of a LocalVolumeSet in the remote store: its name and namespace. -/
def keyOf (o : lsov1alpha1.LocalVolumeSet) : goclient.ObjectKey :=
  { Name := o.ObjectMeta.Name, Namespace := o.ObjectMeta.Namespace }

end lso

namespace storage

/-- The key of a StorageCluster in the remote store: its name and namespace. -/
def keyOf (o : ocsoperatorv1.StorageCluster) : goclient.ObjectKey :=
  { Name := o.ObjectMeta.Name, Namespace := o.ObjectMeta.Namespace }

end storage

namespace mco

variable {σ : Type}

/-- An in-memory typed client for KubeletConfigs, keyed by name (the kind is
cluster-scoped): the remote state is the list of stored objects. -/
def storeKubeletConfigs : KubeletConfigInterface (List mcv1.KubeletConfig) where
  Get name s :=
    match s.find? (fun o => o.ObjectMeta.Name == name) with
    | some o => ((some o, none), s)
    | none => ((none, some (goclient.notFoundError { Name := name })), s)
  Create o s :=
    if s.any (fun x => x.ObjectMeta.Name == o.ObjectMeta.Name) then
      ((none, some (goclient.alreadyExistsError { Name := o.ObjectMeta.Name })), s)
    else ((some o, none), s ++ [o])
  Delete name s :=
    if s.any (fun x => x.ObjectMeta.Name == name) then
      (none, s.filter (fun x => !(x.ObjectMeta.Name == name)))
    else (some (goclient.notFoundError { Name := name }), s)

/-- What it means for a typed KubeletConfigs client to behave as a key-value store, as
far as creation is concerned: `holds s name` tells whether the store in state `s` has
an object called `name`; a Get leaves the store as it was and fails with not-found
exactly when the name is absent; an object whose Create succeeded is held under its
name. -/
structure KubeletConfigInterface.IsStore (kc : KubeletConfigInterface σ)
    (holds : σ → String → Bool) : Prop where
  get_state : ∀ name s, (kc.Get name s).2 = s
  get_notFound : ∀ name s,
    k8serrors.IsNotFound (kc.Get name s).1.2 = true ↔ holds s name = false
  create_holds : ∀ o s, (kc.Create o s).1.2 = none →
    holds (kc.Create o s).2 o.ObjectMeta.Name = true

end mco

namespace goclient

/-- An accessor out of reach: every call fails with the same error `err`, which is
not a not-found error when `err.notFound` is false; a failed Get leaves `empty` in the
object it was given.  The remote state is trivial. -/
def unreachableClient {R : Type} (empty : R) (err : GoError) : Client Unit R where
  Get _ s := ((empty, some err), s)
  Create _ s := (some err, s)
  Update _ s := (some err, s)
  Delete _ s := (some err, s)

end goclient

namespace goclient

/-- What it means for an accessor to behave as a key-value store, as far as deletion is
concerned: the Delete of an object held under its key succeeds, and after a
successful Delete the key is no longer held. -/
structure Client.DeletesHeld {σ R : Type} (c : Client σ R) (keyOf : R → ObjectKey)
    (holds : σ → ObjectKey → Bool) : Prop where
  delete_held : ∀ o s, holds s (keyOf o) = true → (c.Delete o s).1 = none
  delete_removes : ∀ o s, (c.Delete o s).1 = none → holds (c.Delete o s).2 (keyOf o) = false

end goclient

namespace mco

/-- What it means for a typed KubeletConfigs client to behave as a key-value store, as
far as deletion is concerned: the Get of a held name returns an object of that name
and no error, the Delete of a held name succeeds, and after a successful Delete the
name is no longer held. -/
structure KubeletConfigInterface.DeletesHeld {σ : Type} (kc : KubeletConfigInterface σ)
    (holds : σ → String → Bool) : Prop where
  get_held : ∀ name s, holds s name = true →
    ∃ o, (kc.Get name s).1 = (some o, none) ∧ o.ObjectMeta.Name = name
  delete_held : ∀ name s, holds s name = true → (kc.Delete name s).1 = none
  delete_removes : ∀ name s, (kc.Delete name s).1 = none →
    holds (kc.Delete name s).2 name = false

end mco

/-! ## Values used in concrete evaluations -/

namespace msg

/-- A text for `msg.UndefinedCrdObjectErrString`, which is declared outside the sources. -/
def sampleUndefinedCrd (crd : String) : String :=
  "can not redefine the undefined " ++ crd

end msg

namespace lso

/-- The in-memory store of LocalVolumeSets, keyed by name and namespace. -/
def store : goclient.Client (List lsov1alpha1.LocalVolumeSet) lsov1alpha1.LocalVolumeSet :=
  goclient.storeClient {} keyOf

end lso

namespace storage

/-- Values for the package constants, which are declared outside the sources. -/
def sampleConsts : Consts :=
  { StorageClusterKind := "StorageCluster", APIGroup := "ocs.openshift.io", APIVersion := "v1" }

/-- The in-memory store of StorageClusters, keyed by name and namespace. -/
def store : goclient.Client (List ocsoperatorv1.StorageCluster) ocsoperatorv1.StorageCluster :=
  goclient.storeClient {} keyOf

end storage

namespace servicemesh

/-- The in-memory store of ServiceMeshControlPlanes, keyed by name and namespace. -/
def controlPlaneStore :
    goclient.Client (List istioV2.ServiceMeshControlPlane) istioV2.ServiceMeshControlPlane :=
  goclient.storeClient {}
    (fun o => { Name := o.ObjectMeta.Name, Namespace := o.ObjectMeta.Namespace })

/-- The in-memory store of ServiceMeshMemberRolls, keyed by name and namespace. -/
def memberRollStore :
    goclient.Client (List istioV1.ServiceMeshMemberRoll) istioV1.ServiceMeshMemberRoll :=
  goclient.storeClient {}
    (fun o => { Name := o.ObjectMeta.Name, Namespace := o.ObjectMeta.Namespace })

end servicemesh

namespace lso

/-- A valid builder for the LocalVolumeSet "lvs" of namespace "ns" over the in-memory store. -/
def sampleBuilder : LocalVolumeSetBuilder (List lsov1alpha1.LocalVolumeSet) :=
  { Definition := some { ObjectMeta := { Name := "lvs", Namespace := "ns" } }
    apiClient := some store }

end lso

namespace mco

/-- A valid builder for the KubeletConfig "kc" over the in-memory store. -/
def sampleBuilder : KCBuilder (List mcv1.KubeletConfig) :=
  { Definition := some { ObjectMeta := { Name := "kc" } }
    apiClient := some { KubeletConfigs := some storeKubeletConfigs } }

end mco

namespace storage

/-- A valid builder for the StorageCluster "sc" of namespace "ns" over the in-memory store. -/
def sampleBuilder : StorageClusterBuilder (List ocsoperatorv1.StorageCluster) :=
  { Definition := some
      { TypeMeta := { Kind := "StorageCluster", APIVersion := "ocs.openshift.io/v1" }
        ObjectMeta := { Name := "sc", Namespace := "ns" } }
    apiClient := ClientIface.settings (some { Client := some store }) }

end storage

namespace lso

/-- A valid builder for the LocalVolumeSet "lvs" of namespace "ns" whose accessor is out
of reach (every call fails with "connection refused"). -/
def sampleUnreachableBuilder : LocalVolumeSetBuilder Unit :=
  { Definition := some { ObjectMeta := { Name := "lvs", Namespace := "ns" } }
    apiClient := some (goclient.unreachableClient {}
      { text := "connection refused", notFound := false }) }

end lso

namespace lso

/-- A LocalVolumeSet "lvs" of namespace "ns" as the server would return it, with a
resource version, a creation timestamp and a file-system type. -/
def sampleServed : lsov1alpha1.LocalVolumeSet :=
  { ObjectMeta := { Name := "lvs", Namespace := "ns", ResourceVersion := "7",
                    CreationTimestamp := { ticks := 5 } },
    Spec := { FSType := "ext4" } }

/-- A valid builder over the in-memory store whose Definition is the served object. -/
def samplePulledBuilder : LocalVolumeSetBuilder (List lsov1alpha1.LocalVolumeSet) :=
  { Definition := some sampleServed, apiClient := some store }

end lso

namespace servicemesh

/-- A valid builder for the ServiceMeshControlPlane "cp" of namespace "ns" over the
in-memory store. -/
def sampleControlPlaneBuilder : ControlPlaneBuilder (List istioV2.ServiceMeshControlPlane) :=
  { Definition := some { ObjectMeta := { Name := "cp", Namespace := "ns" } }
    apiClient := some { Client := some controlPlaneStore } }

/-- A valid builder for the ServiceMeshMemberRoll "mr" of namespace "ns" over the
in-memory store. -/
def sampleMemberRollBuilder : MemberRollBuilder (List istioV1.ServiceMeshMemberRoll) :=
  { Definition := some { ObjectMeta := { Name := "mr", Namespace := "ns" } }
    apiClient := some { Client := some memberRollStore } }

end servicemesh

namespace storage

/-- An in-memory store of StorageClusters that looks objects up by name alone, whatever
the namespace of the key: an accessor for which the key that
`StorageClusterBuilder.Get` builds finds the object. -/
def storeByName :
    goclient.Client (List ocsoperatorv1.StorageCluster) ocsoperatorv1.StorageCluster where
  Get key s :=
    match s.find? (fun o => o.ObjectMeta.Name == key.Name) with
    | some o => ((o, none), s)
    | none => (({}, some (goclient.notFoundError key)), s)
  Create o s :=
    if s.any (fun x => x.ObjectMeta.Name == o.ObjectMeta.Name) then
      (some (goclient.alreadyExistsError (keyOf o)), s)
    else (none, s ++ [o])
  Update o s :=
    if s.any (fun x => x.ObjectMeta.Name == o.ObjectMeta.Name) then
      (none, s.map (fun x => if x.ObjectMeta.Name == o.ObjectMeta.Name then o else x))
    else (some (goclient.notFoundError (keyOf o)), s)
  Delete o s :=
    if s.any (fun x => x.ObjectMeta.Name == o.ObjectMeta.Name) then
      (none, s.filter (fun x => !(x.ObjectMeta.Name == o.ObjectMeta.Name)))
    else (some (goclient.notFoundError (keyOf o)), s)

/-- The StorageCluster "sc" of namespace "ns" as the server would return it, with a
resource version and a creation timestamp. -/
def sampleServed : ocsoperatorv1.StorageCluster :=
  { ObjectMeta := { Name := "sc", Namespace := "ns", ResourceVersion := "7",
                    CreationTimestamp := { ticks := 5 } } }

/-- The StorageCluster "sc" with an empty namespace. -/
def sampleUnnamespaced : ocsoperatorv1.StorageCluster :=
  { ObjectMeta := { Name := "sc", Namespace := "" } }

/-- The Definition of the sample builder: the StorageCluster "sc" of namespace "ns". -/
def sampleDefinition : ocsoperatorv1.StorageCluster :=
  { TypeMeta := { Kind := "StorageCluster", APIVersion := "ocs.openshift.io/v1" }
    ObjectMeta := { Name := "sc", Namespace := "ns" } }

end storage

namespace storage

/-- An accessor for StorageClusters that is out of reach: every call fails with
"connection refused", which is not a not-found error. -/
def unreachable : goclient.Client Unit ocsoperatorv1.StorageCluster :=
  goclient.unreachableClient {} { text := "connection refused", notFound := false }

end storage

namespace lso

/-- An accessor for LocalVolumeSets that is out of reach: every call fails with
"connection refused", which is not a not-found error. -/
def unreachable : goclient.Client Unit lsov1alpha1.LocalVolumeSet :=
  goclient.unreachableClient {} { text := "connection refused", notFound := false }

end lso

namespace mco

/-- A `KCAdditionalOptions` function that leaves the builder as it is and returns it with
an error of the given text. -/
def failingOption {σ : Type} (text : String) : KCAdditionalOptions σ :=
  fun b => some { given := b, builder := Returned.given
                  err := some { text := text, notFound := false } }

/-- A `KCAdditionalOptions` function that calls `WithMCPoolSelector` with an empty key on
the builder and returns the builder with a nil error. -/
def emptyKeyOption {σ : Type} (U : String → String) : KCAdditionalOptions σ :=
  fun b =>
    match KCBuilder.WithMCPoolSelector U (some b) "" "worker" with
    | some (some b1) => some { given := b1, builder := Returned.given, err := none }
    | _ => none

/-- A `KCAdditionalOptions` function that labels the pool selector with `role=worker` and
returns the builder with a nil error. -/
def workerOption {σ : Type} (U : String → String) : KCAdditionalOptions σ :=
  fun b =>
    match KCBuilder.WithMCPoolSelector U (some b) "role" "worker" with
    | some (some b1) => some { given := b1, builder := Returned.given, err := none }
    | _ => none

/-- Whether the pointer an option returned is the pointer it was given. -/
def Returned.isGiven {σ : Type} : Returned σ → Bool
  | Returned.given => true
  | _ => false

/-- The non-nil entries of a list of options, each with its position in the list, the
first position being `i`. -/
def nonNil {α : Type} (i : Nat) : List (Option α) → List (Nat × α)
  | [] => []
  | none :: rest => nonNil (i + 1) rest
  | some a :: rest => (i, a) :: nonNil (i + 1) rest

/-- Following the words of the specification: the options are applied one after the other,
each to the builder as the one before left it; an option that returns an error ends the
run, and the deferred error becomes the text of that error.  The result is the builder,
the positions of the options applied, and the error that ended the run, if any. -/
def applyInOrder {σ : Type} (b : KCBuilder σ) :
    List (Nat × KCAdditionalOptions σ) → KCBuilder σ × List Nat × Option GoError
  | [] => (b, [], none)
  | p :: rest =>
    match p.2 b with
    | none => (b, [], none)
    | some r =>
      match r.err with
      | some err => ({ r.given with errorMsg := err.text }, [p.1], some err)
      | none =>
        let x := applyInOrder r.given rest
        (x.1, p.1 :: x.2.1, x.2.2)

end mco

namespace storage

/-- A builder for the StorageCluster "sc" of namespace "ns" that passes the gate and whose
accessor is out of reach. -/
def sampleUnreachableBuilder : StorageClusterBuilder Unit :=
  { Definition := some sampleDefinition
    apiClient := ClientIface.settings (some { Client := some unreachable }) }

end storage

namespace servicemesh

/-- The `Addons` value that `WithAllAddonsDisabled` builds: Prometheus, Grafana and Kiali
with `Enabled` false, Jaeger with the `Enabled` of its ingress false, no Stackdriver and
no ThreeScale. -/
def allAddonsDisabled : istioV2.AddonsConfig :=
  { Prometheus := some { Enablement := { Enabled := some false } }
    Stackdriver := none
    Jaeger := some
      { Install := some { Ingress := some { Enablement := { Enabled := some false } } } }
    Grafana := some { Enablement := { Enabled := some false } }
    Kiali := some { Enablement := { Enabled := some false } }
    ThreeScale := none }

/-- A valid builder for the ServiceMeshControlPlane "cp" whose Definition has Grafana and
Stackdriver configured and gateways enabled. -/
def sampleConfiguredBuilder : ControlPlaneBuilder (List istioV2.ServiceMeshControlPlane) :=
  { Definition := some
      { ObjectMeta := { Name := "cp", Namespace := "ns" }
        Spec := { Addons := some { Grafana := some { Enablement := { Enabled := some true } }
                                   Stackdriver := some {} }
                  Gateways := some { Enablement := { Enabled := some true } } } }
    apiClient := some { Client := some controlPlaneStore } }

end servicemesh

namespace models

/-- A format registry that knows the formats "ipv4" and "ipv6" and accepts under the
first a text with a dot and without a colon, under the second a text with a colon; it
stands in for `strfmt.Default` in concrete evaluations. -/
def sampleRegistry : strfmt.Registry :=
  { ContainsName := fun name => name == "ipv4" || name == "ipv6"
    Validates := fun name data =>
      if name == "ipv4" then data.toList.contains '.' && !data.toList.contains ':'
      else data.toList.contains ':' }

/-- Following the words of the specification: an address is well formed under a format
when the registry in force (the one passed, or the default one for a nil registry)
knows the format and accepts the address. -/
def wellFormed (Default : strfmt.Registry) (formats : Option strfmt.Registry)
    (format address : String) : Bool :=
  let registry : strfmt.Registry := formats.getD Default
  registry.ContainsName format && registry.Validates format address

/-- Following the words of the specification: an element is acceptable when its
DomainName is non-nil and all its IPv4 and IPv6 addresses are well formed. -/
def acceptable (Default : strfmt.Registry) (formats : Option strfmt.Registry)
    (e : DomainResolutionResponseDomain) : Bool :=
  e.DomainName.isSome
    && (e.IPV4Addresses.getD []).all (wellFormed Default formats "ipv4")
    && (e.IPV6Addresses.getD []).all (wellFormed Default formats "ipv6")

end models

namespace mco

/-- Four options for the sample builder: a nil entry, an option that labels the pool
selector, an option that fails with the error "boom", and the labelling option again. -/
def sampleOptions : List (Option (KCAdditionalOptions (List mcv1.KubeletConfig))) :=
  [none, some (workerOption msg.sampleUndefinedCrd), some (failingOption "boom"),
   some (workerOption msg.sampleUndefinedCrd)]

end mco

namespace models

/-- An element with a domain name, one IPv4 address and one IPv6 address. -/
def sampleGood : DomainResolutionResponseDomain :=
  { DomainName := some "api.example.com", IPV4Addresses := some ["10.0.0.1"]
    IPV6Addresses := some ["fe80::1"] }

/-- An element without domain name whose second IPv4 address is an IPv6 address. -/
def sampleBad : DomainResolutionResponseDomain :=
  { DomainName := none, IPV4Addresses := some ["10.0.0.1", "fe80::1"] }

/-- A response with a nil element, a good element and two elements without domain name. -/
def sampleResponse : DomainResolutionResponse :=
  { Resolutions := some [none, some sampleGood, some sampleBad, some {}] }

end models

/-! ## Properties -/

/-- The format of the empty-name error of a LocalVolumeSetBuilder has no directive. -/
theorem sprintf_localVolumeSet_name :
    fmt.Sprintf "localVolumeSet 'name' cannot be empty"
      = "localVolumeSet 'name' cannot be empty" := by decide

/-- The format of the empty-name error of a KCBuilder has no directive. -/
theorem sprintf_KubeletConfig_name :
    fmt.Sprintf "KubeletConfig 'name' cannot be empty"
      = "KubeletConfig 'name' cannot be empty" := by decide

/-- C1: for every non-nil accessor and every namespace, the builder that
`NewLocalVolumeSetBuilder(accessor, "", ns)` returns carries the deferred error
"localVolumeSet 'name' cannot be empty", and Create on it returns an error with that
very text, issues no call on the accessor, leaves the remote state alone and leaves
the builder (Definition, Object and all) as it was; likewise `NewKCBuilder(accessor, "")`
with "KubeletConfig 'name' cannot be empty". -/
theorem C1_create_on_empty_name_is_gated :
    (∀ (σ : Type) (U : String → String) (c : goclient.Client σ lsov1alpha1.LocalVolumeSet)
        (ns : String) (s : σ),
      ∃ b, lso.NewLocalVolumeSetBuilder (some { Client := some c }) "" ns = some b ∧
        b.errorMsg = "localVolumeSet 'name' cannot be empty" ∧
        ∃ out, lso.LocalVolumeSetBuilder.Create U (some b) s = some out ∧
          out.ret.2.map GoError.text = some b.errorMsg ∧
          out.calls = [] ∧ out.state = s ∧ out.recv = some b ∧ out.ret.1 = some b) ∧
    (∀ (σ : Type) (U : String → String) (st : mco.Settings σ) (s : σ),
      ∃ b, mco.NewKCBuilder (some st) "" = some b ∧
        b.errorMsg = "KubeletConfig 'name' cannot be empty" ∧
        ∃ out, mco.KCBuilder.Create U (some b) s = some out ∧
          out.ret.2.map GoError.text = some b.errorMsg ∧
          out.calls = [] ∧ out.state = s ∧ out.recv = some b ∧ out.ret.1 = some b) := by
  refine ⟨fun σ U c ns s => ?_, fun σ U st s => ?_⟩
  · exact ⟨_, rfl, rfl, _, rfl, congrArg some sprintf_localVolumeSet_name,
      rfl, rfl, rfl, rfl⟩
  · exact ⟨_, rfl, rfl, _, rfl, congrArg some sprintf_KubeletConfig_name,
      rfl, rfl, rfl, rfl⟩

/-- A LocalVolumeSetBuilder passes its gate exactly when it is non-nil with a Definition,
an accessor and no deferred error. -/
theorem lvs_validate_true_iff {σ : Type} (U : String → String)
    (builder : Option (lso.LocalVolumeSetBuilder σ)) :
    (lso.LocalVolumeSetBuilder.validate U builder).1 = true ↔
      ∃ d o c, builder = some { Definition := some d, Object := o, errorMsg := "",
                                apiClient := some c } := by
  constructor
  · intro h
    rcases builder with _ | ⟨_ | d, o, m, _ | c⟩ <;>
      simp [lso.LocalVolumeSetBuilder.validate] at h
    by_cases hm : m = ""
    · exact ⟨d, o, c, by simp [hm]⟩
    · simp [hm] at h
  · rintro ⟨d, o, c, rfl⟩
    simp [lso.LocalVolumeSetBuilder.validate]

/-- The gate of a valid LocalVolumeSetBuilder returns `(true, nil)`. -/
theorem lvs_validate_valid {σ : Type} (U : String → String) (d : lsov1alpha1.LocalVolumeSet)
    (o : Option lsov1alpha1.LocalVolumeSet) (c : goclient.Client σ lsov1alpha1.LocalVolumeSet) :
    lso.LocalVolumeSetBuilder.validate U
      (some { Definition := some d, Object := o, errorMsg := "", apiClient := some c })
      = (true, none) := by
  simp [lso.LocalVolumeSetBuilder.validate]

/-- Get on a valid LocalVolumeSetBuilder: one remote Get under the key of the Definition. -/
theorem lvs_Get_valid {σ : Type} (U : String → String) (d : lsov1alpha1.LocalVolumeSet)
    (o : Option lsov1alpha1.LocalVolumeSet) (c : goclient.Client σ lsov1alpha1.LocalVolumeSet)
    (s : σ) :
    lso.LocalVolumeSetBuilder.Get U
      (some { Definition := some d, Object := o, errorMsg := "", apiClient := some c }) s
      = some
        { recv := some { Definition := some d, Object := o, errorMsg := "", apiClient := some c }
          ret := match (c.Get (lso.keyOf d) s).1.2 with
            | some err => (none, some err)
            | none => (some (c.Get (lso.keyOf d) s).1.1, none)
          state := (c.Get (lso.keyOf d) s).2
          calls := [goclient.Call.Get (lso.keyOf d)] } := by
  simp only [lso.LocalVolumeSetBuilder.Get, lvs_validate_valid, lso.keyOf]
  cases (c.Get { Name := d.ObjectMeta.Name, Namespace := d.ObjectMeta.Namespace } s).1.2 <;> rfl

/-- Exists on a valid LocalVolumeSetBuilder: the Get above, its object stored in Object. -/
theorem lvs_Exists_valid {σ : Type} (U : String → String) (d : lsov1alpha1.LocalVolumeSet)
    (o : Option lsov1alpha1.LocalVolumeSet) (c : goclient.Client σ lsov1alpha1.LocalVolumeSet)
    (s : σ) :
    lso.LocalVolumeSetBuilder.Exists U
      (some { Definition := some d, Object := o, errorMsg := "", apiClient := some c }) s
      = some
        { recv := some
            { Definition := some d
              Object := match (c.Get (lso.keyOf d) s).1.2 with
                | some _ => none
                | none => some (c.Get (lso.keyOf d) s).1.1
              errorMsg := "", apiClient := some c }
          ret := !k8serrors.IsNotFound (c.Get (lso.keyOf d) s).1.2
          state := (c.Get (lso.keyOf d) s).2
          calls := [goclient.Call.Get (lso.keyOf d)] } := by
  simp only [lso.LocalVolumeSetBuilder.Exists, lvs_validate_valid, lvs_Get_valid]
  cases h : (c.Get (lso.keyOf d) s).1.2 <;> simp [k8serrors.IsNotFound]

/-- A KCBuilder with a Definition passes its gate exactly when it has an accessor and no
deferred error. -/
theorem kc_validate_true_iff {σ : Type} (U : String → String)
    (b : mco.KCBuilder σ) (d : mcv1.KubeletConfig) (hd : b.Definition = some d) :
    (mco.KCBuilder.validate U (some b)).2.1 = true ↔
      ∃ o st, b = { Definition := some d, Object := o, apiClient := some st,
                    errorMsg := "" } := by
  constructor
  · intro h
    rcases b with ⟨_ | d1, o, _ | st, m⟩ <;>
      simp [mco.KCBuilder.validate] at h hd
    by_cases hm : m = ""
    · exact ⟨o, st, by simp [hm, hd]⟩
    · simp [hm] at h
  · rintro ⟨o, st, rfl⟩
    simp [mco.KCBuilder.validate]

/-- The gate of a valid KCBuilder leaves it as it is and returns `(true, nil)`. -/
theorem kc_validate_valid {σ : Type} (U : String → String) (d : mcv1.KubeletConfig)
    (o : Option mcv1.KubeletConfig) (st : mco.Settings σ) :
    mco.KCBuilder.validate U
      (some { Definition := some d, Object := o, apiClient := some st, errorMsg := "" })
      = (some { Definition := some d, Object := o, apiClient := some st, errorMsg := "" },
         true, none) := by
  simp [mco.KCBuilder.validate]

/-- Exists on a valid KCBuilder with a live client: one remote Get under the name of the
Definition, whose object is stored in Object. -/
theorem kc_Exists_valid {σ : Type} (U : String → String) (d : mcv1.KubeletConfig)
    (o : Option mcv1.KubeletConfig) (kc : mco.KubeletConfigInterface σ) (s : σ) :
    mco.KCBuilder.Exists U
      (some { Definition := some d, Object := o,
              apiClient := some { KubeletConfigs := some kc }, errorMsg := "" }) s
      = some
        { recv := some
            { Definition := some d, Object := (kc.Get d.ObjectMeta.Name s).1.1
              apiClient := some { KubeletConfigs := some kc }, errorMsg := "" }
          ret := !k8serrors.IsNotFound (kc.Get d.ObjectMeta.Name s).1.2
          state := (kc.Get d.ObjectMeta.Name s).2
          calls := [mco.Call.Get d.ObjectMeta.Name] } := by
  simp only [mco.KCBuilder.Exists, kc_validate_valid]
  cases h : (kc.Get d.ObjectMeta.Name s).1.2 <;> simp [k8serrors.IsNotFound]

/-- A StorageClusterBuilder passes its gate exactly when it is non-nil with a Definition
and a non-nil interface value in `apiClient`; the deferred error plays no part. -/
theorem sc_validate_true_iff {σ : Type} (U : String → String)
    (builder : Option (storage.StorageClusterBuilder σ)) :
    (storage.StorageClusterBuilder.validate U builder).1 = true ↔
      ∃ d o p m, builder = some { Definition := some d, Object := o,
                                  apiClient := storage.ClientIface.settings p,
                                  errorMsg := m } := by
  constructor
  · intro h
    rcases builder with _ | ⟨_ | d, o, _ | p, m⟩ <;>
      simp [storage.StorageClusterBuilder.validate, storage.ClientIface.isNil] at h
    exact ⟨d, o, p, m, rfl⟩
  · rintro ⟨d, o, p, m, rfl⟩
    simp [storage.StorageClusterBuilder.validate, storage.ClientIface.isNil]

/-- The gate of a StorageClusterBuilder with a Definition and an accessor returns
`(true, nil)` whatever the deferred error. -/
theorem sc_validate_valid {σ : Type} (U : String → String)
    (d : ocsoperatorv1.StorageCluster) (o : Option ocsoperatorv1.StorageCluster)
    (p : Option (clients.Settings σ ocsoperatorv1.StorageCluster)) (m : String) :
    storage.StorageClusterBuilder.validate U
      (some { Definition := some d, Object := o, apiClient := storage.ClientIface.settings p,
              errorMsg := m })
      = (true, none) := by
  simp [storage.StorageClusterBuilder.validate, storage.ClientIface.isNil]

/-- Get on a StorageClusterBuilder that passes the gate, with a live client: one remote
Get whose key carries the name of the Definition and an empty namespace. -/
theorem sc_Get_valid {σ : Type} (U : String → String)
    (d : ocsoperatorv1.StorageCluster) (o : Option ocsoperatorv1.StorageCluster)
    (c : goclient.Client σ ocsoperatorv1.StorageCluster) (m : String) (s : σ) :
    storage.StorageClusterBuilder.Get U
      (some { Definition := some d, Object := o
              apiClient := storage.ClientIface.settings (some { Client := some c })
              errorMsg := m }) s
      = some
        { recv := some { Definition := some d, Object := o
                         apiClient := storage.ClientIface.settings (some { Client := some c })
                         errorMsg := m }
          ret := match (c.Get { Name := d.ObjectMeta.Name } s).1.2 with
            | some err => (none, some err)
            | none => (some (c.Get { Name := d.ObjectMeta.Name } s).1.1, none)
          state := (c.Get { Name := d.ObjectMeta.Name } s).2
          calls := [goclient.Call.Get { Name := d.ObjectMeta.Name }] } := by
  simp only [storage.StorageClusterBuilder.Get, sc_validate_valid,
    storage.ClientIface.client]
  cases (c.Get { Name := d.ObjectMeta.Name } s).1.2 <;> rfl

/-- Exists on a StorageClusterBuilder that passes the gate, with a live client. -/
theorem sc_Exists_valid {σ : Type} (U : String → String)
    (d : ocsoperatorv1.StorageCluster) (o : Option ocsoperatorv1.StorageCluster)
    (c : goclient.Client σ ocsoperatorv1.StorageCluster) (m : String) (s : σ) :
    storage.StorageClusterBuilder.Exists U
      (some { Definition := some d, Object := o
              apiClient := storage.ClientIface.settings (some { Client := some c })
              errorMsg := m }) s
      = some
        { recv := some
            { Definition := some d
              Object := match (c.Get { Name := d.ObjectMeta.Name } s).1.2 with
                | some _ => none
                | none => some (c.Get { Name := d.ObjectMeta.Name } s).1.1
              apiClient := storage.ClientIface.settings (some { Client := some c })
              errorMsg := m }
          ret := !k8serrors.IsNotFound (c.Get { Name := d.ObjectMeta.Name } s).1.2
          state := (c.Get { Name := d.ObjectMeta.Name } s).2
          calls := [goclient.Call.Get { Name := d.ObjectMeta.Name }] } := by
  simp only [storage.StorageClusterBuilder.Exists, sc_validate_valid,
    sc_Get_valid]
  cases h : (c.Get { Name := d.ObjectMeta.Name } s).1.2 <;> simp [k8serrors.IsNotFound]

/-- A ControlPlaneBuilder with a Definition passes its gate exactly when it has an accessor
and no deferred error. -/
theorem cp_validate_true_iff {σ : Type} (U : String → String)
    (b : servicemesh.ControlPlaneBuilder σ) (d : istioV2.ServiceMeshControlPlane) (hd : b.Definition = some d) :
    (servicemesh.ControlPlaneBuilder.validate U (some b)).2.1 = true ↔
      ∃ o st, b = { Definition := some d, Object := o, errorMsg := "",
                    apiClient := some st } := by
  constructor
  · intro h
    rcases b with ⟨_ | d1, o, m, _ | st⟩ <;>
      simp [servicemesh.ControlPlaneBuilder.validate] at h hd
    by_cases hm : m = ""
    · exact ⟨o, st, by simp [hm, hd]⟩
    · simp [hm] at h
  · rintro ⟨o, st, rfl⟩
    simp [servicemesh.ControlPlaneBuilder.validate]

/-- The gate of a valid ControlPlaneBuilder leaves it as it is and returns `(true, nil)`. -/
theorem cp_validate_valid {σ : Type} (U : String → String)
    (d : istioV2.ServiceMeshControlPlane) (o : Option istioV2.ServiceMeshControlPlane)
    (st : clients.Settings σ istioV2.ServiceMeshControlPlane) :
    servicemesh.ControlPlaneBuilder.validate U
      (some { Definition := some d, Object := o, errorMsg := "", apiClient := some st })
      = (some { Definition := some d, Object := o, errorMsg := "", apiClient := some st },
         true, none) := by
  simp [servicemesh.ControlPlaneBuilder.validate]

/-- Exists on a valid ControlPlaneBuilder with a live client: one remote Get under the key
of the Definition; what the Get wrote is stored in Object, error or not. -/
theorem cp_Exists_valid {σ : Type} (U : String → String)
    (d : istioV2.ServiceMeshControlPlane) (o : Option istioV2.ServiceMeshControlPlane)
    (c : goclient.Client σ istioV2.ServiceMeshControlPlane) (s : σ) :
    servicemesh.ControlPlaneBuilder.Exists U
      (some { Definition := some d, Object := o, errorMsg := ""
              apiClient := some { Client := some c } }) s
      = some
        { recv := some
            { Definition := some d
              Object := some (c.Get { Name := d.ObjectMeta.Name
                                      Namespace := d.ObjectMeta.Namespace } s).1.1
              errorMsg := "", apiClient := some { Client := some c } }
          ret := !k8serrors.IsNotFound
            (c.Get { Name := d.ObjectMeta.Name, Namespace := d.ObjectMeta.Namespace } s).1.2
          state := (c.Get { Name := d.ObjectMeta.Name
                            Namespace := d.ObjectMeta.Namespace } s).2
          calls := [goclient.Call.Get { Name := d.ObjectMeta.Name
                                        Namespace := d.ObjectMeta.Namespace }] } := by
  simp only [servicemesh.ControlPlaneBuilder.Exists, servicemesh.ControlPlaneBuilder.Discover,
    cp_validate_valid]
  cases h : (c.Get { Name := d.ObjectMeta.Name, Namespace := d.ObjectMeta.Namespace } s).1.2 <;>
    simp [k8serrors.IsNotFound]

/-- A MemberRollBuilder with a Definition passes its gate exactly when it has an accessor
and no deferred error. -/
theorem mr_validate_true_iff {σ : Type} (U : String → String)
    (b : servicemesh.MemberRollBuilder σ) (d : istioV1.ServiceMeshMemberRoll) (hd : b.Definition = some d) :
    (servicemesh.MemberRollBuilder.validate U (some b)).2.1 = true ↔
      ∃ o st, b = { Definition := some d, Object := o, errorMsg := "",
                    apiClient := some st } := by
  constructor
  · intro h
    rcases b with ⟨_ | d1, o, m, _ | st⟩ <;>
      simp [servicemesh.MemberRollBuilder.validate] at h hd
    by_cases hm : m = ""
    · exact ⟨o, st, by simp [hm, hd]⟩
    · simp [hm] at h
  · rintro ⟨o, st, rfl⟩
    simp [servicemesh.MemberRollBuilder.validate]

/-- The gate of a valid MemberRollBuilder leaves it as it is and returns `(true, nil)`. -/
theorem mr_validate_valid {σ : Type} (U : String → String)
    (d : istioV1.ServiceMeshMemberRoll) (o : Option istioV1.ServiceMeshMemberRoll)
    (st : clients.Settings σ istioV1.ServiceMeshMemberRoll) :
    servicemesh.MemberRollBuilder.validate U
      (some { Definition := some d, Object := o, errorMsg := "", apiClient := some st })
      = (some { Definition := some d, Object := o, errorMsg := "", apiClient := some st },
         true, none) := by
  simp [servicemesh.MemberRollBuilder.validate]

/-- Exists on a valid MemberRollBuilder with a live client: one remote Get under the key
of the Definition; what the Get wrote is stored in Object, error or not. -/
theorem mr_Exists_valid {σ : Type} (U : String → String)
    (d : istioV1.ServiceMeshMemberRoll) (o : Option istioV1.ServiceMeshMemberRoll)
    (c : goclient.Client σ istioV1.ServiceMeshMemberRoll) (s : σ) :
    servicemesh.MemberRollBuilder.Exists U
      (some { Definition := some d, Object := o, errorMsg := ""
              apiClient := some { Client := some c } }) s
      = some
        { recv := some
            { Definition := some d
              Object := some (c.Get { Name := d.ObjectMeta.Name
                                      Namespace := d.ObjectMeta.Namespace } s).1.1
              errorMsg := "", apiClient := some { Client := some c } }
          ret := !k8serrors.IsNotFound
            (c.Get { Name := d.ObjectMeta.Name, Namespace := d.ObjectMeta.Namespace } s).1.2
          state := (c.Get { Name := d.ObjectMeta.Name
                            Namespace := d.ObjectMeta.Namespace } s).2
          calls := [goclient.Call.Get { Name := d.ObjectMeta.Name
                                        Namespace := d.ObjectMeta.Namespace }] } := by
  simp only [servicemesh.MemberRollBuilder.Exists, servicemesh.MemberRollBuilder.Discover,
    mr_validate_valid]
  cases h : (c.Get { Name := d.ObjectMeta.Name, Namespace := d.ObjectMeta.Namespace } s).1.2 <;>
    simp [k8serrors.IsNotFound]

/-- C2: the code at the failing input.  `StorageClusterNewBuilder(accessor, "", "ns")`
records the deferred error "storageCluster 'name' cannot be empty", yet its gate
returns `(true, nil)`: over an empty store Create issues a Get and a Create on the
accessor, stores the object and returns a nil error; Get and Update return the
accessor's not-found outcome, not the deferred error; Delete calls the accessor. -/
theorem C2_storageCluster_gate_ignores_deferred_error :
    ∃ b d, storage.StorageClusterNewBuilder storage.sampleConsts
          (some { Client := some storage.store }) "" "ns" = some b ∧
      b.errorMsg = "storageCluster 'name' cannot be empty" ∧
      b.Definition = some d ∧
      storage.StorageClusterBuilder.validate msg.sampleUndefinedCrd (some b) = (true, none) ∧
      (∃ out, storage.StorageClusterBuilder.Create msg.sampleUndefinedCrd (some b) [] = some out ∧
        out.ret.2 = none ∧ out.state = [d] ∧
        out.calls = [goclient.Call.Get { Name := "" }, goclient.Call.Create d]) ∧
      (∃ out, storage.StorageClusterBuilder.Get msg.sampleUndefinedCrd (some b) [] = some out ∧
        out.ret.2 = some (goclient.notFoundError { Name := "" }) ∧
        out.calls = [goclient.Call.Get { Name := "" }]) ∧
      (∃ out, storage.StorageClusterBuilder.Update msg.sampleUndefinedCrd (some b) [] = some out ∧
        out.ret.2.map GoError.text = some "storageCluster object  doesn't exist in namespace ns" ∧
        out.calls = [goclient.Call.Get { Name := "" }]) ∧
      (∃ out, storage.StorageClusterBuilder.Delete msg.sampleUndefinedCrd (some b) [d] = some out ∧
        out.ret = none ∧ out.state = [] ∧ out.calls = [goclient.Call.Delete d]) ∧
      (∃ out, storage.StorageClusterBuilder.Exists msg.sampleUndefinedCrd (some b)
          [{ ObjectMeta := { Name := "" } }] = some out ∧
        out.ret = true ∧ out.calls = [goclient.Call.Get { Name := "" }]) :=
  ⟨_, _, rfl, rfl, rfl, rfl, ⟨_, rfl, rfl, rfl, rfl⟩, ⟨_, rfl, rfl, rfl⟩, ⟨_, rfl, rfl, rfl⟩,
    ⟨_, rfl, rfl, rfl, rfl⟩, ⟨_, rfl, rfl, rfl⟩⟩

/-- C3: for each of the five builders, when the builder passes its validation gate and
its accessor can be called, Exists issues the remote Get and returns false exactly
when that Get fails with a not-found error; it returns true when the Get succeeds
and when it fails with any other error. -/
theorem C3_exists_false_iff_get_not_found :
    (∀ (σ : Type) (U : String → String) (b : lso.LocalVolumeSetBuilder σ)
        (d : lsov1alpha1.LocalVolumeSet) (c : goclient.Client σ lsov1alpha1.LocalVolumeSet)
        (s : σ),
      (lso.LocalVolumeSetBuilder.validate U (some b)).1 = true →
      b.Definition = some d → b.apiClient = some c →
      ∃ out, lso.LocalVolumeSetBuilder.Exists U (some b) s = some out ∧
        (out.ret = false ↔ k8serrors.IsNotFound (c.Get (lso.keyOf d) s).1.2 = true) ∧
        ((c.Get (lso.keyOf d) s).1.2 = none → out.ret = true) ∧
        (∀ e, (c.Get (lso.keyOf d) s).1.2 = some e → e.notFound = false → out.ret = true)) ∧
    (∀ (σ : Type) (U : String → String) (b : mco.KCBuilder σ)
        (d : mcv1.KubeletConfig) (kc : mco.KubeletConfigInterface σ) (s : σ),
      (mco.KCBuilder.validate U (some b)).2.1 = true →
      b.Definition = some d → b.apiClient = some { KubeletConfigs := some kc } →
      ∃ out, mco.KCBuilder.Exists U (some b) s = some out ∧
        (out.ret = false ↔ k8serrors.IsNotFound (kc.Get d.ObjectMeta.Name s).1.2 = true) ∧
        ((kc.Get d.ObjectMeta.Name s).1.2 = none → out.ret = true) ∧
        (∀ e, (kc.Get d.ObjectMeta.Name s).1.2 = some e → e.notFound = false →
          out.ret = true)) ∧
    (∀ (σ : Type) (U : String → String) (b : storage.StorageClusterBuilder σ)
        (d : ocsoperatorv1.StorageCluster)
        (c : goclient.Client σ ocsoperatorv1.StorageCluster) (s : σ),
      (storage.StorageClusterBuilder.validate U (some b)).1 = true →
      b.Definition = some d →
      b.apiClient = storage.ClientIface.settings (some { Client := some c }) →
      ∃ out, storage.StorageClusterBuilder.Exists U (some b) s = some out ∧
        (out.ret = false ↔
          k8serrors.IsNotFound (c.Get { Name := d.ObjectMeta.Name } s).1.2 = true) ∧
        ((c.Get { Name := d.ObjectMeta.Name } s).1.2 = none → out.ret = true) ∧
        (∀ e, (c.Get { Name := d.ObjectMeta.Name } s).1.2 = some e → e.notFound = false →
          out.ret = true)) ∧
    (∀ (σ : Type) (U : String → String) (b : servicemesh.ControlPlaneBuilder σ)
        (d : istioV2.ServiceMeshControlPlane)
        (c : goclient.Client σ istioV2.ServiceMeshControlPlane) (s : σ),
      (servicemesh.ControlPlaneBuilder.validate U (some b)).2.1 = true →
      b.Definition = some d → b.apiClient = some { Client := some c } →
      ∃ out, servicemesh.ControlPlaneBuilder.Exists U (some b) s = some out ∧
        (out.ret = false ↔ k8serrors.IsNotFound
          (c.Get { Name := d.ObjectMeta.Name, Namespace := d.ObjectMeta.Namespace } s).1.2
            = true) ∧
        ((c.Get { Name := d.ObjectMeta.Name, Namespace := d.ObjectMeta.Namespace } s).1.2
          = none → out.ret = true) ∧
        (∀ e, (c.Get { Name := d.ObjectMeta.Name, Namespace := d.ObjectMeta.Namespace } s).1.2
          = some e → e.notFound = false → out.ret = true)) ∧
    (∀ (σ : Type) (U : String → String) (b : servicemesh.MemberRollBuilder σ)
        (d : istioV1.ServiceMeshMemberRoll)
        (c : goclient.Client σ istioV1.ServiceMeshMemberRoll) (s : σ),
      (servicemesh.MemberRollBuilder.validate U (some b)).2.1 = true →
      b.Definition = some d → b.apiClient = some { Client := some c } →
      ∃ out, servicemesh.MemberRollBuilder.Exists U (some b) s = some out ∧
        (out.ret = false ↔ k8serrors.IsNotFound
          (c.Get { Name := d.ObjectMeta.Name, Namespace := d.ObjectMeta.Namespace } s).1.2
            = true) ∧
        ((c.Get { Name := d.ObjectMeta.Name, Namespace := d.ObjectMeta.Namespace } s).1.2
          = none → out.ret = true) ∧
        (∀ e, (c.Get { Name := d.ObjectMeta.Name, Namespace := d.ObjectMeta.Namespace } s).1.2
          = some e → e.notFound = false → out.ret = true)) := by
  refine ⟨?_, ?_, ?_, ?_, ?_⟩
  · intro σ U b d c s hv hd hc
    obtain ⟨d1, o, c1, hb⟩ := (lvs_validate_true_iff U (some b)).1 hv
    obtain rfl : b = _ := Option.some.inj hb
    obtain rfl : d1 = d := Option.some.inj hd
    obtain rfl : c1 = c := Option.some.inj hc
    refine ⟨_, lvs_Exists_valid U d1 o c1 s, ?_, ?_, ?_⟩
    · simp
    · intro h; simp [h, k8serrors.IsNotFound]
    · intro e h he; simp [h, he, k8serrors.IsNotFound]
  · intro σ U b d kc s hv hd hc
    obtain ⟨o, st, rfl⟩ := (kc_validate_true_iff U b d hd).1 hv
    obtain rfl : st = _ := Option.some.inj hc
    refine ⟨_, kc_Exists_valid U d o kc s, ?_, ?_, ?_⟩
    · simp
    · intro h; simp [h, k8serrors.IsNotFound]
    · intro e h he; simp [h, he, k8serrors.IsNotFound]
  · intro σ U b d c s hv hd hc
    obtain ⟨d1, o, p, m, hb⟩ := (sc_validate_true_iff U (some b)).1 hv
    obtain rfl : b = _ := Option.some.inj hb
    obtain rfl : d1 = d := Option.some.inj hd
    obtain rfl : p = _ := storage.ClientIface.settings.inj hc
    refine ⟨_, sc_Exists_valid U d1 o c m s, ?_, ?_, ?_⟩
    · simp
    · intro h; simp [h, k8serrors.IsNotFound]
    · intro e h he; simp [h, he, k8serrors.IsNotFound]
  · intro σ U b d c s hv hd hc
    obtain ⟨o, st, rfl⟩ := (cp_validate_true_iff U b d hd).1 hv
    obtain rfl : st = _ := Option.some.inj hc
    refine ⟨_, cp_Exists_valid U d o c s, ?_, ?_, ?_⟩
    · simp
    · intro h; simp [h, k8serrors.IsNotFound]
    · intro e h he; simp [h, he, k8serrors.IsNotFound]
  · intro σ U b d c s hv hd hc
    obtain ⟨o, st, rfl⟩ := (mr_validate_true_iff U b d hd).1 hv
    obtain rfl : st = _ := Option.some.inj hc
    refine ⟨_, mr_Exists_valid U d o c s, ?_, ?_, ?_⟩
    · simp
    · intro h; simp [h, k8serrors.IsNotFound]
    · intro e h he; simp [h, he, k8serrors.IsNotFound]

/-- C3 at concrete inputs, one for each builder: over a store that holds the object
Exists returns true (for the StorageCluster the store holds it under the key Exists
asks for, the name alone); over an empty store it returns false. -/
theorem C3_exists_false_iff_get_not_found_witness :
    (∃ out, lso.LocalVolumeSetBuilder.Exists msg.sampleUndefinedCrd (some lso.sampleBuilder)
        [{ ObjectMeta := { Name := "lvs", Namespace := "ns" } }] = some out ∧ out.ret = true) ∧
    (∃ out, mco.KCBuilder.Exists msg.sampleUndefinedCrd (some mco.sampleBuilder)
        [{ ObjectMeta := { Name := "kc" } }] = some out ∧ out.ret = true) ∧
    (∃ out, storage.StorageClusterBuilder.Exists msg.sampleUndefinedCrd
        (some storage.sampleBuilder) [{ ObjectMeta := { Name := "sc" } }] = some out ∧
      out.ret = true) ∧
    (∃ out, servicemesh.ControlPlaneBuilder.Exists msg.sampleUndefinedCrd
        (some servicemesh.sampleControlPlaneBuilder) [] = some out ∧ out.ret = false) ∧
    (∃ out, servicemesh.MemberRollBuilder.Exists msg.sampleUndefinedCrd
        (some servicemesh.sampleMemberRollBuilder) [] = some out ∧ out.ret = false) := by
  refine ⟨?_, ?_, ?_, ?_, ?_⟩
  · obtain ⟨out, h, _, hok, _⟩ := C3_exists_false_iff_get_not_found.1 _ msg.sampleUndefinedCrd
      lso.sampleBuilder { ObjectMeta := { Name := "lvs", Namespace := "ns" } } lso.store
      [{ ObjectMeta := { Name := "lvs", Namespace := "ns" } }] rfl rfl rfl
    exact ⟨out, h, hok rfl⟩
  · obtain ⟨out, h, _, hok, _⟩ := C3_exists_false_iff_get_not_found.2.1 _
      msg.sampleUndefinedCrd mco.sampleBuilder { ObjectMeta := { Name := "kc" } }
      mco.storeKubeletConfigs [{ ObjectMeta := { Name := "kc" } }] rfl rfl rfl
    exact ⟨out, h, hok rfl⟩
  · obtain ⟨out, h, _, hok, _⟩ := C3_exists_false_iff_get_not_found.2.2.1 _
      msg.sampleUndefinedCrd storage.sampleBuilder
      { TypeMeta := { Kind := "StorageCluster", APIVersion := "ocs.openshift.io/v1" }
        ObjectMeta := { Name := "sc", Namespace := "ns" } }
      storage.store [{ ObjectMeta := { Name := "sc" } }] rfl rfl rfl
    exact ⟨out, h, hok rfl⟩
  · obtain ⟨out, h, hiff, _, _⟩ := C3_exists_false_iff_get_not_found.2.2.2.1 _
      msg.sampleUndefinedCrd servicemesh.sampleControlPlaneBuilder
      { ObjectMeta := { Name := "cp", Namespace := "ns" } }
      servicemesh.controlPlaneStore [] rfl rfl rfl
    exact ⟨out, h, hiff.2 rfl⟩
  · obtain ⟨out, h, hiff, _, _⟩ := C3_exists_false_iff_get_not_found.2.2.2.2 _
      msg.sampleUndefinedCrd servicemesh.sampleMemberRollBuilder
      { ObjectMeta := { Name := "mr", Namespace := "ns" } }
      servicemesh.memberRollStore [] rfl rfl rfl
    exact ⟨out, h, hiff.2 rfl⟩

/-- The gate of a KCBuilder writes neither Object nor Definition. -/
theorem kc_validate_frame {σ : Type} (U : String → String)
    (builder : Option (mco.KCBuilder σ)) :
    (mco.KCBuilder.validate U builder).1.map (fun b => b.Object)
        = builder.map (fun b => b.Object) ∧
      (mco.KCBuilder.validate U builder).1.map (fun b => b.Definition)
        = builder.map (fun b => b.Definition) := by
  rcases builder with _ | ⟨d, o, c, m⟩
  · exact ⟨rfl, rfl⟩
  · cases d <;> cases c <;> simp [mco.KCBuilder.validate] <;> split_ifs <;> simp

/-- The gate of a ControlPlaneBuilder writes neither Object nor Definition. -/
theorem cp_validate_frame {σ : Type} (U : String → String)
    (builder : Option (servicemesh.ControlPlaneBuilder σ)) :
    (servicemesh.ControlPlaneBuilder.validate U builder).1.map (fun b => b.Object)
        = builder.map (fun b => b.Object) ∧
      (servicemesh.ControlPlaneBuilder.validate U builder).1.map (fun b => b.Definition)
        = builder.map (fun b => b.Definition) := by
  rcases builder with _ | ⟨d, o, m, c⟩
  · exact ⟨rfl, rfl⟩
  · cases d <;> cases c <;> simp [servicemesh.ControlPlaneBuilder.validate] <;> split_ifs <;> simp

/-- The gate of a MemberRollBuilder writes neither Object nor Definition. -/
theorem mr_validate_frame {σ : Type} (U : String → String)
    (builder : Option (servicemesh.MemberRollBuilder σ)) :
    (servicemesh.MemberRollBuilder.validate U builder).1.map (fun b => b.Object)
        = builder.map (fun b => b.Object) ∧
      (servicemesh.MemberRollBuilder.validate U builder).1.map (fun b => b.Definition)
        = builder.map (fun b => b.Definition) := by
  rcases builder with _ | ⟨d, o, m, c⟩
  · exact ⟨rfl, rfl⟩
  · cases d <;> cases c <;> simp [servicemesh.MemberRollBuilder.validate] <;> split_ifs <;> simp

/-- C4: for a LocalVolumeSetBuilder, KCBuilder, ControlPlaneBuilder or MemberRollBuilder
that fails its validation gate (nil builders included), Exists runs to completion,
returns false, issues no call on the accessor, leaves the remote state alone and
leaves Object (and Definition) as they were. -/
theorem C4_exists_on_invalid_builder :
    (∀ (σ : Type) (U : String → String) (builder : Option (lso.LocalVolumeSetBuilder σ))
        (s : σ),
      (lso.LocalVolumeSetBuilder.validate U builder).1 = false →
      ∃ out, lso.LocalVolumeSetBuilder.Exists U builder s = some out ∧
        out.ret = false ∧ out.calls = [] ∧ out.state = s ∧
        out.recv.map (fun b => b.Object) = builder.map (fun b => b.Object) ∧
        out.recv.map (fun b => b.Definition) = builder.map (fun b => b.Definition)) ∧
    (∀ (σ : Type) (U : String → String) (builder : Option (mco.KCBuilder σ)) (s : σ),
      (mco.KCBuilder.validate U builder).2.1 = false →
      ∃ out, mco.KCBuilder.Exists U builder s = some out ∧
        out.ret = false ∧ out.calls = [] ∧ out.state = s ∧
        out.recv.map (fun b => b.Object) = builder.map (fun b => b.Object) ∧
        out.recv.map (fun b => b.Definition) = builder.map (fun b => b.Definition)) ∧
    (∀ (σ : Type) (U : String → String) (builder : Option (servicemesh.ControlPlaneBuilder σ))
        (s : σ),
      (servicemesh.ControlPlaneBuilder.validate U builder).2.1 = false →
      ∃ out, servicemesh.ControlPlaneBuilder.Exists U builder s = some out ∧
        out.ret = false ∧ out.calls = [] ∧ out.state = s ∧
        out.recv.map (fun b => b.Object) = builder.map (fun b => b.Object) ∧
        out.recv.map (fun b => b.Definition) = builder.map (fun b => b.Definition)) ∧
    (∀ (σ : Type) (U : String → String) (builder : Option (servicemesh.MemberRollBuilder σ))
        (s : σ),
      (servicemesh.MemberRollBuilder.validate U builder).2.1 = false →
      ∃ out, servicemesh.MemberRollBuilder.Exists U builder s = some out ∧
        out.ret = false ∧ out.calls = [] ∧ out.state = s ∧
        out.recv.map (fun b => b.Object) = builder.map (fun b => b.Object) ∧
        out.recv.map (fun b => b.Definition) = builder.map (fun b => b.Definition)) := by
  refine ⟨?_, ?_, ?_, ?_⟩
  · intro σ U builder s hv
    refine ⟨{ recv := builder, ret := false, state := s, calls := [] }, ?_, rfl, rfl, rfl,
      rfl, rfl⟩
    unfold lso.LocalVolumeSetBuilder.Exists
    split
    · rfl
    · next h => rw [h] at hv; exact absurd hv (by simp)
  · intro σ U builder s hv
    refine ⟨{ recv := (mco.KCBuilder.validate U builder).1, ret := false, state := s,
              calls := [] }, ?_, rfl, rfl, rfl, ?_, ?_⟩
    · unfold mco.KCBuilder.Exists
      split
      · next h => rw [h]
      · next h => rw [h] at hv; exact absurd hv (by simp)
    · exact (kc_validate_frame U builder).1
    · exact (kc_validate_frame U builder).2
  · intro σ U builder s hv
    refine ⟨{ recv := (servicemesh.ControlPlaneBuilder.validate U builder).1, ret := false,
              state := s, calls := [] }, ?_, rfl, rfl, rfl, ?_, ?_⟩
    · unfold servicemesh.ControlPlaneBuilder.Exists
      split
      · next h => rw [h]
      · next h => rw [h] at hv; exact absurd hv (by simp)
    · exact (cp_validate_frame U builder).1
    · exact (cp_validate_frame U builder).2
  · intro σ U builder s hv
    refine ⟨{ recv := (servicemesh.MemberRollBuilder.validate U builder).1, ret := false,
              state := s, calls := [] }, ?_, rfl, rfl, rfl, ?_, ?_⟩
    · unfold servicemesh.MemberRollBuilder.Exists
      split
      · next h => rw [h]
      · next h => rw [h] at hv; exact absurd hv (by simp)
    · exact (mr_validate_frame U builder).1
    · exact (mr_validate_frame U builder).2

/-- C4 at concrete inputs, one for each builder: the builder constructed with an empty
name fails its gate, and Exists on it returns false without calling the store, which
holds an object under the empty name. -/
theorem C4_exists_on_invalid_builder_witness :
    (∃ out, lso.LocalVolumeSetBuilder.Exists msg.sampleUndefinedCrd
        (lso.NewLocalVolumeSetBuilder (some { Client := some lso.store }) "" "ns")
        [{ ObjectMeta := { Name := "", Namespace := "ns" } }] = some out ∧
      out.ret = false ∧ out.calls = []) ∧
    (∃ out, mco.KCBuilder.Exists msg.sampleUndefinedCrd
        (mco.NewKCBuilder (some { KubeletConfigs := some mco.storeKubeletConfigs }) "")
        [{ ObjectMeta := { Name := "" } }] = some out ∧
      out.ret = false ∧ out.calls = []) ∧
    (∃ out, servicemesh.ControlPlaneBuilder.Exists msg.sampleUndefinedCrd
        (servicemesh.NewServiceMeshControlPlane
          (some { Client := some servicemesh.controlPlaneStore }) "" "ns")
        [{ ObjectMeta := { Name := "", Namespace := "ns" } }] = some out ∧
      out.ret = false ∧ out.calls = []) ∧
    (∃ out, servicemesh.MemberRollBuilder.Exists msg.sampleUndefinedCrd
        (none : Option (servicemesh.MemberRollBuilder (List istioV1.ServiceMeshMemberRoll)))
        [{ ObjectMeta := { Name := "", Namespace := "ns" } }] = some out ∧
      out.ret = false ∧ out.calls = []) := by
  refine ⟨?_, ?_, ?_, ?_⟩
  · obtain ⟨out, h, hret, hcalls, _⟩ := C4_exists_on_invalid_builder.1 _ msg.sampleUndefinedCrd
      (lso.NewLocalVolumeSetBuilder (some { Client := some lso.store }) "" "ns")
      [{ ObjectMeta := { Name := "", Namespace := "ns" } }] rfl
    exact ⟨out, h, hret, hcalls⟩
  · obtain ⟨out, h, hret, hcalls, _⟩ := C4_exists_on_invalid_builder.2.1 _
      msg.sampleUndefinedCrd
      (mco.NewKCBuilder (some { KubeletConfigs := some mco.storeKubeletConfigs }) "")
      [{ ObjectMeta := { Name := "" } }] rfl
    exact ⟨out, h, hret, hcalls⟩
  · obtain ⟨out, h, hret, hcalls, _⟩ := C4_exists_on_invalid_builder.2.2.1 _
      msg.sampleUndefinedCrd
      (servicemesh.NewServiceMeshControlPlane
        (some { Client := some servicemesh.controlPlaneStore }) "" "ns")
      [{ ObjectMeta := { Name := "", Namespace := "ns" } }] rfl
    exact ⟨out, h, hret, hcalls⟩
  · obtain ⟨out, h, hret, hcalls, _⟩ := C4_exists_on_invalid_builder.2.2.2
      (List istioV1.ServiceMeshMemberRoll) msg.sampleUndefinedCrd none
      [{ ObjectMeta := { Name := "", Namespace := "ns" } }] rfl
    exact ⟨out, h, hret, hcalls⟩

/-- Create on a valid LocalVolumeSetBuilder: after the existence check, nothing more
happens when the Get did not fail with not-found; otherwise the Definition is
created remotely and, on success, becomes the Object. -/
theorem lvs_Create_valid {σ : Type} (U : String → String) (d : lsov1alpha1.LocalVolumeSet)
    (o : Option lsov1alpha1.LocalVolumeSet) (c : goclient.Client σ lsov1alpha1.LocalVolumeSet)
    (s : σ) :
    lso.LocalVolumeSetBuilder.Create U
      (some { Definition := some d, Object := o, errorMsg := "", apiClient := some c }) s
      = if k8serrors.IsNotFound (c.Get (lso.keyOf d) s).1.2 = true then
          match (c.Create d (c.Get (lso.keyOf d) s).2).1 with
          | none =>
            some { recv := some { Definition := some d, Object := some d, errorMsg := ""
                                  apiClient := some c }
                   ret := (some { Definition := some d, Object := some d, errorMsg := ""
                                  apiClient := some c }, none)
                   state := (c.Create d (c.Get (lso.keyOf d) s).2).2
                   calls := [goclient.Call.Get (lso.keyOf d), goclient.Call.Create d] }
          | some err =>
            some { recv := some { Definition := some d, Object := none, errorMsg := ""
                                  apiClient := some c }
                   ret := (some { Definition := some d, Object := none, errorMsg := ""
                                  apiClient := some c }, some err)
                   state := (c.Create d (c.Get (lso.keyOf d) s).2).2
                   calls := [goclient.Call.Get (lso.keyOf d), goclient.Call.Create d] }
        else
          some { recv := some
                   { Definition := some d
                     Object := match (c.Get (lso.keyOf d) s).1.2 with
                       | some _ => none
                       | none => some (c.Get (lso.keyOf d) s).1.1
                     errorMsg := "", apiClient := some c }
                 ret := (some
                   { Definition := some d
                     Object := match (c.Get (lso.keyOf d) s).1.2 with
                       | some _ => none
                       | none => some (c.Get (lso.keyOf d) s).1.1
                     errorMsg := "", apiClient := some c }, none)
                 state := (c.Get (lso.keyOf d) s).2
                 calls := [goclient.Call.Get (lso.keyOf d)] } := by
  simp only [lso.LocalVolumeSetBuilder.Create, lvs_validate_valid, lvs_Exists_valid]
  by_cases h : k8serrors.IsNotFound (c.Get (lso.keyOf d) s).1.2 = true
  · have hsome : ∃ e, (c.Get (lso.keyOf d) s).1.2 = some e := by
      cases hg : (c.Get (lso.keyOf d) s).1.2 with
      | none => rw [hg] at h; simp [k8serrors.IsNotFound] at h
      | some e => exact ⟨e, rfl⟩
    obtain ⟨e, he⟩ := hsome
    have h2 : k8serrors.IsNotFound (some e) = true := by rw [← he]; exact h
    simp only [he]
    cases (c.Create d (c.Get (lso.keyOf d) s).2).1 <;> simp [h2]
  · simp [h]

/-- Create on a valid KCBuilder with a live client: after the existence check, nothing
more happens when the Get did not fail with not-found; otherwise the Definition is
created remotely and what the remote Create returns becomes Object and error. -/
theorem kc_Create_valid {σ : Type} (U : String → String) (d : mcv1.KubeletConfig)
    (o : Option mcv1.KubeletConfig) (kc : mco.KubeletConfigInterface σ) (s : σ) :
    mco.KCBuilder.Create U
      (some { Definition := some d, Object := o,
              apiClient := some { KubeletConfigs := some kc }, errorMsg := "" }) s
      = if k8serrors.IsNotFound (kc.Get d.ObjectMeta.Name s).1.2 = true then
          some { recv := some
                   { Definition := some d
                     Object := (kc.Create d (kc.Get d.ObjectMeta.Name s).2).1.1
                     apiClient := some { KubeletConfigs := some kc }, errorMsg := "" }
                 ret := (some
                   { Definition := some d
                     Object := (kc.Create d (kc.Get d.ObjectMeta.Name s).2).1.1
                     apiClient := some { KubeletConfigs := some kc }, errorMsg := "" },
                   (kc.Create d (kc.Get d.ObjectMeta.Name s).2).1.2)
                 state := (kc.Create d (kc.Get d.ObjectMeta.Name s).2).2
                 calls := [mco.Call.Get d.ObjectMeta.Name, mco.Call.Create d] }
        else
          some { recv := some
                   { Definition := some d, Object := (kc.Get d.ObjectMeta.Name s).1.1
                     apiClient := some { KubeletConfigs := some kc }, errorMsg := "" }
                 ret := (some
                   { Definition := some d, Object := (kc.Get d.ObjectMeta.Name s).1.1
                     apiClient := some { KubeletConfigs := some kc }, errorMsg := "" }, none)
                 state := (kc.Get d.ObjectMeta.Name s).2
                 calls := [mco.Call.Get d.ObjectMeta.Name] } := by
  simp only [mco.KCBuilder.Create, kc_validate_valid, kc_Exists_valid]
  by_cases h : k8serrors.IsNotFound (kc.Get d.ObjectMeta.Name s).1.2 = true
  · simp [h]
  · simp [h]

/-- C5: Create is idempotent over an accessor that behaves as a key-value store.  For
a LocalVolumeSetBuilder (and a KCBuilder) that passes its gate: if a first Create
returns a nil error, a second Create on the builder, in the remote state the first
one left, returns a nil error, issues no remote Create and leaves the remote state
unchanged. -/
theorem C5_create_is_idempotent :
    (∀ (σ : Type) (U : String → String) (b : lso.LocalVolumeSetBuilder σ)
        (c : goclient.Client σ lsov1alpha1.LocalVolumeSet) (holds : σ → goclient.ObjectKey → Bool)
        (s : σ) (out1 : Outcome (lso.LocalVolumeSetBuilder σ)
          (Option (lso.LocalVolumeSetBuilder σ) × Option GoError) σ lso.Call),
      c.IsStore lso.keyOf holds →
      (lso.LocalVolumeSetBuilder.validate U (some b)).1 = true →
      b.apiClient = some c →
      lso.LocalVolumeSetBuilder.Create U (some b) s = some out1 →
      out1.ret.2 = none →
      ∃ out2, lso.LocalVolumeSetBuilder.Create U out1.recv out1.state = some out2 ∧
        out2.ret.2 = none ∧ (∀ x, goclient.Call.Create x ∉ out2.calls) ∧
        out2.state = out1.state) ∧
    (∀ (σ : Type) (U : String → String) (b : mco.KCBuilder σ) (d : mcv1.KubeletConfig)
        (kc : mco.KubeletConfigInterface σ) (holds : σ → String → Bool)
        (s : σ) (out1 : Outcome (mco.KCBuilder σ)
          (Option (mco.KCBuilder σ) × Option GoError) σ mco.Call),
      kc.IsStore holds →
      (mco.KCBuilder.validate U (some b)).2.1 = true →
      b.Definition = some d →
      b.apiClient = some { KubeletConfigs := some kc } →
      mco.KCBuilder.Create U (some b) s = some out1 →
      out1.ret.2 = none →
      ∃ out2, mco.KCBuilder.Create U out1.recv out1.state = some out2 ∧
        out2.ret.2 = none ∧ (∀ x, mco.Call.Create x ∉ out2.calls) ∧
        out2.state = out1.state) := by
  refine ⟨?_, ?_⟩
  · intro σ U b c holds s out1 hstore hv hc h1 herr
    obtain ⟨d, o, c1, hb⟩ := (lvs_validate_true_iff U (some b)).1 hv
    obtain rfl : b = _ := Option.some.inj hb
    obtain rfl : c1 = c := Option.some.inj hc
    rw [lvs_Create_valid] at h1
    by_cases hnf : k8serrors.IsNotFound (c1.Get (lso.keyOf d) s).1.2 = true
    · rw [if_pos hnf] at h1
      cases hcr : (c1.Create d (c1.Get (lso.keyOf d) s).2).1 with
      | some err =>
        rw [hcr] at h1
        obtain rfl := Option.some.inj h1
        simp at herr
      | none =>
        rw [hcr] at h1
        obtain rfl := Option.some.inj h1
        have hheld := hstore.create_holds d (c1.Get (lso.keyOf d) s).2 hcr
        have hnf2 : ¬ k8serrors.IsNotFound (c1.Get (lso.keyOf d)
            (c1.Create d (c1.Get (lso.keyOf d) s).2).2).1.2 = true := by
          intro hcontra
          rw [(hstore.get_notFound _ _).1 hcontra] at hheld
          exact absurd hheld (by simp)
        simp only [lvs_Create_valid, if_neg hnf2]
        exact ⟨_, rfl, rfl, by simp, hstore.get_state _ _⟩
    · rw [if_neg hnf] at h1
      obtain rfl := Option.some.inj h1
      have hst : (c1.Get (lso.keyOf d) s).2 = s := hstore.get_state _ _
      simp only [lvs_Create_valid, hst, if_neg hnf]
      exact ⟨_, rfl, rfl, by simp, rfl⟩
  · intro σ U b d kc holds s out1 hstore hv hd hc h1 herr
    obtain ⟨o, st, rfl⟩ := (kc_validate_true_iff U b d hd).1 hv
    obtain rfl : st = _ := Option.some.inj hc
    rw [kc_Create_valid] at h1
    by_cases hnf : k8serrors.IsNotFound (kc.Get d.ObjectMeta.Name s).1.2 = true
    · rw [if_pos hnf] at h1
      obtain rfl := Option.some.inj h1
      have hcr : (kc.Create d (kc.Get d.ObjectMeta.Name s).2).1.2 = none := herr
      have hheld := hstore.create_holds d (kc.Get d.ObjectMeta.Name s).2 hcr
      have hnf2 : ¬ k8serrors.IsNotFound (kc.Get d.ObjectMeta.Name
          (kc.Create d (kc.Get d.ObjectMeta.Name s).2).2).1.2 = true := by
        intro hcontra
        rw [(hstore.get_notFound _ _).1 hcontra] at hheld
        exact absurd hheld (by simp)
      simp only [kc_Create_valid, if_neg hnf2]
      exact ⟨_, rfl, rfl, by simp, hstore.get_state _ _⟩
    · rw [if_neg hnf] at h1
      obtain rfl := Option.some.inj h1
      have hst : (kc.Get d.ObjectMeta.Name s).2 = s := hstore.get_state _ _
      simp only [kc_Create_valid, hst, if_neg hnf]
      exact ⟨_, rfl, rfl, by simp, rfl⟩

/-- The in-memory accessor behaves as a key-value store: it holds a key when some stored
object has it. -/
theorem storeClient_isStore {R : Type} (empty : R) (keyOf : R → goclient.ObjectKey) :
    (goclient.storeClient empty keyOf).IsStore keyOf
      (fun s key => s.any (fun o => keyOf o == key)) := by
  refine ⟨?_, ?_, ?_⟩
  · intro key s
    simp only [goclient.storeClient]
    cases List.find? (fun o => keyOf o == key) s <;> rfl
  · intro key s
    simp only [goclient.storeClient]
    cases h : List.find? (fun o => keyOf o == key) s with
    | none =>
      simp only [k8serrors.IsNotFound, goclient.notFoundError, true_iff]
      rw [List.find?_eq_none] at h
      simpa using h
    | some o =>
      have hmem := List.mem_of_find?_eq_some h
      have hkey := List.find?_some h
      simp only [k8serrors.IsNotFound, Bool.false_eq_true, false_iff]
      intro hany
      have : (s.any fun o => keyOf o == key) = true := List.any_eq_true.2 ⟨o, hmem, hkey⟩
      rw [hany] at this
      exact absurd this (by simp)
  · intro o s h
    simp only [goclient.storeClient] at h ⊢
    by_cases hany : (s.any fun x => keyOf x == keyOf o) = true
    · simp [hany] at h
    · simp [hany]

/-- The in-memory typed client behaves as a key-value store: it holds a name when some
stored object has it. -/
theorem storeKubeletConfigs_isStore :
    mco.storeKubeletConfigs.IsStore
      (fun s name => s.any (fun o => o.ObjectMeta.Name == name)) := by
  refine ⟨?_, ?_, ?_⟩
  · intro name s
    simp only [mco.storeKubeletConfigs]
    cases List.find? (fun o => o.ObjectMeta.Name == name) s <;> rfl
  · intro name s
    simp only [mco.storeKubeletConfigs]
    cases h : List.find? (fun o => o.ObjectMeta.Name == name) s with
    | none =>
      simp only [k8serrors.IsNotFound, goclient.notFoundError, true_iff]
      rw [List.find?_eq_none] at h
      simpa using h
    | some o =>
      have hmem := List.mem_of_find?_eq_some h
      have hkey := List.find?_some h
      simp only [k8serrors.IsNotFound, Bool.false_eq_true, false_iff]
      intro hany
      have : (s.any fun o => o.ObjectMeta.Name == name) = true :=
        List.any_eq_true.2 ⟨o, hmem, hkey⟩
      rw [hany] at this
      exact absurd this (by simp)
  · intro o s h
    simp only [mco.storeKubeletConfigs] at h ⊢
    by_cases hany : (s.any fun x => x.ObjectMeta.Name == o.ObjectMeta.Name) = true
    · simp [hany] at h
    · simp [hany]

/-- C5 at concrete inputs: over the empty in-memory store the first Create of the sample
LocalVolumeSet builder (and of the sample KubeletConfig builder) succeeds and stores
the object, and the second Create is a no-op with a nil error. -/
theorem C5_create_is_idempotent_witness :
    (∃ out1, lso.LocalVolumeSetBuilder.Create msg.sampleUndefinedCrd (some lso.sampleBuilder) []
        = some out1 ∧
      out1.ret.2 = none ∧
      out1.state = [{ ObjectMeta := { Name := "lvs", Namespace := "ns" } }] ∧
      ∃ out2, lso.LocalVolumeSetBuilder.Create msg.sampleUndefinedCrd out1.recv out1.state
          = some out2 ∧
        out2.ret.2 = none ∧ (∀ x, goclient.Call.Create x ∉ out2.calls) ∧
        out2.state = out1.state) ∧
    (∃ out1, mco.KCBuilder.Create msg.sampleUndefinedCrd (some mco.sampleBuilder) []
        = some out1 ∧
      out1.ret.2 = none ∧
      out1.state = [{ ObjectMeta := { Name := "kc" } }] ∧
      ∃ out2, mco.KCBuilder.Create msg.sampleUndefinedCrd out1.recv out1.state = some out2 ∧
        out2.ret.2 = none ∧ (∀ x, mco.Call.Create x ∉ out2.calls) ∧
        out2.state = out1.state) :=
  ⟨⟨_, rfl, rfl, rfl,
    C5_create_is_idempotent.1 _ msg.sampleUndefinedCrd lso.sampleBuilder lso.store
      (fun s key => s.any (fun o => lso.keyOf o == key)) [] _
      (storeClient_isStore _ _) rfl rfl rfl rfl⟩,
   ⟨_, rfl, rfl, rfl,
    C5_create_is_idempotent.2 _ msg.sampleUndefinedCrd mco.sampleBuilder
      { ObjectMeta := { Name := "kc" } } mco.storeKubeletConfigs
      (fun s name => s.any (fun o => o.ObjectMeta.Name == name)) [] _
      storeKubeletConfigs_isStore rfl rfl rfl rfl rfl⟩⟩

/-- C6, as stated, fails: when the Get of the existence check fails with an error that
is not a not-found error, Exists answers true, so Create on a valid builder returns
a nil error without creating anything, and the returned builder's Object is nil. -/
theorem C6_create_nil_error_object_nil :
    (lso.LocalVolumeSetBuilder.validate msg.sampleUndefinedCrd
      (some lso.sampleUnreachableBuilder)).1 = true ∧
    ∃ out, lso.LocalVolumeSetBuilder.Create msg.sampleUndefinedCrd
        (some lso.sampleUnreachableBuilder) () = some out ∧
      out.ret.2 = none ∧
      out.ret.1.bind (fun b => b.Object) = none ∧
      out.recv.bind (fun b => b.Object) = none ∧
      out.calls = [goclient.Call.Get { Name := "lvs", Namespace := "ns" }] :=
  ⟨rfl, _, rfl, rfl, rfl, rfl, rfl⟩

/-- C6 amended: for a valid LocalVolumeSetBuilder over an accessor whose successful Get
returns an object carrying the requested name and namespace, Create runs to
completion, and when it returns a nil error and the Get of its existence check did
not fail with an error other than not-found, the returned builder (which is the
receiver) has a non-nil Object whose name and namespace equal those of its
Definition. -/
theorem C6_create_nil_error_object_matches :
    ∀ (σ : Type) (U : String → String) (b : lso.LocalVolumeSetBuilder σ)
      (d : lsov1alpha1.LocalVolumeSet) (c : goclient.Client σ lsov1alpha1.LocalVolumeSet)
      (s : σ),
    (lso.LocalVolumeSetBuilder.validate U (some b)).1 = true →
    b.Definition = some d → b.apiClient = some c →
    (∀ key s1, (c.Get key s1).1.2 = none → lso.keyOf (c.Get key s1).1.1 = key) →
    ∃ out, lso.LocalVolumeSetBuilder.Create U (some b) s = some out ∧
      out.ret.1 = out.recv ∧
      (out.ret.2 = none →
       (∀ e, (c.Get (lso.keyOf d) s).1.2 = some e → e.notFound = true) →
       ∃ o, out.ret.1.bind (fun b1 => b1.Object) = some o ∧
         out.ret.1.bind (fun b1 => b1.Definition) = some d ∧
         o.ObjectMeta.Name = d.ObjectMeta.Name ∧
         o.ObjectMeta.Namespace = d.ObjectMeta.Namespace) := by
  intro σ U b d c s hv hd hc hget
  obtain ⟨d1, o, c1, hb⟩ := (lvs_validate_true_iff U (some b)).1 hv
  obtain rfl : b = _ := Option.some.inj hb
  obtain rfl : d1 = d := Option.some.inj hd
  obtain rfl : c1 = c := Option.some.inj hc
  rw [lvs_Create_valid]
  by_cases hnf : k8serrors.IsNotFound (c1.Get (lso.keyOf d1) s).1.2 = true
  · rw [if_pos hnf]
    cases hcr : (c1.Create d1 (c1.Get (lso.keyOf d1) s).2).1 with
    | some err => exact ⟨_, rfl, rfl, fun h => by simp at h⟩
    | none => exact ⟨_, rfl, rfl, fun _ _ => ⟨d1, rfl, rfl, rfl, rfl⟩⟩
  · rw [if_neg hnf]
    refine ⟨_, rfl, rfl, fun _ hother => ?_⟩
    cases hg : (c1.Get (lso.keyOf d1) s).1.2 with
    | some e =>
      have := hother e hg
      rw [hg] at hnf
      exact absurd this hnf
    | none =>
      have hk := hget (lso.keyOf d1) s hg
      refine ⟨(c1.Get (lso.keyOf d1) s).1.1, ?_, rfl, ?_, ?_⟩
      · simp [hg]
      · exact congrArg goclient.ObjectKey.Name hk
      · exact congrArg goclient.ObjectKey.Namespace hk

/-- A successful Get of the in-memory accessor returns an object stored under the
requested key. -/
theorem storeClient_get_key {R : Type} (empty : R) (keyOf : R → goclient.ObjectKey)
    (key : goclient.ObjectKey) (s : List R) :
    ((goclient.storeClient empty keyOf).Get key s).1.2 = none →
      keyOf ((goclient.storeClient empty keyOf).Get key s).1.1 = key := by
  simp only [goclient.storeClient]
  cases h : List.find? (fun o => keyOf o == key) s with
  | none => intro hn; simp at hn
  | some o =>
    intro _
    have hkey := List.find?_some h
    simpa using hkey

/-- C6 amended, at a concrete input: over the empty in-memory store Create of the sample
LocalVolumeSet builder returns a nil error and Object carries the name and namespace
of the Definition. -/
theorem C6_create_nil_error_object_matches_witness :
    (lso.LocalVolumeSetBuilder.validate msg.sampleUndefinedCrd (some lso.sampleBuilder)).1
      = true ∧
    (∀ key s1, (lso.store.Get key s1).1.2 = none → lso.keyOf (lso.store.Get key s1).1.1 = key) ∧
    ∃ out, lso.LocalVolumeSetBuilder.Create msg.sampleUndefinedCrd (some lso.sampleBuilder) []
        = some out ∧
      out.ret.1 = out.recv ∧
      (out.ret.2 = none →
       (∀ e, (lso.store.Get (lso.keyOf { ObjectMeta := { Name := "lvs", Namespace := "ns" } })
          []).1.2 = some e → e.notFound = true) →
       ∃ o, out.ret.1.bind (fun b1 => b1.Object) = some o ∧
         out.ret.1.bind (fun b1 => b1.Definition)
           = some { ObjectMeta := { Name := "lvs", Namespace := "ns" } } ∧
         o.ObjectMeta.Name = "lvs" ∧ o.ObjectMeta.Namespace = "ns") :=
  ⟨rfl, storeClient_get_key _ _,
    C6_create_nil_error_object_matches _ msg.sampleUndefinedCrd lso.sampleBuilder
      { ObjectMeta := { Name := "lvs", Namespace := "ns" } } lso.store [] rfl rfl rfl
      (storeClient_get_key _ _)⟩

/-- C7: the code at the failing input.  Over the in-memory store keyed by name and
namespace, Create of the valid StorageCluster builder for ("sc", "ns") returns a nil
error and leaves the object in the store; the following Get asks the accessor for
the key with name "sc" and an empty namespace, and returns the not-found error. -/
theorem C7_storageCluster_get_drops_namespace :
    (storage.StorageClusterBuilder.validate msg.sampleUndefinedCrd
      (some storage.sampleBuilder)).1 = true ∧
    ∃ d, storage.sampleBuilder.Definition = some d ∧
      d.ObjectMeta.Name = "sc" ∧ d.ObjectMeta.Namespace = "ns" ∧
      ∃ out1, storage.StorageClusterBuilder.Create msg.sampleUndefinedCrd
          (some storage.sampleBuilder) [] = some out1 ∧
        out1.ret.2 = none ∧ out1.state = [d] ∧
        ∃ out2, storage.StorageClusterBuilder.Get msg.sampleUndefinedCrd out1.recv out1.state
            = some out2 ∧
          out2.calls = [goclient.Call.Get { Name := "sc", Namespace := "" }] ∧
          out2.ret = (none, some (goclient.notFoundError { Name := "sc", Namespace := "" })) :=
  ⟨rfl, _, rfl, rfl, rfl, _, rfl, rfl, rfl, _, rfl, rfl, rfl⟩

/-- C8: Get on a valid LocalVolumeSetBuilder issues exactly one remote Get, under the
name and namespace of the Definition, and returns the fetched object with a nil
error, or nil with exactly the accessor's error; the builder is left as it was.  On a
builder that fails the gate, Get returns nil and the (non-nil) validation error and
issues no call. -/
theorem C8_get_is_one_remote_get :
    (∀ (σ : Type) (U : String → String) (b : lso.LocalVolumeSetBuilder σ)
        (d : lsov1alpha1.LocalVolumeSet) (c : goclient.Client σ lsov1alpha1.LocalVolumeSet)
        (s : σ),
      (lso.LocalVolumeSetBuilder.validate U (some b)).1 = true →
      b.Definition = some d → b.apiClient = some c →
      ∃ out, lso.LocalVolumeSetBuilder.Get U (some b) s = some out ∧
        out.calls = [goclient.Call.Get { Name := d.ObjectMeta.Name
                                         Namespace := d.ObjectMeta.Namespace }] ∧
        out.state = (c.Get { Name := d.ObjectMeta.Name
                             Namespace := d.ObjectMeta.Namespace } s).2 ∧
        out.recv = some b ∧
        ((c.Get { Name := d.ObjectMeta.Name, Namespace := d.ObjectMeta.Namespace } s).1.2 = none →
          out.ret = (some (c.Get { Name := d.ObjectMeta.Name
                                   Namespace := d.ObjectMeta.Namespace } s).1.1, none)) ∧
        (∀ e, (c.Get { Name := d.ObjectMeta.Name
                       Namespace := d.ObjectMeta.Namespace } s).1.2 = some e →
          out.ret = (none, some e))) ∧
    (∀ (σ : Type) (U : String → String) (builder : Option (lso.LocalVolumeSetBuilder σ))
        (s : σ),
      (lso.LocalVolumeSetBuilder.validate U builder).1 = false →
      ∃ out err, lso.LocalVolumeSetBuilder.Get U builder s = some out ∧
        (lso.LocalVolumeSetBuilder.validate U builder).2 = some err ∧
        out.ret = (none, some err) ∧ out.calls = [] ∧ out.state = s ∧
        out.recv = builder) := by
  refine ⟨?_, ?_⟩
  · intro σ U b d c s hv hd hc
    obtain ⟨d1, o, c1, hb⟩ := (lvs_validate_true_iff U (some b)).1 hv
    obtain rfl : b = _ := Option.some.inj hb
    obtain rfl : d1 = d := Option.some.inj hd
    obtain rfl : c1 = c := Option.some.inj hc
    refine ⟨_, lvs_Get_valid U d1 o c1 s, rfl, rfl, rfl, ?_, ?_⟩
    · intro h
      simp only [lso.keyOf, h]
    · intro e h
      simp only [lso.keyOf, h]
  · intro σ U builder s hv
    have herr : ∃ err, (lso.LocalVolumeSetBuilder.validate U builder).2 = some err := by
      rcases builder with _ | ⟨_ | d, o, m, _ | c⟩ <;>
        simp [lso.LocalVolumeSetBuilder.validate] at hv ⊢
      by_cases hm : m = ""
      · simp [hm] at hv
      · simp [hm]
    obtain ⟨err, herr⟩ := herr
    refine ⟨{ recv := builder, ret := (none, some err), state := s, calls := [] }, err, ?_,
      herr, rfl, rfl, rfl, rfl⟩
    unfold lso.LocalVolumeSetBuilder.Get
    split
    · next e h => rw [h] at herr; simp at herr; rw [herr]
    · next h => rw [h] at hv; exact absurd hv (by simp)

/-- C8 at a concrete input: Get of the sample LocalVolumeSet builder over a store that
holds its object. -/
theorem C8_get_is_one_remote_get_witness :
    (lso.LocalVolumeSetBuilder.validate msg.sampleUndefinedCrd (some lso.sampleBuilder)).1
      = true ∧
    ∃ out, lso.LocalVolumeSetBuilder.Get msg.sampleUndefinedCrd (some lso.sampleBuilder)
        [{ ObjectMeta := { Name := "lvs", Namespace := "ns" } }] = some out ∧
      out.calls = [goclient.Call.Get { Name := "lvs", Namespace := "ns" }] ∧
      out.state = (lso.store.Get { Name := "lvs", Namespace := "ns" }
        [{ ObjectMeta := { Name := "lvs", Namespace := "ns" } }]).2 ∧
      out.recv = some lso.sampleBuilder ∧
      ((lso.store.Get { Name := "lvs", Namespace := "ns" }
          [{ ObjectMeta := { Name := "lvs", Namespace := "ns" } }]).1.2 = none →
        out.ret = (some (lso.store.Get { Name := "lvs", Namespace := "ns" }
          [{ ObjectMeta := { Name := "lvs", Namespace := "ns" } }]).1.1, none)) ∧
      (∀ e, (lso.store.Get { Name := "lvs", Namespace := "ns" }
          [{ ObjectMeta := { Name := "lvs", Namespace := "ns" } }]).1.2 = some e →
        out.ret = (none, some e)) :=
  ⟨rfl, C8_get_is_one_remote_get.1 _ msg.sampleUndefinedCrd lso.sampleBuilder
    { ObjectMeta := { Name := "lvs", Namespace := "ns" } } lso.store
    [{ ObjectMeta := { Name := "lvs", Namespace := "ns" } }] rfl rfl rfl⟩

/-- A Get error that is a not-found error is a non-nil error. -/
theorem isNotFound_some {err : Option GoError} (h : k8serrors.IsNotFound err = true) :
    ∃ e, err = some e := by
  cases err with
  | none => simp [k8serrors.IsNotFound] at h
  | some e => exact ⟨e, rfl⟩

/-- Update on a valid LocalVolumeSetBuilder whose Get fails with not-found. -/
theorem lvs_Update_absent {σ : Type} (U : String → String) (d : lsov1alpha1.LocalVolumeSet)
    (o : Option lsov1alpha1.LocalVolumeSet) (c : goclient.Client σ lsov1alpha1.LocalVolumeSet)
    (s : σ) (h : k8serrors.IsNotFound (c.Get (lso.keyOf d) s).1.2 = true) :
    lso.LocalVolumeSetBuilder.Update U
      (some { Definition := some d, Object := o, errorMsg := "", apiClient := some c }) s
      = some
        { recv := some { Definition := some d, Object := none, errorMsg := ""
                         apiClient := some c }
          ret := (none, some (fmt.ErrorfText ("localVolumeSet object " ++ d.ObjectMeta.Name
            ++ " does not exist in namespace " ++ d.ObjectMeta.Namespace)))
          state := (c.Get (lso.keyOf d) s).2
          calls := [goclient.Call.Get (lso.keyOf d)] } := by
  obtain ⟨e, he⟩ := isNotFound_some h
  have h2 : k8serrors.IsNotFound (some e) = true := by rw [← he]; exact h
  simp only [lso.LocalVolumeSetBuilder.Update, lvs_validate_valid, lvs_Exists_valid]
  simp [he, h2]

/-- Update on a valid LocalVolumeSetBuilder whose Get does not fail with not-found: the
Definition is stripped of its creation timestamp and resource version, then sent. -/
theorem lvs_Update_present {σ : Type} (U : String → String) (d : lsov1alpha1.LocalVolumeSet)
    (o : Option lsov1alpha1.LocalVolumeSet) (c : goclient.Client σ lsov1alpha1.LocalVolumeSet)
    (s : σ) (h : k8serrors.IsNotFound (c.Get (lso.keyOf d) s).1.2 = false)
    (d1 : lsov1alpha1.LocalVolumeSet)
    (hd1 : d1 = { d with ObjectMeta :=
      { d.ObjectMeta with CreationTimestamp := {}, ResourceVersion := "" } }) :
    lso.LocalVolumeSetBuilder.Update U
      (some { Definition := some d, Object := o, errorMsg := "", apiClient := some c }) s
      = match (c.Update d1 (c.Get (lso.keyOf d) s).2).1 with
        | some err =>
          some { recv := some
                   { Definition := some d1
                     Object := match (c.Get (lso.keyOf d) s).1.2 with
                       | some _ => none
                       | none => some (c.Get (lso.keyOf d) s).1.1
                     errorMsg := "", apiClient := some c }
                 ret := (none, some err)
                 state := (c.Update d1 (c.Get (lso.keyOf d) s).2).2
                 calls := [goclient.Call.Get (lso.keyOf d), goclient.Call.Update d1] }
        | none =>
          some { recv := some { Definition := some d1, Object := some d1, errorMsg := ""
                                apiClient := some c }
                 ret := (some { Definition := some d1, Object := some d1, errorMsg := ""
                                apiClient := some c }, none)
                 state := (c.Update d1 (c.Get (lso.keyOf d) s).2).2
                 calls := [goclient.Call.Get (lso.keyOf d), goclient.Call.Update d1] } := by
  subst hd1
  simp only [lso.LocalVolumeSetBuilder.Update, lvs_validate_valid, lvs_Exists_valid]
  simp only [h, Bool.not_false, Bool.not_true, Bool.false_eq_true, if_false]
  split <;> simp_all

/-- Update on a StorageClusterBuilder that passes the gate, with a live client, whose
Get fails with not-found. -/
theorem sc_Update_absent {σ : Type} (U : String → String)
    (d : ocsoperatorv1.StorageCluster) (o : Option ocsoperatorv1.StorageCluster)
    (c : goclient.Client σ ocsoperatorv1.StorageCluster) (m : String) (s : σ)
    (h : k8serrors.IsNotFound (c.Get { Name := d.ObjectMeta.Name } s).1.2 = true) :
    storage.StorageClusterBuilder.Update U
      (some { Definition := some d, Object := o
              apiClient := storage.ClientIface.settings (some { Client := some c })
              errorMsg := m }) s
      = some
        { recv := some { Definition := some d, Object := none
                         apiClient := storage.ClientIface.settings (some { Client := some c })
                         errorMsg := m }
          ret := (none, some (fmt.ErrorfText ("storageCluster object " ++ d.ObjectMeta.Name
            ++ " doesn't exist in namespace " ++ d.ObjectMeta.Namespace)))
          state := (c.Get { Name := d.ObjectMeta.Name } s).2
          calls := [goclient.Call.Get { Name := d.ObjectMeta.Name }] } := by
  obtain ⟨e, he⟩ := isNotFound_some h
  have h2 : k8serrors.IsNotFound (some e) = true := by rw [← he]; exact h
  simp only [storage.StorageClusterBuilder.Update, sc_validate_valid, sc_Exists_valid]
  simp [he, h2, storage.ClientIface.client]

/-- C9, as stated, fails: Update on a valid builder whose Object is non-nil, over a store
that does not hold the object, leaves the builder with a nil Object, because the
existence check stores the (nil) result of its failed Get in Object. -/
theorem C9_update_absent_overwrites_object :
    (lso.LocalVolumeSetBuilder.validate msg.sampleUndefinedCrd
      (some { lso.sampleBuilder with
        Object := some { ObjectMeta := { Name := "lvs", Namespace := "ns" } } })).1 = true ∧
    k8serrors.IsNotFound (lso.store.Get { Name := "lvs", Namespace := "ns" } []).1.2 = true ∧
    ∃ out, lso.LocalVolumeSetBuilder.Update msg.sampleUndefinedCrd
        (some { lso.sampleBuilder with
          Object := some { ObjectMeta := { Name := "lvs", Namespace := "ns" } } }) []
        = some out ∧
      out.recv.bind (fun b => b.Object) = none ∧
      out.recv.bind (fun b => b.Object)
        ≠ some { ObjectMeta := { Name := "lvs", Namespace := "ns" } } :=
  ⟨rfl, rfl, _, rfl, rfl, by decide⟩

/-- C9 amended: for a valid LocalVolumeSetBuilder (and a StorageClusterBuilder that passes
its gate) whose Get fails with not-found, Update returns a nil builder and the error
"localVolumeSet object NAME does not exist in namespace NS" ("storageCluster object
NAME doesn't exist in namespace NS"), issues the Get of the existence check and no
remote Update, leaves Definition as it was and leaves Object nil: the existence check
has stored the nil result of the failed Get there, so Object keeps its value exactly
when it was nil before. -/
theorem C9_update_absent_fails_without_update :
    (∀ (σ : Type) (U : String → String) (b : lso.LocalVolumeSetBuilder σ)
        (d : lsov1alpha1.LocalVolumeSet) (c : goclient.Client σ lsov1alpha1.LocalVolumeSet)
        (s : σ),
      (lso.LocalVolumeSetBuilder.validate U (some b)).1 = true →
      b.Definition = some d → b.apiClient = some c →
      k8serrors.IsNotFound (c.Get { Name := d.ObjectMeta.Name
                                    Namespace := d.ObjectMeta.Namespace } s).1.2 = true →
      ∃ out, lso.LocalVolumeSetBuilder.Update U (some b) s = some out ∧
        out.ret.1 = none ∧
        out.ret.2.map GoError.text = some ("localVolumeSet object " ++ d.ObjectMeta.Name
          ++ " does not exist in namespace " ++ d.ObjectMeta.Namespace) ∧
        out.calls = [goclient.Call.Get { Name := d.ObjectMeta.Name
                                         Namespace := d.ObjectMeta.Namespace }] ∧
        (∀ x, goclient.Call.Update x ∉ out.calls) ∧
        out.recv = some { b with Object := none } ∧
        (b.Object = none → out.recv = some b)) ∧
    (∀ (σ : Type) (U : String → String) (b : storage.StorageClusterBuilder σ)
        (d : ocsoperatorv1.StorageCluster)
        (c : goclient.Client σ ocsoperatorv1.StorageCluster) (s : σ),
      (storage.StorageClusterBuilder.validate U (some b)).1 = true →
      b.Definition = some d →
      b.apiClient = storage.ClientIface.settings (some { Client := some c }) →
      k8serrors.IsNotFound (c.Get { Name := d.ObjectMeta.Name } s).1.2 = true →
      ∃ out, storage.StorageClusterBuilder.Update U (some b) s = some out ∧
        out.ret.1 = none ∧
        out.ret.2.map GoError.text = some ("storageCluster object " ++ d.ObjectMeta.Name
          ++ " doesn't exist in namespace " ++ d.ObjectMeta.Namespace) ∧
        out.calls = [goclient.Call.Get { Name := d.ObjectMeta.Name }] ∧
        (∀ x, goclient.Call.Update x ∉ out.calls) ∧
        out.recv = some { b with Object := none } ∧
        (b.Object = none → out.recv = some b)) := by
  refine ⟨?_, ?_⟩
  · intro σ U b d c s hv hd hc hnf
    obtain ⟨d1, o, c1, hb⟩ := (lvs_validate_true_iff U (some b)).1 hv
    obtain rfl : b = _ := Option.some.inj hb
    obtain rfl : d1 = d := Option.some.inj hd
    obtain rfl : c1 = c := Option.some.inj hc
    refine ⟨_, lvs_Update_absent U d1 o c1 s hnf, rfl, rfl, rfl, by simp [lso.keyOf], rfl, ?_⟩
    intro ho
    simp only at ho
    subst ho
    rfl
  · intro σ U b d c s hv hd hc hnf
    obtain ⟨d1, o, p, m, hb⟩ := (sc_validate_true_iff U (some b)).1 hv
    obtain rfl : b = _ := Option.some.inj hb
    obtain rfl : d1 = d := Option.some.inj hd
    obtain rfl : p = _ := storage.ClientIface.settings.inj hc
    refine ⟨_, sc_Update_absent U d1 o c m s hnf, rfl, rfl, rfl, by simp, rfl, ?_⟩
    intro ho
    simp only at ho
    subst ho
    rfl

/-- C9 amended, at concrete inputs: Update of the sample LocalVolumeSet builder and of the
sample StorageCluster builder over the empty in-memory store. -/
theorem C9_update_absent_fails_without_update_witness :
    (∃ out, lso.LocalVolumeSetBuilder.Update msg.sampleUndefinedCrd (some lso.sampleBuilder) []
        = some out ∧
      out.ret.1 = none ∧
      out.ret.2.map GoError.text
        = some "localVolumeSet object lvs does not exist in namespace ns" ∧
      out.calls = [goclient.Call.Get { Name := "lvs", Namespace := "ns" }] ∧
      out.recv = some lso.sampleBuilder) ∧
    (∃ out, storage.StorageClusterBuilder.Update msg.sampleUndefinedCrd
        (some storage.sampleBuilder) [] = some out ∧
      out.ret.1 = none ∧
      out.ret.2.map GoError.text
        = some "storageCluster object sc doesn't exist in namespace ns" ∧
      out.calls = [goclient.Call.Get { Name := "sc" }] ∧
      out.recv = some storage.sampleBuilder) := by
  refine ⟨?_, ?_⟩
  · obtain ⟨out, h, hb, htext, hcalls, _, _, hsame⟩ :=
      C9_update_absent_fails_without_update.1 _ msg.sampleUndefinedCrd lso.sampleBuilder
        { ObjectMeta := { Name := "lvs", Namespace := "ns" } } lso.store [] rfl rfl rfl rfl
    exact ⟨out, h, hb, htext, hcalls, hsame rfl⟩
  · obtain ⟨out, h, hb, htext, hcalls, _, _, hsame⟩ :=
      C9_update_absent_fails_without_update.2 _ msg.sampleUndefinedCrd storage.sampleBuilder
        { TypeMeta := { Kind := "StorageCluster", APIVersion := "ocs.openshift.io/v1" }
          ObjectMeta := { Name := "sc", Namespace := "ns" } } storage.store [] rfl rfl rfl rfl
    exact ⟨out, h, hb, htext, hcalls, hsame rfl⟩

/-- C10: for a valid LocalVolumeSetBuilder whose Get does not fail with not-found, Update
runs to completion and hands the accessor the Definition with an empty resource
version and a zero creation timestamp, every other field being as before; the
builder's Definition is that stripped Definition, and when the remote Update
succeeds Update returns the builder with a nil error and Object equal to
Definition. -/
theorem C10_update_strips_identity_fields :
    ∀ (σ : Type) (U : String → String) (b : lso.LocalVolumeSetBuilder σ)
      (d : lsov1alpha1.LocalVolumeSet) (c : goclient.Client σ lsov1alpha1.LocalVolumeSet)
      (s : σ),
    (lso.LocalVolumeSetBuilder.validate U (some b)).1 = true →
    b.Definition = some d → b.apiClient = some c →
    k8serrors.IsNotFound (c.Get { Name := d.ObjectMeta.Name
                                  Namespace := d.ObjectMeta.Namespace } s).1.2 = false →
    ∃ out d1, lso.LocalVolumeSetBuilder.Update U (some b) s = some out ∧
      out.calls = [goclient.Call.Get { Name := d.ObjectMeta.Name
                                       Namespace := d.ObjectMeta.Namespace },
                   goclient.Call.Update d1] ∧
      d1.ObjectMeta.ResourceVersion = "" ∧
      d1.ObjectMeta.CreationTimestamp = {} ∧
      d1.ObjectMeta.Name = d.ObjectMeta.Name ∧
      d1.ObjectMeta.Namespace = d.ObjectMeta.Namespace ∧
      d1.ObjectMeta.Generation = d.ObjectMeta.Generation ∧
      d1.Spec = d.Spec ∧
      out.recv.bind (fun b1 => b1.Definition) = some d1 ∧
      out.recv.map (fun b1 => b1.errorMsg) = some b.errorMsg ∧
      ((c.Update d1 (c.Get { Name := d.ObjectMeta.Name
                             Namespace := d.ObjectMeta.Namespace } s).2).1 = none →
        out.ret.2 = none ∧ out.ret.1 = out.recv ∧
        out.recv.bind (fun b1 => b1.Object) = some d1) := by
  intro σ U b d c s hv hd hc hnf
  obtain ⟨d0, o, c1, hb⟩ := (lvs_validate_true_iff U (some b)).1 hv
  obtain rfl : b = _ := Option.some.inj hb
  obtain rfl : d0 = d := Option.some.inj hd
  obtain rfl : c1 = c := Option.some.inj hc
  have key := lvs_Update_present U d0 o c1 s hnf _ rfl
  cases hu : (c1.Update { d0 with ObjectMeta :=
      { d0.ObjectMeta with CreationTimestamp := {}, ResourceVersion := "" } }
      (c1.Get (lso.keyOf d0) s).2).1 with
  | some err =>
    rw [hu] at key
    refine ⟨_, _, key, rfl, rfl, rfl, rfl, rfl, rfl, rfl, rfl, rfl, ?_⟩
    intro h
    rw [show (c1.Get { Name := d0.ObjectMeta.Name, Namespace := d0.ObjectMeta.Namespace } s)
      = c1.Get (lso.keyOf d0) s from rfl, hu] at h
    exact absurd h (by simp)
  | none =>
    rw [hu] at key
    exact ⟨_, _, key, rfl, rfl, rfl, rfl, rfl, rfl, rfl, rfl, rfl, fun _ => ⟨rfl, rfl, rfl⟩⟩

/-- C10 at a concrete input: Update of a builder whose Definition carries a resource
version and a creation timestamp, over a store that holds the object. -/
theorem C10_update_strips_identity_fields_witness :
    (lso.LocalVolumeSetBuilder.validate msg.sampleUndefinedCrd
      (some lso.samplePulledBuilder)).1 = true ∧
    k8serrors.IsNotFound (lso.store.Get { Name := "lvs", Namespace := "ns" }
      [lso.sampleServed]).1.2 = false ∧
    ∃ out d1, lso.LocalVolumeSetBuilder.Update msg.sampleUndefinedCrd
        (some lso.samplePulledBuilder) [lso.sampleServed] = some out ∧
      out.calls = [goclient.Call.Get { Name := "lvs", Namespace := "ns" },
                   goclient.Call.Update d1] ∧
      d1.ObjectMeta.ResourceVersion = "" ∧
      d1.ObjectMeta.CreationTimestamp = {} ∧
      d1.ObjectMeta.Name = "lvs" ∧
      d1.ObjectMeta.Namespace = "ns" ∧
      d1.ObjectMeta.Generation = 0 ∧
      d1.Spec = lso.sampleServed.Spec ∧
      out.recv.bind (fun b1 => b1.Definition) = some d1 ∧
      out.recv.map (fun b1 => b1.errorMsg) = some "" ∧
      ((lso.store.Update d1 (lso.store.Get { Name := "lvs", Namespace := "ns" }
          [lso.sampleServed]).2).1 = none →
        out.ret.2 = none ∧ out.ret.1 = out.recv ∧
        out.recv.bind (fun b1 => b1.Object) = some d1) :=
  ⟨rfl, rfl, C10_update_strips_identity_fields _ msg.sampleUndefinedCrd
    lso.samplePulledBuilder lso.sampleServed lso.store [lso.sampleServed] rfl rfl rfl rfl⟩

/-- Update on a StorageClusterBuilder that passes the gate, with a live client, whose Get
does not fail with not-found: the Definition is sent to the accessor as it is. -/
theorem sc_Update_present {σ : Type} (U : String → String)
    (d : ocsoperatorv1.StorageCluster) (o : Option ocsoperatorv1.StorageCluster)
    (c : goclient.Client σ ocsoperatorv1.StorageCluster) (m : String) (s : σ)
    (h : k8serrors.IsNotFound (c.Get { Name := d.ObjectMeta.Name } s).1.2 = false) :
    ∃ out, storage.StorageClusterBuilder.Update U
        (some { Definition := some d, Object := o
                apiClient := storage.ClientIface.settings (some { Client := some c })
                errorMsg := m }) s = some out ∧
      out.calls = [goclient.Call.Get { Name := d.ObjectMeta.Name }, goclient.Call.Update d] ∧
      out.ret.2 = (c.Update d (c.Get { Name := d.ObjectMeta.Name } s).2).1 ∧
      out.recv.bind (fun b => b.Definition) = some d := by
  simp only [storage.StorageClusterBuilder.Update, sc_validate_valid, sc_Exists_valid,
    storage.ClientIface.client]
  simp only [h, Bool.not_false, Bool.not_true, Bool.false_eq_true, if_false]
  cases hu : (c.Update d (c.Get { Name := d.ObjectMeta.Name } s).2).1 <;> simp

/-- C11: the code at the failing input.  `PullStorageCluster` over a store that finds
the served object (resource version "7", creation timestamp 5) returns a builder
whose Definition is that object; Update on it passes the gate, finds the object,
and hands the accessor's Update the Definition as it is, with resource version "7"
and creation timestamp 5, and ends with that Definition unchanged. -/
theorem C11_storageCluster_update_strips_nothing :
    ∃ b pulled, storage.PullStorageCluster msg.sampleUndefinedCrd
          (some { Client := some storage.storeByName }) "sc" "ns" [storage.sampleServed]
        = some pulled ∧
      pulled.ret = (some b, none) ∧
      b.Definition = some storage.sampleServed ∧
      (storage.StorageClusterBuilder.validate msg.sampleUndefinedCrd (some b)).1 = true ∧
      ∃ out, storage.StorageClusterBuilder.Update msg.sampleUndefinedCrd (some b) pulled.state
          = some out ∧
        out.ret.2 = none ∧
        out.calls = [goclient.Call.Get { Name := "sc" },
                     goclient.Call.Update storage.sampleServed] ∧
        storage.sampleServed.ObjectMeta.ResourceVersion = "7" ∧
        storage.sampleServed.ObjectMeta.CreationTimestamp = { ticks := 5 } ∧
        out.recv.bind (fun b1 => b1.Definition) = some storage.sampleServed :=
  ⟨_, _, rfl, rfl, rfl, rfl, _, rfl, rfl, rfl, rfl, rfl, rfl⟩

/-- Delete on a valid LocalVolumeSetBuilder whose Get fails with not-found. -/
theorem lvs_Delete_absent {σ : Type} (U : String → String) (d : lsov1alpha1.LocalVolumeSet)
    (o : Option lsov1alpha1.LocalVolumeSet) (c : goclient.Client σ lsov1alpha1.LocalVolumeSet)
    (s : σ) (h : k8serrors.IsNotFound (c.Get (lso.keyOf d) s).1.2 = true) :
    lso.LocalVolumeSetBuilder.Delete U
      (some { Definition := some d, Object := o, errorMsg := "", apiClient := some c }) s
      = some
        { recv := some { Definition := some d, Object := none, errorMsg := ""
                         apiClient := some c }
          ret := some (fmt.ErrorfText
            "localVolumeSet cannot be deleted because it does not exist")
          state := (c.Get (lso.keyOf d) s).2
          calls := [goclient.Call.Get (lso.keyOf d)] } := by
  obtain ⟨e, he⟩ := isNotFound_some h
  have h2 : k8serrors.IsNotFound (some e) = true := by rw [← he]; exact h
  simp only [lso.LocalVolumeSetBuilder.Delete, lvs_validate_valid, lvs_Exists_valid]
  simp [he, h2]

/-- Delete on a valid KCBuilder with a live client whose Get fails with not-found. -/
theorem kc_Delete_absent {σ : Type} (U : String → String) (d : mcv1.KubeletConfig)
    (o : Option mcv1.KubeletConfig) (kc : mco.KubeletConfigInterface σ) (s : σ)
    (h : k8serrors.IsNotFound (kc.Get d.ObjectMeta.Name s).1.2 = true) :
    mco.KCBuilder.Delete U
      (some { Definition := some d, Object := o,
              apiClient := some { KubeletConfigs := some kc }, errorMsg := "" }) s
      = some
        { recv := some
            { Definition := some d, Object := (kc.Get d.ObjectMeta.Name s).1.1
              apiClient := some { KubeletConfigs := some kc }, errorMsg := "" }
          ret := some (fmt.ErrorfText
            "kubeletconfig cannot be deleted because it does not exist")
          state := (kc.Get d.ObjectMeta.Name s).2
          calls := [mco.Call.Get d.ObjectMeta.Name] } := by
  simp only [mco.KCBuilder.Delete, kc_validate_valid, kc_Exists_valid]
  simp [h]

/-- C12: for a valid LocalVolumeSetBuilder (and a valid KCBuilder whose client can be
called) whose Get fails with not-found, Delete runs to completion, returns the error
"localVolumeSet cannot be deleted because it does not exist" ("kubeletconfig cannot
be deleted because it does not exist"), issues the Get of the existence check and no
remote Delete. -/
theorem C12_delete_absent_is_hard_error :
    (∀ (σ : Type) (U : String → String) (b : lso.LocalVolumeSetBuilder σ)
        (d : lsov1alpha1.LocalVolumeSet) (c : goclient.Client σ lsov1alpha1.LocalVolumeSet)
        (s : σ),
      (lso.LocalVolumeSetBuilder.validate U (some b)).1 = true →
      b.Definition = some d → b.apiClient = some c →
      k8serrors.IsNotFound (c.Get { Name := d.ObjectMeta.Name
                                    Namespace := d.ObjectMeta.Namespace } s).1.2 = true →
      ∃ out, lso.LocalVolumeSetBuilder.Delete U (some b) s = some out ∧
        out.ret.map GoError.text
          = some "localVolumeSet cannot be deleted because it does not exist" ∧
        out.calls = [goclient.Call.Get { Name := d.ObjectMeta.Name
                                         Namespace := d.ObjectMeta.Namespace }] ∧
        (∀ x, goclient.Call.Delete x ∉ out.calls)) ∧
    (∀ (σ : Type) (U : String → String) (b : mco.KCBuilder σ) (d : mcv1.KubeletConfig)
        (kc : mco.KubeletConfigInterface σ) (s : σ),
      (mco.KCBuilder.validate U (some b)).2.1 = true →
      b.Definition = some d → b.apiClient = some { KubeletConfigs := some kc } →
      k8serrors.IsNotFound (kc.Get d.ObjectMeta.Name s).1.2 = true →
      ∃ out, mco.KCBuilder.Delete U (some b) s = some out ∧
        out.ret.map GoError.text
          = some "kubeletconfig cannot be deleted because it does not exist" ∧
        out.calls = [mco.Call.Get d.ObjectMeta.Name] ∧
        (∀ x, mco.Call.Delete x ∉ out.calls)) := by
  refine ⟨?_, ?_⟩
  · intro σ U b d c s hv hd hc hnf
    obtain ⟨d1, o, c1, hb⟩ := (lvs_validate_true_iff U (some b)).1 hv
    obtain rfl : b = _ := Option.some.inj hb
    obtain rfl : d1 = d := Option.some.inj hd
    obtain rfl : c1 = c := Option.some.inj hc
    exact ⟨_, lvs_Delete_absent U d1 o c1 s hnf, rfl, rfl, by simp [lso.keyOf]⟩
  · intro σ U b d kc s hv hd hc hnf
    obtain ⟨o, st, rfl⟩ := (kc_validate_true_iff U b d hd).1 hv
    obtain rfl : st = _ := Option.some.inj hc
    exact ⟨_, kc_Delete_absent U d o kc s hnf, rfl, rfl, by simp⟩

/-- C12 at concrete inputs: Delete of the sample LocalVolumeSet builder and of the sample
KubeletConfig builder over the empty in-memory store. -/
theorem C12_delete_absent_is_hard_error_witness :
    (∃ out, lso.LocalVolumeSetBuilder.Delete msg.sampleUndefinedCrd (some lso.sampleBuilder) []
        = some out ∧
      out.ret.map GoError.text
        = some "localVolumeSet cannot be deleted because it does not exist" ∧
      out.calls = [goclient.Call.Get { Name := "lvs", Namespace := "ns" }]) ∧
    (∃ out, mco.KCBuilder.Delete msg.sampleUndefinedCrd (some mco.sampleBuilder) []
        = some out ∧
      out.ret.map GoError.text
        = some "kubeletconfig cannot be deleted because it does not exist" ∧
      out.calls = [mco.Call.Get "kc"]) := by
  refine ⟨?_, ?_⟩
  · obtain ⟨out, h, htext, hcalls, _⟩ := C12_delete_absent_is_hard_error.1 _
      msg.sampleUndefinedCrd lso.sampleBuilder
      { ObjectMeta := { Name := "lvs", Namespace := "ns" } } lso.store [] rfl rfl rfl rfl
    exact ⟨out, h, htext, hcalls⟩
  · obtain ⟨out, h, htext, hcalls, _⟩ := C12_delete_absent_is_hard_error.2 _
      msg.sampleUndefinedCrd mco.sampleBuilder { ObjectMeta := { Name := "kc" } }
      mco.storeKubeletConfigs [] rfl rfl rfl rfl
    exact ⟨out, h, htext, hcalls⟩

/-- Delete on a StorageClusterBuilder that passes the gate, with a live client: one remote
Delete of the Definition, without an existence check. -/
theorem sc_Delete_valid {σ : Type} (U : String → String)
    (d : ocsoperatorv1.StorageCluster) (o : Option ocsoperatorv1.StorageCluster)
    (c : goclient.Client σ ocsoperatorv1.StorageCluster) (m : String) (s : σ) :
    storage.StorageClusterBuilder.Delete U
      (some { Definition := some d, Object := o
              apiClient := storage.ClientIface.settings (some { Client := some c })
              errorMsg := m }) s
      = match (c.Delete d s).1 with
        | some err =>
          some { recv := some { Definition := some d, Object := o
                                apiClient := storage.ClientIface.settings
                                  (some { Client := some c })
                                errorMsg := m }
                 ret := some (fmt.ErrorfWrap "can not delete storageCluster: " err)
                 state := (c.Delete d s).2, calls := [goclient.Call.Delete d] }
        | none =>
          some { recv := some { Definition := some d, Object := none
                                apiClient := storage.ClientIface.settings
                                  (some { Client := some c })
                                errorMsg := m }
                 ret := none
                 state := (c.Delete d s).2, calls := [goclient.Call.Delete d] } := by
  simp only [storage.StorageClusterBuilder.Delete, sc_validate_valid,
    storage.ClientIface.client]

/-- C13, as stated, fails: over the empty store, where the Get and the Delete of the
accessor fail with not-found, Delete of the valid StorageCluster builder issues the
remote Delete and returns the error "can not delete storageCluster: sc not found",
which is neither a nil error nor a text containing "cannot be deleted because it
does not exist". -/
theorem C13_storageCluster_delete_absent_wraps_remote_error :
    (storage.StorageClusterBuilder.validate msg.sampleUndefinedCrd
      (some storage.sampleBuilder)).1 = true ∧
    k8serrors.IsNotFound (storage.store.Get { Name := "sc" } []).1.2 = true ∧
    k8serrors.IsNotFound (storage.store.Get { Name := "sc", Namespace := "ns" } []).1.2 = true ∧
    k8serrors.IsNotFound (storage.store.Delete storage.sampleDefinition []).1 = true ∧
    ∃ out, storage.StorageClusterBuilder.Delete msg.sampleUndefinedCrd
        (some storage.sampleBuilder) [] = some out ∧
      out.calls = [goclient.Call.Delete storage.sampleDefinition] ∧
      out.ret = some { text := "can not delete storageCluster: sc not found", notFound := true } ∧
      out.ret ≠ none ∧
      ¬ ("cannot be deleted because it does not exist".toList
          <:+: "can not delete storageCluster: sc not found".toList) :=
  ⟨rfl, rfl, rfl, rfl, _, rfl, rfl, rfl, by decide, by decide⟩

/-- C13 amended: for a StorageClusterBuilder that passes its gate and whose client can be
called, Delete runs to completion and issues exactly one call, the remote Delete of
the Definition, without an existence check.  When that Delete fails with an error
(the not-found error of an absent object included), Delete returns the error "can
not delete storageCluster: " followed by the accessor's text, still a not-found
error when the accessor's was, and leaves the builder as it was; it returns a nil
error, with Object nil afterwards, exactly when the remote Delete succeeds. -/
theorem C13_storageCluster_delete_propagates :
    ∀ (σ : Type) (U : String → String) (b : storage.StorageClusterBuilder σ)
      (d : ocsoperatorv1.StorageCluster)
      (c : goclient.Client σ ocsoperatorv1.StorageCluster) (s : σ),
    (storage.StorageClusterBuilder.validate U (some b)).1 = true →
    b.Definition = some d →
    b.apiClient = storage.ClientIface.settings (some { Client := some c }) →
    ∃ out, storage.StorageClusterBuilder.Delete U (some b) s = some out ∧
      out.calls = [goclient.Call.Delete d] ∧
      out.state = (c.Delete d s).2 ∧
      (∀ e, (c.Delete d s).1 = some e →
        out.ret = some { text := "can not delete storageCluster: " ++ e.text
                         notFound := e.notFound } ∧
        out.recv = some b) ∧
      ((c.Delete d s).1 = none →
        out.ret = none ∧ out.recv = some { b with Object := none }) ∧
      (out.ret = none ↔ (c.Delete d s).1 = none) := by
  intro σ U b d c s hv hd hc
  obtain ⟨d1, o, p, m, hb⟩ := (sc_validate_true_iff U (some b)).1 hv
  obtain rfl : b = _ := Option.some.inj hb
  obtain rfl : d1 = d := Option.some.inj hd
  obtain rfl : p = _ := storage.ClientIface.settings.inj hc
  rw [sc_Delete_valid]
  cases hdel : (c.Delete d1 s).1 with
  | some err =>
    refine ⟨_, rfl, rfl, rfl, ?_, ?_, ?_⟩
    · intro e he
      obtain rfl : err = e := Option.some.inj he
      exact ⟨rfl, rfl⟩
    · intro h; exact absurd h (by simp)
    · simp
  | none =>
    refine ⟨_, rfl, rfl, rfl, ?_, ?_, ?_⟩
    · intro e he; exact absurd he (by simp)
    · intro _; exact ⟨rfl, rfl⟩
    · simp

/-- C13 amended, at concrete inputs: Delete of the sample StorageCluster builder over the
empty store (hard error) and over the store that holds its object (nil error). -/
theorem C13_storageCluster_delete_propagates_witness :
    (∃ out, storage.StorageClusterBuilder.Delete msg.sampleUndefinedCrd
        (some storage.sampleBuilder) [] = some out ∧
      out.calls = [goclient.Call.Delete storage.sampleDefinition] ∧
      out.ret = some { text := "can not delete storageCluster: " ++ "sc not found"
                       notFound := true } ∧
      out.recv = some storage.sampleBuilder) ∧
    (∃ out, storage.StorageClusterBuilder.Delete msg.sampleUndefinedCrd
        (some storage.sampleBuilder) [storage.sampleDefinition] = some out ∧
      out.calls = [goclient.Call.Delete storage.sampleDefinition] ∧
      out.ret = none ∧ out.state = []) := by
  refine ⟨?_, ?_⟩
  · obtain ⟨out, h, hcalls, _, herr, _, _⟩ := C13_storageCluster_delete_propagates _
      msg.sampleUndefinedCrd storage.sampleBuilder storage.sampleDefinition storage.store []
      rfl rfl rfl
    obtain ⟨hret, hrecv⟩ := herr (goclient.notFoundError { Name := "sc", Namespace := "ns" }) rfl
    exact ⟨out, h, hcalls, hret, hrecv⟩
  · obtain ⟨out, h, hcalls, hstate, _, hok, _⟩ := C13_storageCluster_delete_propagates _
      msg.sampleUndefinedCrd storage.sampleBuilder storage.sampleDefinition storage.store
      [storage.sampleDefinition] rfl rfl rfl
    exact ⟨out, h, hcalls, (hok rfl).1, hstate⟩

/-- C14: the code at the failing input.  The store, keyed by name and namespace, holds
the builder's object ("sc" of namespace "ns") and a second object, "sc" with an empty
namespace.  Delete of the valid StorageCluster builder returns a nil error, leaves
Object nil and removes the builder's object from the store; the following Exists
asks for the key with name "sc" and an empty namespace, finds the second object and
returns true. -/
theorem C14_storageCluster_exists_after_delete :
    (storage.StorageClusterBuilder.validate msg.sampleUndefinedCrd
      (some storage.sampleBuilder)).1 = true ∧
    storage.sampleBuilder.Definition = some storage.sampleDefinition ∧
    (storage.store.Get (storage.keyOf storage.sampleDefinition)
      [storage.sampleDefinition, storage.sampleUnnamespaced]).1
        = (storage.sampleDefinition, none) ∧
    ∃ out1, storage.StorageClusterBuilder.Delete msg.sampleUndefinedCrd
        (some storage.sampleBuilder) [storage.sampleDefinition, storage.sampleUnnamespaced]
        = some out1 ∧
      out1.ret = none ∧
      out1.recv.bind (fun b => b.Object) = none ∧
      out1.state = [storage.sampleUnnamespaced] ∧
      k8serrors.IsNotFound
        (storage.store.Get (storage.keyOf storage.sampleDefinition) out1.state).1.2 = true ∧
      ∃ out2, storage.StorageClusterBuilder.Exists msg.sampleUndefinedCrd out1.recv out1.state
          = some out2 ∧
        out2.calls = [goclient.Call.Get { Name := "sc", Namespace := "" }] ∧
        out2.ret = true :=
  ⟨rfl, rfl, rfl, _, rfl, rfl, rfl, rfl, rfl, _, rfl, rfl, rfl⟩

/-- Delete on a valid LocalVolumeSetBuilder whose Get does not fail with not-found: the
Definition is deleted remotely and, on success, Object becomes nil. -/
theorem lvs_Delete_present {σ : Type} (U : String → String) (d : lsov1alpha1.LocalVolumeSet)
    (o : Option lsov1alpha1.LocalVolumeSet) (c : goclient.Client σ lsov1alpha1.LocalVolumeSet)
    (s : σ) (h : k8serrors.IsNotFound (c.Get (lso.keyOf d) s).1.2 = false) :
    lso.LocalVolumeSetBuilder.Delete U
      (some { Definition := some d, Object := o, errorMsg := "", apiClient := some c }) s
      = match (c.Delete d (c.Get (lso.keyOf d) s).2).1 with
        | some err =>
          some { recv := some
                   { Definition := some d
                     Object := match (c.Get (lso.keyOf d) s).1.2 with
                       | some _ => none
                       | none => some (c.Get (lso.keyOf d) s).1.1
                     errorMsg := "", apiClient := some c }
                 ret := some (fmt.ErrorfWrap "can not delete localVolumeSet: " err)
                 state := (c.Delete d (c.Get (lso.keyOf d) s).2).2
                 calls := [goclient.Call.Get (lso.keyOf d), goclient.Call.Delete d] }
        | none =>
          some { recv := some { Definition := some d, Object := none, errorMsg := ""
                                apiClient := some c }
                 ret := none
                 state := (c.Delete d (c.Get (lso.keyOf d) s).2).2
                 calls := [goclient.Call.Get (lso.keyOf d), goclient.Call.Delete d] } := by
  simp only [lso.LocalVolumeSetBuilder.Delete, lvs_validate_valid, lvs_Exists_valid]
  simp only [h, Bool.not_false, Bool.not_true, Bool.false_eq_true, if_false]
  split <;> simp_all

/-- Over an accessor that behaves as a key-value store holding the object of a valid
LocalVolumeSetBuilder, Delete returns a nil error, leaves Object nil and the key no
longer held, and a following Exists returns false. -/
theorem lvs_delete_then_exists {σ : Type} (U : String → String)
    (d : lsov1alpha1.LocalVolumeSet) (o : Option lsov1alpha1.LocalVolumeSet)
    (c : goclient.Client σ lsov1alpha1.LocalVolumeSet)
    (holds : σ → goclient.ObjectKey → Bool) (s : σ)
    (hstore : c.IsStore lso.keyOf holds) (hdel : c.DeletesHeld lso.keyOf holds)
    (hheld : holds s (lso.keyOf d) = true) :
    ∃ out1, lso.LocalVolumeSetBuilder.Delete U
        (some { Definition := some d, Object := o, errorMsg := "", apiClient := some c }) s
        = some out1 ∧
      out1.ret = none ∧ out1.recv.bind (fun b => b.Object) = none ∧
      holds out1.state (lso.keyOf d) = false ∧
      ∃ out2, lso.LocalVolumeSetBuilder.Exists U out1.recv out1.state = some out2 ∧
        out2.ret = false := by
  have hst : (c.Get (lso.keyOf d) s).2 = s := hstore.get_state _ _
  have hnf : k8serrors.IsNotFound (c.Get (lso.keyOf d) s).1.2 = false := by
    cases hx : k8serrors.IsNotFound (c.Get (lso.keyOf d) s).1.2 with
    | false => rfl
    | true =>
      rw [(hstore.get_notFound _ _).1 hx] at hheld
      exact absurd hheld (by simp)
  have hd0 : (c.Delete d s).1 = none := hdel.delete_held d s hheld
  have hgone : holds (c.Delete d s).2 (lso.keyOf d) = false := hdel.delete_removes d s hd0
  have hnf2 : k8serrors.IsNotFound (c.Get (lso.keyOf d) (c.Delete d s).2).1.2 = true :=
    (hstore.get_notFound _ _).2 hgone
  rw [lvs_Delete_present U d o c s hnf, hst, hd0]
  refine ⟨_, rfl, rfl, rfl, hgone, ?_⟩
  simp only [lvs_Exists_valid, hnf2]
  exact ⟨_, rfl, rfl⟩

/-- Delete on a valid KCBuilder with a live client whose Get returns an object and no
error: the name of that object is deleted remotely and, on success, Object becomes
nil. -/
theorem kc_Delete_present {σ : Type} (U : String → String) (d : mcv1.KubeletConfig)
    (o : Option mcv1.KubeletConfig) (kc : mco.KubeletConfigInterface σ) (s : σ)
    (fetched : mcv1.KubeletConfig)
    (h : (kc.Get d.ObjectMeta.Name s).1 = (some fetched, none)) :
    mco.KCBuilder.Delete U
      (some { Definition := some d, Object := o,
              apiClient := some { KubeletConfigs := some kc }, errorMsg := "" }) s
      = match (kc.Delete fetched.ObjectMeta.Name (kc.Get d.ObjectMeta.Name s).2).1 with
        | some err =>
          some { recv := some
                   { Definition := some d, Object := some fetched
                     apiClient := some { KubeletConfigs := some kc }, errorMsg := "" }
                 ret := some (fmt.ErrorfWrap "cannot delete kubeletconfig: " err)
                 state := (kc.Delete fetched.ObjectMeta.Name (kc.Get d.ObjectMeta.Name s).2).2
                 calls := [mco.Call.Get d.ObjectMeta.Name,
                           mco.Call.Delete fetched.ObjectMeta.Name] }
        | none =>
          some { recv := some
                   { Definition := some d, Object := none
                     apiClient := some { KubeletConfigs := some kc }, errorMsg := "" }
                 ret := none
                 state := (kc.Delete fetched.ObjectMeta.Name (kc.Get d.ObjectMeta.Name s).2).2
                 calls := [mco.Call.Get d.ObjectMeta.Name,
                           mco.Call.Delete fetched.ObjectMeta.Name] } := by
  have h1 : (kc.Get d.ObjectMeta.Name s).1.1 = some fetched := by rw [h]
  have h2 : (kc.Get d.ObjectMeta.Name s).1.2 = none := by rw [h]
  simp only [mco.KCBuilder.Delete, kc_validate_valid, kc_Exists_valid]
  simp only [h1, h2, k8serrors.IsNotFound, Bool.not_false, Bool.not_true,
    Bool.false_eq_true, if_false]
  split <;> simp_all

/-- Over a typed client that behaves as a key-value store holding the object of a valid
KCBuilder, Delete returns a nil error, leaves Object nil and the name no longer held,
and a following Exists returns false. -/
theorem kc_delete_then_exists {σ : Type} (U : String → String)
    (d : mcv1.KubeletConfig) (o : Option mcv1.KubeletConfig)
    (kc : mco.KubeletConfigInterface σ) (holds : σ → String → Bool) (s : σ)
    (hstore : kc.IsStore holds) (hdel : kc.DeletesHeld holds)
    (hheld : holds s d.ObjectMeta.Name = true) :
    ∃ out1, mco.KCBuilder.Delete U
        (some { Definition := some d, Object := o,
                apiClient := some { KubeletConfigs := some kc }, errorMsg := "" }) s
        = some out1 ∧
      out1.ret = none ∧ out1.recv.bind (fun b => b.Object) = none ∧
      holds out1.state d.ObjectMeta.Name = false ∧
      ∃ out2, mco.KCBuilder.Exists U out1.recv out1.state = some out2 ∧
        out2.ret = false := by
  have hst : (kc.Get d.ObjectMeta.Name s).2 = s := hstore.get_state _ _
  obtain ⟨fetched, hget, hname⟩ := hdel.get_held d.ObjectMeta.Name s hheld
  have hd0 : (kc.Delete d.ObjectMeta.Name s).1 = none := hdel.delete_held _ s hheld
  have hgone : holds (kc.Delete d.ObjectMeta.Name s).2 d.ObjectMeta.Name = false :=
    hdel.delete_removes _ s hd0
  have hnf2 : k8serrors.IsNotFound
      (kc.Get d.ObjectMeta.Name (kc.Delete d.ObjectMeta.Name s).2).1.2 = true :=
    (hstore.get_notFound _ _).2 hgone
  rw [kc_Delete_present U d o kc s fetched hget, hst, hname, hd0]
  refine ⟨_, rfl, rfl, rfl, hgone, ?_⟩
  simp only [kc_Exists_valid, hnf2]
  exact ⟨_, rfl, rfl⟩

/-- The in-memory accessor behaves as a key-value store as far as deletion goes. -/
theorem storeClient_deletesHeld {R : Type} (empty : R) (keyOf : R → goclient.ObjectKey) :
    (goclient.storeClient empty keyOf).DeletesHeld keyOf
      (fun s key => s.any (fun o => keyOf o == key)) := by
  refine ⟨?_, ?_⟩
  · intro o s h
    simp only [goclient.storeClient]
    simp only at h
    rw [if_pos h]
  · intro o s h
    simp only [goclient.storeClient] at h ⊢
    by_cases hany : (s.any fun x => keyOf x == keyOf o) = true
    · rw [if_pos hany]
      simp only [List.any_eq_false, List.mem_filter]
      intro x hx
      simpa using hx.2
    · rw [if_neg hany] at h
      simp at h

/-- The in-memory typed client behaves as a key-value store as far as deletion goes. -/
theorem storeKubeletConfigs_deletesHeld :
    mco.storeKubeletConfigs.DeletesHeld
      (fun s name => s.any (fun o => o.ObjectMeta.Name == name)) := by
  refine ⟨?_, ?_, ?_⟩
  · intro name s h
    simp only [mco.storeKubeletConfigs]
    cases hf : List.find? (fun o => o.ObjectMeta.Name == name) s with
    | none =>
      rw [List.find?_eq_none] at hf
      obtain ⟨x, hx, hxn⟩ := List.any_eq_true.1 h
      exact absurd hxn (hf x hx)
    | some o =>
      have hkey := List.find?_some hf
      exact ⟨o, rfl, by simpa using hkey⟩
  · intro name s h
    simp only [mco.storeKubeletConfigs]
    simp only at h
    rw [if_pos h]
  · intro name s h
    simp only [mco.storeKubeletConfigs] at h ⊢
    by_cases hany : (s.any fun x => x.ObjectMeta.Name == name) = true
    · rw [if_pos hany]
      simp only [List.any_eq_false, List.mem_filter]
      intro x hx
      simpa using hx.2
    · rw [if_neg hany] at h
      simp at h

/-- Over an accessor that behaves as a key-value store holding the object of a
StorageClusterBuilder that passes its gate, Delete returns a nil error and leaves
Object nil and the key no longer held; the following Exists asks for the name with an
empty namespace and returns false exactly when the store holds nothing under that
key. -/
theorem sc_delete_then_exists {σ : Type} (U : String → String)
    (d : ocsoperatorv1.StorageCluster) (o : Option ocsoperatorv1.StorageCluster)
    (c : goclient.Client σ ocsoperatorv1.StorageCluster) (m : String)
    (holds : σ → goclient.ObjectKey → Bool) (s : σ)
    (hstore : c.IsStore storage.keyOf holds) (hdel : c.DeletesHeld storage.keyOf holds)
    (hheld : holds s (storage.keyOf d) = true) :
    ∃ out1, storage.StorageClusterBuilder.Delete U
        (some { Definition := some d, Object := o
                apiClient := storage.ClientIface.settings (some { Client := some c })
                errorMsg := m }) s = some out1 ∧
      out1.ret = none ∧ out1.recv.bind (fun b => b.Object) = none ∧
      holds out1.state (storage.keyOf d) = false ∧
      ∃ out2, storage.StorageClusterBuilder.Exists U out1.recv out1.state = some out2 ∧
        (out2.ret = false ↔ holds out1.state { Name := d.ObjectMeta.Name } = false) := by
  have hd0 : (c.Delete d s).1 = none := hdel.delete_held d s hheld
  have hgone : holds (c.Delete d s).2 (storage.keyOf d) = false := hdel.delete_removes d s hd0
  rw [sc_Delete_valid, hd0]
  refine ⟨_, rfl, rfl, rfl, hgone, ?_⟩
  simp only [sc_Exists_valid]
  refine ⟨_, rfl, ?_⟩
  simp only [Bool.not_eq_false']
  exact hstore.get_notFound _ _

/-- C15: `NewLocalVolumeSetBuilder` returns nil exactly when the accessor is nil; for a
non-nil accessor and all name and nsname it returns a non-nil builder whose Definition
is non-nil with Name = name and Namespace = nsname, whose Object is nil and whose
accessor is the client of the Settings. -/
theorem C15_newLocalVolumeSetBuilder_nil_iff :
    ∀ (σ : Type) (apiClient : Option (clients.Settings σ lsov1alpha1.LocalVolumeSet))
      (name nsname : String),
    (lso.NewLocalVolumeSetBuilder apiClient name nsname = none ↔ apiClient = none) ∧
    (∀ st : clients.Settings σ lsov1alpha1.LocalVolumeSet,
      ∃ b d, lso.NewLocalVolumeSetBuilder (some st) name nsname = some b ∧
        b.Definition = some d ∧
        d.ObjectMeta.Name = name ∧ d.ObjectMeta.Namespace = nsname ∧
        b.Object = none ∧ b.apiClient = st.Client) := by
  intro σ apiClient name nsname
  refine ⟨?_, ?_⟩
  · cases apiClient with
    | none => simp [lso.NewLocalVolumeSetBuilder]
    | some st =>
      simp only [lso.NewLocalVolumeSetBuilder]
      split_ifs <;> simp
  · intro st
    simp only [lso.NewLocalVolumeSetBuilder]
    split_ifs <;> exact ⟨_, _, rfl, rfl, rfl, rfl, rfl, rfl⟩

/-- C16, as stated, fails: called with a nil accessor, `NewKCBuilder`,
`NewServiceMeshControlPlane`, `NewServiceMeshMemberRoll` and
`StorageClusterNewBuilder` return a builder, not nil. -/
theorem C16_constructors_do_not_return_nil :
    mco.NewKCBuilder (none : Option (mco.Settings Unit)) "kc" ≠ none ∧
    servicemesh.NewServiceMeshControlPlane
      (none : Option (clients.Settings Unit istioV2.ServiceMeshControlPlane)) "cp" "ns"
        ≠ none ∧
    servicemesh.NewServiceMeshMemberRoll
      (none : Option (clients.Settings Unit istioV1.ServiceMeshMemberRoll)) "mr" "ns"
        ≠ none ∧
    storage.StorageClusterNewBuilder storage.sampleConsts
      (none : Option (clients.Settings Unit ocsoperatorv1.StorageCluster)) "sc" "ns"
        ≠ none := by
  refine ⟨?_, ?_, ?_, ?_⟩ <;> intro h <;> cases h

/-- C16 amended: for every name and namespace, each of `NewKCBuilder`,
`NewServiceMeshControlPlane`, `NewServiceMeshMemberRoll` and
`StorageClusterNewBuilder` called with a nil accessor returns a non-nil builder that
holds the nil accessor, a Definition with the given name and namespace and a nil
Object; the builders of the first three fail their validation gate. -/
theorem C16_constructors_keep_nil_accessor :
    (∀ (σ : Type) (U : String → String) (name : String),
      ∃ b d, mco.NewKCBuilder (none : Option (mco.Settings σ)) name = some b ∧
        b.apiClient = none ∧ b.Definition = some d ∧ d.ObjectMeta.Name = name ∧
        b.Object = none ∧ (mco.KCBuilder.validate U (some b)).2.1 = false) ∧
    (∀ (σ : Type) (U : String → String) (name nsname : String),
      ∃ b d, servicemesh.NewServiceMeshControlPlane
          (none : Option (clients.Settings σ istioV2.ServiceMeshControlPlane)) name nsname
          = some b ∧
        b.apiClient = none ∧ b.Definition = some d ∧ d.ObjectMeta.Name = name ∧
        d.ObjectMeta.Namespace = nsname ∧ b.Object = none ∧
        (servicemesh.ControlPlaneBuilder.validate U (some b)).2.1 = false) ∧
    (∀ (σ : Type) (U : String → String) (name nsname : String),
      ∃ b d, servicemesh.NewServiceMeshMemberRoll
          (none : Option (clients.Settings σ istioV1.ServiceMeshMemberRoll)) name nsname
          = some b ∧
        b.apiClient = none ∧ b.Definition = some d ∧ d.ObjectMeta.Name = name ∧
        d.ObjectMeta.Namespace = nsname ∧ b.Object = none ∧
        (servicemesh.MemberRollBuilder.validate U (some b)).2.1 = false) ∧
    (∀ (σ : Type) (k : storage.Consts) (name nsname : String),
      ∃ b d, storage.StorageClusterNewBuilder k
          (none : Option (clients.Settings σ ocsoperatorv1.StorageCluster)) name nsname
          = some b ∧
        b.apiClient = storage.ClientIface.settings none ∧ b.Definition = some d ∧
        d.ObjectMeta.Name = name ∧ d.ObjectMeta.Namespace = nsname ∧ b.Object = none) := by
  refine ⟨?_, ?_, ?_, ?_⟩
  · intro σ U name
    simp only [mco.NewKCBuilder]
    split_ifs <;> exact ⟨_, _, rfl, rfl, rfl, rfl, rfl, rfl⟩
  · intro σ U name nsname
    simp only [servicemesh.NewServiceMeshControlPlane]
    split_ifs <;> exact ⟨_, _, rfl, rfl, rfl, rfl, rfl, rfl, rfl⟩
  · intro σ U name nsname
    simp only [servicemesh.NewServiceMeshMemberRoll]
    split_ifs <;> exact ⟨_, _, rfl, rfl, rfl, rfl, rfl, rfl, rfl⟩
  · intro σ k name nsname
    simp only [storage.StorageClusterNewBuilder]
    split_ifs <;> exact ⟨_, _, rfl, rfl, rfl, rfl, rfl, rfl⟩

/-- C17: the code on the builder `StorageClusterNewBuilder(nil, name, nsname)`, for all
name and nsname.  Its accessor field holds the nil `*clients.Settings` converted to
the client interface, which is not the nil interface: the gate compares the field
with nil, finds them different and returns `(true, nil)`, and Get, Exists, Create,
Update and Delete go on to call a method on the nil accessor, which crashes. -/
theorem C17_storageCluster_nil_accessor_passes_gate :
    ∀ (σ : Type) (k : storage.Consts) (U : String → String) (name nsname : String) (s : σ),
    ∃ b, storage.StorageClusterNewBuilder k
        (none : Option (clients.Settings σ ocsoperatorv1.StorageCluster)) name nsname
        = some b ∧
      b.apiClient = storage.ClientIface.settings none ∧
      b.apiClient.isNil = false ∧
      storage.StorageClusterBuilder.validate U (some b) = (true, none) ∧
      storage.StorageClusterBuilder.Get U (some b) s = none ∧
      storage.StorageClusterBuilder.Exists U (some b) s = none ∧
      storage.StorageClusterBuilder.Create U (some b) s = none ∧
      storage.StorageClusterBuilder.Update U (some b) s = none ∧
      storage.StorageClusterBuilder.Delete U (some b) s = none := by
  intro σ k U name nsname s
  simp only [storage.StorageClusterNewBuilder]
  split_ifs <;> exact ⟨_, rfl, rfl, rfl, rfl, rfl, rfl, rfl, rfl, rfl⟩

/-- C18: for every non-nil accessor, the builder of `NewLocalVolumeSetBuilder` carries
the deferred error "localVolumeSet 'name' cannot be empty" when name is empty,
"localVolumeSet 'nsname' cannot be empty" when only nsname is empty and no deferred
error otherwise; the builder of `NewKCBuilder` carries "KubeletConfig 'name' cannot
be empty" when name is empty and no deferred error otherwise, so it carries that
text exactly when name is empty.  Definition is non-nil in every case. -/
theorem C18_constructor_deferred_errors :
    (∀ (σ : Type) (st : clients.Settings σ lsov1alpha1.LocalVolumeSet) (name nsname : String),
      ∃ b, lso.NewLocalVolumeSetBuilder (some st) name nsname = some b ∧
        b.errorMsg = (if name = "" then "localVolumeSet 'name' cannot be empty"
          else if nsname = "" then "localVolumeSet 'nsname' cannot be empty" else "") ∧
        b.Definition ≠ none) ∧
    (∀ (σ : Type) (st : mco.Settings σ) (name : String),
      ∃ b, mco.NewKCBuilder (some st) name = some b ∧
        b.errorMsg = (if name = "" then "KubeletConfig 'name' cannot be empty" else "") ∧
        (b.errorMsg = "KubeletConfig 'name' cannot be empty" ↔ name = "") ∧
        b.Definition ≠ none) := by
  refine ⟨?_, ?_⟩
  · intro σ st name nsname
    simp only [lso.NewLocalVolumeSetBuilder]
    by_cases h1 : name = ""
    · subst h1
      exact ⟨_, rfl, rfl, by simp⟩
    · by_cases h2 : nsname = ""
      · subst h2
        refine ⟨_, by simp [h1]; rfl, by simp [h1], by simp⟩
      · refine ⟨_, by simp [h1, h2]; rfl, by simp [h1, h2], by simp⟩
  · intro σ st name
    simp only [mco.NewKCBuilder]
    by_cases h1 : name = ""
    · subst h1
      exact ⟨_, rfl, rfl, by simp, by simp⟩
    · refine ⟨_, by simp [h1]; rfl, by simp [h1], ?_, by simp⟩
      simp only [h1, iff_false]
      decide

/-- C19: the code at the failing input.  With both name and nsname empty, the
constructors `StorageClusterNewBuilder`, `NewServiceMeshControlPlane` and
`NewServiceMeshMemberRoll` run both checks one after the other and the second
overwrites the first: the recorded deferred error is the one for the empty
namespace, which differs from the one recorded when only the name is empty. -/
theorem C19_constructors_record_last_failure :
    (∀ (σ : Type) (k : storage.Consts)
        (apiClient : Option (clients.Settings σ ocsoperatorv1.StorageCluster)),
      (storage.StorageClusterNewBuilder k apiClient "" "").map (fun b => b.errorMsg)
        = some "storageCluster 'nsname' cannot be empty" ∧
      (storage.StorageClusterNewBuilder k apiClient "" "ns").map (fun b => b.errorMsg)
        = some "storageCluster 'name' cannot be empty") ∧
    (∀ (σ : Type) (apiClient : Option (clients.Settings σ istioV2.ServiceMeshControlPlane)),
      (servicemesh.NewServiceMeshControlPlane apiClient "" "").map (fun b => b.errorMsg)
        = some "The serviceMeshControlPlane 'namespace' cannot be empty" ∧
      (servicemesh.NewServiceMeshControlPlane apiClient "" "ns").map (fun b => b.errorMsg)
        = some "The serviceMeshControlPlane 'name' cannot be empty") ∧
    (∀ (σ : Type) (apiClient : Option (clients.Settings σ istioV1.ServiceMeshMemberRoll)),
      (servicemesh.NewServiceMeshMemberRoll apiClient "" "").map (fun b => b.errorMsg)
        = some "The serviceMeshMemberRoll 'namespace' cannot be empty" ∧
      (servicemesh.NewServiceMeshMemberRoll apiClient "" "ns").map (fun b => b.errorMsg)
        = some "The serviceMeshMemberRoll 'name' cannot be empty") :=
  ⟨fun _ _ _ => ⟨rfl, rfl⟩, fun _ _ => ⟨rfl, rfl⟩, fun _ _ => ⟨rfl, rfl⟩⟩

/-- C20, as stated, fails: the deferred error of `NewServiceMeshControlPlane(accessor,
"", "ns")` is "The serviceMeshControlPlane 'name' cannot be empty", not
"serviceMeshControlPlane 'name' cannot be empty", and the one of
`NewServiceMeshControlPlane(accessor, "cp", "")` is "The serviceMeshControlPlane
'namespace' cannot be empty", not "serviceMeshControlPlane 'nsname' cannot be
empty". -/
theorem C20_serviceMesh_texts_differ :
    (servicemesh.NewServiceMeshControlPlane
        (some { Client := some servicemesh.controlPlaneStore }) "" "ns").map
        (fun b => b.errorMsg)
      = some "The serviceMeshControlPlane 'name' cannot be empty" ∧
    (servicemesh.NewServiceMeshControlPlane
        (some { Client := some servicemesh.controlPlaneStore }) "" "ns").map
        (fun b => b.errorMsg)
      ≠ some "serviceMeshControlPlane 'name' cannot be empty" ∧
    (servicemesh.NewServiceMeshControlPlane
        (some { Client := some servicemesh.controlPlaneStore }) "cp" "").map
        (fun b => b.errorMsg)
      = some "The serviceMeshControlPlane 'namespace' cannot be empty" ∧
    (servicemesh.NewServiceMeshControlPlane
        (some { Client := some servicemesh.controlPlaneStore }) "cp" "").map
        (fun b => b.errorMsg)
      ≠ some "serviceMeshControlPlane 'nsname' cannot be empty" := by
  refine ⟨rfl, ?_, rfl, ?_⟩
  · show some "The serviceMeshControlPlane 'name' cannot be empty"
      ≠ some "serviceMeshControlPlane 'name' cannot be empty"
    decide
  · show some "The serviceMeshControlPlane 'namespace' cannot be empty"
      ≠ some "serviceMeshControlPlane 'nsname' cannot be empty"
    decide

/-- C20 amended: for every accessor and non-empty ns and n,
`NewServiceMeshControlPlane(accessor, "", ns)` carries exactly "The
serviceMeshControlPlane 'name' cannot be empty" and
`NewServiceMeshControlPlane(accessor, n, "")` carries exactly "The
serviceMeshControlPlane 'namespace' cannot be empty"; likewise
`NewServiceMeshMemberRoll` with "The serviceMeshMemberRoll 'name' cannot be empty"
and "The serviceMeshMemberRoll 'namespace' cannot be empty". -/
theorem C20_serviceMesh_deferred_error_texts :
    (∀ (σ : Type) (apiClient : Option (clients.Settings σ istioV2.ServiceMeshControlPlane))
        (n ns : String), n ≠ "" → ns ≠ "" →
      (servicemesh.NewServiceMeshControlPlane apiClient "" ns).map (fun b => b.errorMsg)
        = some "The serviceMeshControlPlane 'name' cannot be empty" ∧
      (servicemesh.NewServiceMeshControlPlane apiClient n "").map (fun b => b.errorMsg)
        = some "The serviceMeshControlPlane 'namespace' cannot be empty") ∧
    (∀ (σ : Type) (apiClient : Option (clients.Settings σ istioV1.ServiceMeshMemberRoll))
        (n ns : String), n ≠ "" → ns ≠ "" →
      (servicemesh.NewServiceMeshMemberRoll apiClient "" ns).map (fun b => b.errorMsg)
        = some "The serviceMeshMemberRoll 'name' cannot be empty" ∧
      (servicemesh.NewServiceMeshMemberRoll apiClient n "").map (fun b => b.errorMsg)
        = some "The serviceMeshMemberRoll 'namespace' cannot be empty") := by
  refine ⟨?_, ?_⟩
  · intro σ apiClient n ns hn hns
    simp [servicemesh.NewServiceMeshControlPlane, hn, hns]
  · intro σ apiClient n ns hn hns
    simp [servicemesh.NewServiceMeshMemberRoll, hn, hns]

/-- C20 amended, at concrete inputs: the two service-mesh constructors over the
in-memory stores, with name "cp" ("mr") and namespace "ns". -/
theorem C20_serviceMesh_deferred_error_texts_witness :
    ((servicemesh.NewServiceMeshControlPlane
          (some { Client := some servicemesh.controlPlaneStore }) "" "ns").map
          (fun b => b.errorMsg)
        = some "The serviceMeshControlPlane 'name' cannot be empty" ∧
      (servicemesh.NewServiceMeshControlPlane
          (some { Client := some servicemesh.controlPlaneStore }) "cp" "").map
          (fun b => b.errorMsg)
        = some "The serviceMeshControlPlane 'namespace' cannot be empty") ∧
    ((servicemesh.NewServiceMeshMemberRoll
          (some { Client := some servicemesh.memberRollStore }) "" "ns").map
          (fun b => b.errorMsg)
        = some "The serviceMeshMemberRoll 'name' cannot be empty" ∧
      (servicemesh.NewServiceMeshMemberRoll
          (some { Client := some servicemesh.memberRollStore }) "mr" "").map
          (fun b => b.errorMsg)
        = some "The serviceMeshMemberRoll 'namespace' cannot be empty") :=
  ⟨C20_serviceMesh_deferred_error_texts.1 _
      (some { Client := some servicemesh.controlPlaneStore }) "cp" "ns"
      (by decide) (by decide),
    C20_serviceMesh_deferred_error_texts.2 _
      (some { Client := some servicemesh.memberRollStore }) "mr" "ns"
      (by decide) (by decide)⟩

/-- A format without a percent sign is printed as it is. -/
theorem doPrintf_no_percent (cs : List Char) (h : '%' ∉ cs) :
    ∀ fuel, cs.length ≤ fuel → fmt.doPrintf fuel cs = cs := by
  induction cs with
  | nil => intro fuel _; cases fuel <;> rfl
  | cons c cs ih =>
    intro fuel hf
    cases fuel with
    | zero => simp at hf
    | succ n =>
      have hc : c ≠ '%' := fun hc => h (by simp [hc])
      have hcs : '%' ∉ cs := fun hm => h (List.mem_cons_of_mem _ hm)
      have hn : cs.length ≤ n := by simpa using hf
      simp [fmt.doPrintf, hc, ih hcs n hn]

/-- The error `fmt.Errorf` makes of a text without a percent sign has that very text. -/
theorem errorf_text_no_percent (t : String) (h : '%' ∉ t.toList) :
    (fmt.Errorf t).text = t := by
  obtain ⟨data⟩ := t
  show String.mk (fmt.doPrintf data.length data) = String.mk data
  rw [doPrintf_no_percent data h data.length (le_refl _)]

/-- PullLocalVolumeSet on a non-empty name and namespace with a live client whose Get
fails with not-found. -/
theorem lvs_Pull_absent {σ : Type} (U : String → String)
    (c : goclient.Client σ lsov1alpha1.LocalVolumeSet) (name nsname : String) (s : σ)
    (hn : name ≠ "") (hns : nsname ≠ "")
    (h : k8serrors.IsNotFound (c.Get { Name := name, Namespace := nsname } s).1.2 = true) :
    lso.PullLocalVolumeSet U (some { Client := some c }) name nsname s
      = some
        { recv := none
          ret := (none, some (fmt.ErrorfText ("localVolumeSet object " ++ name
            ++ " does not exist in namespace " ++ nsname)))
          state := (c.Get { Name := name, Namespace := nsname } s).2
          calls := [goclient.Call.Get { Name := name, Namespace := nsname }] } := by
  simp only [lso.PullLocalVolumeSet, beq_iff_eq, hn, hns, if_false, lvs_Exists_valid,
    lso.keyOf]
  simp [h]

/-- C21: `PullLocalVolumeSet` returns a nil builder and the error "localVolumeSet
'apiClient' cannot be empty" when the accessor is nil; otherwise "localVolumeSet
'name' cannot be empty" when name is empty; otherwise "localVolumeSet 'nsname' cannot
be empty" when nsname is empty, in all three cases without a call on the accessor;
otherwise, when the remote Get (under name and nsname) fails with not-found,
"localVolumeSet object NAME does not exist in namespace NSNAME". -/
theorem C21_pullLocalVolumeSet_is_hard_check :
    (∀ (σ : Type) (U : String → String) (name nsname : String) (s : σ),
      ∃ out, lso.PullLocalVolumeSet U
          (none : Option (clients.Settings σ lsov1alpha1.LocalVolumeSet)) name nsname s
          = some out ∧
        out.ret.1 = none ∧
        out.ret.2.map GoError.text = some "localVolumeSet 'apiClient' cannot be empty" ∧
        out.calls = [] ∧ out.state = s) ∧
    (∀ (σ : Type) (U : String → String) (st : clients.Settings σ lsov1alpha1.LocalVolumeSet)
        (nsname : String) (s : σ),
      ∃ out, lso.PullLocalVolumeSet U (some st) "" nsname s = some out ∧
        out.ret.1 = none ∧
        out.ret.2.map GoError.text = some "localVolumeSet 'name' cannot be empty" ∧
        out.calls = [] ∧ out.state = s) ∧
    (∀ (σ : Type) (U : String → String) (st : clients.Settings σ lsov1alpha1.LocalVolumeSet)
        (name : String) (s : σ), name ≠ "" →
      ∃ out, lso.PullLocalVolumeSet U (some st) name "" s = some out ∧
        out.ret.1 = none ∧
        out.ret.2.map GoError.text = some "localVolumeSet 'nsname' cannot be empty" ∧
        out.calls = [] ∧ out.state = s) ∧
    (∀ (σ : Type) (U : String → String) (c : goclient.Client σ lsov1alpha1.LocalVolumeSet)
        (name nsname : String) (s : σ), name ≠ "" → nsname ≠ "" →
      k8serrors.IsNotFound (c.Get { Name := name, Namespace := nsname } s).1.2 = true →
      ∃ out, lso.PullLocalVolumeSet U (some { Client := some c }) name nsname s = some out ∧
        out.ret.1 = none ∧
        out.ret.2.map GoError.text = some ("localVolumeSet object " ++ name
          ++ " does not exist in namespace " ++ nsname) ∧
        out.calls = [goclient.Call.Get { Name := name, Namespace := nsname }]) := by
  refine ⟨?_, ?_, ?_, ?_⟩
  · intro σ U name nsname s
    exact ⟨_, rfl, rfl, rfl, rfl, rfl⟩
  · intro σ U st nsname s
    exact ⟨_, rfl, rfl, rfl, rfl, rfl⟩
  · intro σ U st name s hn
    simp only [lso.PullLocalVolumeSet, beq_iff_eq, hn, if_false]
    exact ⟨_, rfl, rfl, rfl, rfl, rfl⟩
  · intro σ U c name nsname s hn hns hnf
    exact ⟨_, lvs_Pull_absent U c name nsname s hn hns hnf, rfl, rfl, rfl⟩

/-- C21 at concrete inputs: an empty namespace with the name "foo", and the name "foo"
in namespace "ns" over the empty in-memory store. -/
theorem C21_pullLocalVolumeSet_is_hard_check_witness :
    (∃ out, lso.PullLocalVolumeSet msg.sampleUndefinedCrd
        (some { Client := some lso.store }) "foo" "" [] = some out ∧
      out.ret.1 = none ∧
      out.ret.2.map GoError.text = some "localVolumeSet 'nsname' cannot be empty" ∧
      out.calls = []) ∧
    (∃ out, lso.PullLocalVolumeSet msg.sampleUndefinedCrd
        (some { Client := some lso.store }) "foo" "ns" [] = some out ∧
      out.ret.1 = none ∧
      out.ret.2.map GoError.text
        = some "localVolumeSet object foo does not exist in namespace ns" ∧
      out.calls = [goclient.Call.Get { Name := "foo", Namespace := "ns" }]) := by
  refine ⟨?_, ?_⟩
  · obtain ⟨out, h, h1, h2, h3, _⟩ := C21_pullLocalVolumeSet_is_hard_check.2.2.1 _
      msg.sampleUndefinedCrd { Client := some lso.store } "foo" [] (by decide)
    exact ⟨out, h, h1, h2, h3⟩
  · obtain ⟨out, h, h1, h2, h3⟩ := C21_pullLocalVolumeSet_is_hard_check.2.2.2 _
      msg.sampleUndefinedCrd lso.store "foo" "ns" [] (by decide) (by decide) rfl
    exact ⟨out, h, h1, h2, h3⟩

/-- PullLocalVolumeSet on a non-empty name and namespace with a live client whose Get
does not fail with not-found: the builder returned has the result of the Get both
as Object and as Definition. -/
theorem lvs_Pull_present {σ : Type} (U : String → String)
    (c : goclient.Client σ lsov1alpha1.LocalVolumeSet) (name nsname : String) (s : σ)
    (hn : name ≠ "") (hns : nsname ≠ "")
    (h : k8serrors.IsNotFound (c.Get { Name := name, Namespace := nsname } s).1.2 = false) :
    lso.PullLocalVolumeSet U (some { Client := some c }) name nsname s
      = some
        { recv := none
          ret := (some
            { Definition := match (c.Get { Name := name, Namespace := nsname } s).1.2 with
                | some _ => none
                | none => some (c.Get { Name := name, Namespace := nsname } s).1.1
              Object := match (c.Get { Name := name, Namespace := nsname } s).1.2 with
                | some _ => none
                | none => some (c.Get { Name := name, Namespace := nsname } s).1.1
              errorMsg := "", apiClient := some c }, none)
          state := (c.Get { Name := name, Namespace := nsname } s).2
          calls := [goclient.Call.Get { Name := name, Namespace := nsname }] } := by
  simp only [lso.PullLocalVolumeSet, beq_iff_eq, hn, hns, if_false, lvs_Exists_valid,
    lso.keyOf]
  simp [h]

/-- PullLocalVolumeSet with a Settings whose client is nil returns an error. -/
theorem lvs_Pull_nil_client {σ : Type} (U : String → String) (name nsname : String) (s : σ) :
    ∃ out, lso.PullLocalVolumeSet U
        (some ({ Client := none } : clients.Settings σ lsov1alpha1.LocalVolumeSet))
        name nsname s = some out ∧ out.ret.2 ≠ none := by
  simp only [lso.PullLocalVolumeSet]
  split_ifs
  · exact ⟨_, rfl, by simp⟩
  · exact ⟨_, rfl, by simp⟩
  · exact ⟨_, rfl, by simp⟩

/-- C22, as stated, fails: when the Get of the existence check fails with an error that
is not a not-found error, `PullLocalVolumeSet` (and `PullStorageCluster`) returns a
nil error and a builder whose Object and Definition are both nil. -/
theorem C22_pull_nil_error_nil_object :
    (∃ out b, lso.PullLocalVolumeSet msg.sampleUndefinedCrd
        (some { Client := some lso.unreachable }) "lvs" "ns" () = some out ∧
      out.ret = (some b, none) ∧ b.Object = none ∧ b.Definition = none) ∧
    (∃ out b, storage.PullStorageCluster msg.sampleUndefinedCrd
        (some { Client := some storage.unreachable }) "sc" "ns" () = some out ∧
      out.ret = (some b, none) ∧ b.Object = none ∧ b.Definition = none) :=
  ⟨⟨_, _, rfl, rfl, rfl, rfl⟩, ⟨_, _, rfl, rfl, rfl, rfl⟩⟩

/-- PullStorageCluster on a non-empty name and namespace with a live client: an error
when the Get (under the name alone) fails with not-found, otherwise a builder that
has the result of the Get both as Object and as Definition. -/
theorem sc_Pull_live {σ : Type} (U : String → String)
    (c : goclient.Client σ ocsoperatorv1.StorageCluster) (name nsname : String) (s : σ)
    (hn : name ≠ "") (hns : nsname ≠ "") :
    storage.PullStorageCluster U (some { Client := some c }) name nsname s
      = if k8serrors.IsNotFound (c.Get { Name := name } s).1.2 = true then
          some
            { recv := none
              ret := (none, some (fmt.ErrorfText ("storageCluster object " ++ name
                ++ " doesn't exist in namespace " ++ nsname)))
              state := (c.Get { Name := name } s).2
              calls := [goclient.Call.Get { Name := name }] }
        else
          some
            { recv := none
              ret := (some
                { Definition := match (c.Get { Name := name } s).1.2 with
                    | some _ => none
                    | none => some (c.Get { Name := name } s).1.1
                  Object := match (c.Get { Name := name } s).1.2 with
                    | some _ => none
                    | none => some (c.Get { Name := name } s).1.1
                  apiClient := storage.ClientIface.settings (some { Client := some c })
                  errorMsg := "" }, none)
              state := (c.Get { Name := name } s).2
              calls := [goclient.Call.Get { Name := name }] } := by
  simp only [storage.PullStorageCluster, beq_iff_eq, hn, hns, if_false, sc_Exists_valid]
  by_cases h : k8serrors.IsNotFound (c.Get { Name := name } s).1.2 = true
  · simp [h]
  · simp [h]

/-- C22 amended: whenever `PullLocalVolumeSet` or `PullStorageCluster` returns a nil
error, the accessor and its client are non-nil, name and nsname are non-empty, the
returned builder is non-nil and its Definition equals its Object; when moreover the
Get of the existence check succeeded and returned an object carrying the name (and,
for the LocalVolumeSet, the namespace) it was asked for, Object is non-nil and
carries the requested name (and namespace). -/
theorem C22_pull_nil_error_definition_is_object :
    (∀ (σ : Type) (U : String → String)
        (apiClient : Option (clients.Settings σ lsov1alpha1.LocalVolumeSet))
        (name nsname : String) (s : σ)
        (out : Outcome (lso.LocalVolumeSetBuilder σ)
          (Option (lso.LocalVolumeSetBuilder σ) × Option GoError) σ lso.Call),
      lso.PullLocalVolumeSet U apiClient name nsname s = some out →
      out.ret.2 = none →
      ∃ c b, apiClient = some { Client := some c } ∧ name ≠ "" ∧ nsname ≠ "" ∧
        out.ret.1 = some b ∧ b.Definition = b.Object ∧
        ((c.Get { Name := name, Namespace := nsname } s).1.2 = none →
          lso.keyOf (c.Get { Name := name, Namespace := nsname } s).1.1
            = { Name := name, Namespace := nsname } →
          ∃ o, b.Object = some o ∧ b.Definition = some o ∧
            o.ObjectMeta.Name = name ∧ o.ObjectMeta.Namespace = nsname)) ∧
    (∀ (σ : Type) (U : String → String)
        (apiClient : Option (clients.Settings σ ocsoperatorv1.StorageCluster))
        (name nsname : String) (s : σ)
        (out : Outcome (storage.StorageClusterBuilder σ)
          (Option (storage.StorageClusterBuilder σ) × Option GoError) σ storage.Call),
      storage.PullStorageCluster U apiClient name nsname s = some out →
      out.ret.2 = none →
      ∃ c b, apiClient = some { Client := some c } ∧ name ≠ "" ∧ nsname ≠ "" ∧
        out.ret.1 = some b ∧ b.Definition = b.Object ∧
        ((c.Get { Name := name } s).1.2 = none →
          (c.Get { Name := name } s).1.1.ObjectMeta.Name = name →
          ∃ o, b.Object = some o ∧ b.Definition = some o ∧ o.ObjectMeta.Name = name)) := by
  refine ⟨?_, ?_⟩
  · intro σ U apiClient name nsname s out h herr
    rcases apiClient with _ | ⟨_ | c⟩
    · simp only [lso.PullLocalVolumeSet] at h
      obtain rfl := Option.some.inj h
      simp at herr
    · obtain ⟨out1, h1, hne⟩ := lvs_Pull_nil_client (σ := σ) U name nsname s
      rw [h1] at h
      obtain rfl := Option.some.inj h
      exact absurd herr hne
    · by_cases hn : name = ""
      · subst hn
        simp only [lso.PullLocalVolumeSet] at h
        obtain rfl := Option.some.inj h
        simp at herr
      · by_cases hns : nsname = ""
        · subst hns
          simp only [lso.PullLocalVolumeSet, beq_iff_eq, hn, if_false] at h
          obtain rfl := Option.some.inj h
          simp at herr
        · cases hnf : k8serrors.IsNotFound
              (c.Get { Name := name, Namespace := nsname } s).1.2 with
          | true =>
            rw [lvs_Pull_absent U c name nsname s hn hns hnf] at h
            obtain rfl := Option.some.inj h
            simp at herr
          | false =>
            rw [lvs_Pull_present U c name nsname s hn hns hnf] at h
            obtain rfl := Option.some.inj h
            refine ⟨c, _, rfl, hn, hns, rfl, rfl, ?_⟩
            intro hok hkey
            refine ⟨(c.Get { Name := name, Namespace := nsname } s).1.1, ?_, ?_, ?_, ?_⟩
            · simp [hok]
            · simp [hok]
            · exact congrArg goclient.ObjectKey.Name hkey
            · exact congrArg goclient.ObjectKey.Namespace hkey
  · intro σ U apiClient name nsname s out h herr
    rcases apiClient with _ | ⟨_ | c⟩
    · simp only [storage.PullStorageCluster] at h
      obtain rfl := Option.some.inj h
      simp at herr
    · by_cases hn : name = ""
      · subst hn
        simp only [storage.PullStorageCluster] at h
        obtain rfl := Option.some.inj h
        simp at herr
      · by_cases hns : nsname = ""
        · subst hns
          simp only [storage.PullStorageCluster, beq_iff_eq, hn, if_false] at h
          obtain rfl := Option.some.inj h
          simp at herr
        · simp [storage.PullStorageCluster, hn, hns, storage.StorageClusterBuilder.Exists,
            storage.StorageClusterBuilder.validate, storage.ClientIface.isNil,
            storage.StorageClusterBuilder.Get, storage.ClientIface.client] at h
    · by_cases hn : name = ""
      · subst hn
        simp only [storage.PullStorageCluster] at h
        obtain rfl := Option.some.inj h
        simp at herr
      · by_cases hns : nsname = ""
        · subst hns
          simp only [storage.PullStorageCluster, beq_iff_eq, hn, if_false] at h
          obtain rfl := Option.some.inj h
          simp at herr
        · rw [sc_Pull_live U c name nsname s hn hns] at h
          by_cases hnf : k8serrors.IsNotFound (c.Get { Name := name } s).1.2 = true
          · rw [if_pos hnf] at h
            obtain rfl := Option.some.inj h
            simp at herr
          · rw [if_neg hnf] at h
            obtain rfl := Option.some.inj h
            refine ⟨c, _, rfl, hn, hns, rfl, rfl, ?_⟩
            intro hok hname
            refine ⟨(c.Get { Name := name } s).1.1, ?_, ?_, hname⟩
            · simp [hok]
            · simp [hok]

/-- C22 amended, at concrete inputs: `PullLocalVolumeSet` over the in-memory store that
holds the served object, and `PullStorageCluster` over the store that finds objects by
name; both return a nil error and a builder whose Definition is its Object. -/
theorem C22_pull_nil_error_definition_is_object_witness :
    (∃ out, lso.PullLocalVolumeSet msg.sampleUndefinedCrd
        (some { Client := some lso.store }) "lvs" "ns" [lso.sampleServed] = some out ∧
      out.ret.2 = none ∧
      ∃ b, out.ret.1 = some b ∧ b.Definition = b.Object ∧
        ∃ o, b.Object = some o ∧ b.Definition = some o ∧
          o.ObjectMeta.Name = "lvs" ∧ o.ObjectMeta.Namespace = "ns") ∧
    (∃ out, storage.PullStorageCluster msg.sampleUndefinedCrd
        (some { Client := some storage.storeByName }) "sc" "ns" [storage.sampleServed]
        = some out ∧
      out.ret.2 = none ∧
      ∃ b, out.ret.1 = some b ∧ b.Definition = b.Object ∧
        ∃ o, b.Object = some o ∧ b.Definition = some o ∧ o.ObjectMeta.Name = "sc") := by
  refine ⟨?_, ?_⟩
  · obtain ⟨c, b, hc, _, _, hb, hdef, hobj⟩ :=
      C22_pull_nil_error_definition_is_object.1 _ msg.sampleUndefinedCrd
        (some { Client := some lso.store }) "lvs" "ns" [lso.sampleServed] _ rfl rfl
    obtain rfl : lso.store = c := by
      have := Option.some.inj hc
      exact Option.some.inj (congrArg clients.Settings.Client this)
    exact ⟨_, rfl, rfl, b, hb, hdef, hobj rfl rfl⟩
  · obtain ⟨c, b, hc, _, _, hb, hdef, hobj⟩ :=
      C22_pull_nil_error_definition_is_object.2 _ msg.sampleUndefinedCrd
        (some { Client := some storage.storeByName }) "sc" "ns" [storage.sampleServed] _
        rfl rfl
    obtain rfl : storage.storeByName = c := by
      have := Option.some.inj hc
      exact Option.some.inj (congrArg clients.Settings.Client this)
    exact ⟨_, rfl, rfl, b, hb, hdef, hobj rfl rfl⟩

/-- The checks of `LocalVolumeSetBuilder.validate` in their order: nil builder, nil
Definition, nil accessor, non-empty deferred error.  The errors are "error: received
nil LocalVolumeSet builder", `fmt.Errorf` of `msg.UndefinedCrdObjectErrString`,
"LocalVolumeSet builder cannot have nil apiClient", and `fmt.Errorf` of the stored
deferred error, whose text is the stored text when that holds no percent sign.  The
method returns `(true, nil)` exactly when all four checks pass, and a true verdict
always comes with a nil error. -/
theorem lvs_validate_checks_in_order :
    (∀ (σ : Type) (U : String → String),
      lso.LocalVolumeSetBuilder.validate U (none : Option (lso.LocalVolumeSetBuilder σ))
        = (false, some { text := "error: received nil LocalVolumeSet builder"
                         notFound := false })) ∧
    (∀ (σ : Type) (U : String → String) (b : lso.LocalVolumeSetBuilder σ),
      b.Definition = none →
      lso.LocalVolumeSetBuilder.validate U (some b)
        = (false, some (fmt.Errorf (U "LocalVolumeSet")))) ∧
    (∀ (σ : Type) (U : String → String) (b : lso.LocalVolumeSetBuilder σ),
      b.Definition ≠ none → b.apiClient = none →
      lso.LocalVolumeSetBuilder.validate U (some b)
        = (false, some { text := "LocalVolumeSet builder cannot have nil apiClient"
                         notFound := false })) ∧
    (∀ (σ : Type) (U : String → String) (b : lso.LocalVolumeSetBuilder σ),
      b.Definition ≠ none → b.apiClient ≠ none → b.errorMsg ≠ "" →
      lso.LocalVolumeSetBuilder.validate U (some b) = (false, some (fmt.Errorf b.errorMsg)) ∧
      ('%' ∉ b.errorMsg.toList → (fmt.Errorf b.errorMsg).text = b.errorMsg)) ∧
    (∀ (σ : Type) (U : String → String) (builder : Option (lso.LocalVolumeSetBuilder σ)),
      (lso.LocalVolumeSetBuilder.validate U builder = (true, none) ↔
        ∃ b, builder = some b ∧ b.Definition ≠ none ∧ b.apiClient ≠ none ∧ b.errorMsg = "") ∧
      ((lso.LocalVolumeSetBuilder.validate U builder).1 = true ↔
        lso.LocalVolumeSetBuilder.validate U builder = (true, none))) := by
  refine ⟨?_, ?_, ?_, ?_, ?_⟩
  · intro σ U
    rfl
  · intro σ U b hd
    simp [lso.LocalVolumeSetBuilder.validate, hd]
  · intro σ U b hd hc
    obtain ⟨d, hd1⟩ := Option.ne_none_iff_exists'.1 hd
    simp only [lso.LocalVolumeSetBuilder.validate, hd1, hc]
    rfl
  · intro σ U b hd hc hm
    obtain ⟨d, hd1⟩ := Option.ne_none_iff_exists'.1 hd
    obtain ⟨c, hc1⟩ := Option.ne_none_iff_exists'.1 hc
    refine ⟨?_, errorf_text_no_percent b.errorMsg⟩
    simp [lso.LocalVolumeSetBuilder.validate, hd1, hc1, hm]
  · intro σ U builder
    have key : (lso.LocalVolumeSetBuilder.validate U builder).1 = true ↔
        ∃ b, builder = some b ∧ b.Definition ≠ none ∧ b.apiClient ≠ none ∧ b.errorMsg = "" := by
      rw [lvs_validate_true_iff]
      constructor
      · rintro ⟨d, o, c, rfl⟩
        exact ⟨_, rfl, by simp, by simp, rfl⟩
      · rintro ⟨⟨d, o, m, c⟩, rfl, hd, hc, hm⟩
        obtain ⟨d1, rfl⟩ := Option.ne_none_iff_exists'.1 hd
        obtain ⟨c1, rfl⟩ := Option.ne_none_iff_exists'.1 hc
        simp only at hm
        subst hm
        exact ⟨d1, o, c1, rfl⟩
    have hfull : (lso.LocalVolumeSetBuilder.validate U builder).1 = true ↔
        lso.LocalVolumeSetBuilder.validate U builder = (true, none) := by
      constructor
      · intro h
        obtain ⟨d, o, c, rfl⟩ := (lvs_validate_true_iff U builder).1 h
        exact lvs_validate_valid U d o c
      · intro h
        rw [h]
    exact ⟨hfull.symm.trans key, hfull⟩

/-- C23: the code at the failing input.  On a LocalVolumeSetBuilder with a Definition
and an accessor whose stored deferred error is "100%", `validate` reaches its fourth
check and reports an error whose text is "100%!(NOVERB)", not the stored text: the
stored text is handed to `fmt.Errorf` as the format.  The deferred error of the
builder is still "100%". -/
theorem C23_lvs_gate_formats_deferred_error :
    lso.LocalVolumeSetBuilder.validate msg.sampleUndefinedCrd
        (some { lso.sampleBuilder with errorMsg := "100%" })
      = (false, some { text := "100%!(NOVERB)", notFound := false }) ∧
    ({ lso.sampleBuilder with errorMsg := "100%" } :
        lso.LocalVolumeSetBuilder (List lsov1alpha1.LocalVolumeSet)).errorMsg = "100%" ∧
    (some "100%!(NOVERB)" : Option String) ≠ some "100%" := by
  refine ⟨by decide, rfl, by decide⟩

/-- C24: the code at the failing input.  On a non-nil KCBuilder, ControlPlaneBuilder or
MemberRollBuilder whose Definition and accessor are both nil, the gate stores the
undefined-definition text in `errorMsg`, then overwrites it with the nil-accessor
text, and reports the latter: the error is "KubeletConfig builder cannot have nil
apiClient" (and the like), not the undefined-definition error. -/
theorem C24_gate_reports_last_failing_check :
    ((mco.KCBuilder.validate msg.sampleUndefinedCrd (some ({ } : mco.KCBuilder Unit))).2
        = (false, some { text := "KubeletConfig builder cannot have nil apiClient"
                         notFound := false }) ∧
      fmt.Errorf (msg.sampleUndefinedCrd "KubeletConfig")
        = { text := "can not redefine the undefined KubeletConfig", notFound := false } ∧
      (mco.KCBuilder.validate msg.sampleUndefinedCrd (some ({ } : mco.KCBuilder Unit))).2.2
        ≠ some (fmt.Errorf (msg.sampleUndefinedCrd "KubeletConfig"))) ∧
    ((servicemesh.ControlPlaneBuilder.validate msg.sampleUndefinedCrd
          (some ({ } : servicemesh.ControlPlaneBuilder Unit))).2
        = (false, some { text := "ServiceMeshControlPlane builder cannot have nil apiClient"
                         notFound := false }) ∧
      fmt.Errorf (msg.sampleUndefinedCrd "ServiceMeshControlPlane")
        = { text := "can not redefine the undefined ServiceMeshControlPlane"
            notFound := false } ∧
      (servicemesh.ControlPlaneBuilder.validate msg.sampleUndefinedCrd
          (some ({ } : servicemesh.ControlPlaneBuilder Unit))).2.2
        ≠ some (fmt.Errorf (msg.sampleUndefinedCrd "ServiceMeshControlPlane"))) ∧
    ((servicemesh.MemberRollBuilder.validate msg.sampleUndefinedCrd
          (some ({ } : servicemesh.MemberRollBuilder Unit))).2
        = (false, some { text := "ServiceMeshMemberRoll builder cannot have nil apiClient"
                         notFound := false }) ∧
      fmt.Errorf (msg.sampleUndefinedCrd "ServiceMeshMemberRoll")
        = { text := "can not redefine the undefined ServiceMeshMemberRoll"
            notFound := false } ∧
      (servicemesh.MemberRollBuilder.validate msg.sampleUndefinedCrd
          (some ({ } : servicemesh.MemberRollBuilder Unit))).2.2
        ≠ some (fmt.Errorf (msg.sampleUndefinedCrd "ServiceMeshMemberRoll"))) := by
  refine ⟨⟨by decide, by decide, by decide⟩, ⟨by decide, by decide, by decide⟩,
    ⟨by decide, by decide, by decide⟩⟩

/-- C25: on a non-nil LocalVolumeSetBuilder with a non-nil Definition that fails the gate,
each of the seven mutators, with any argument, runs to completion and returns the
builder as it was (Definition, Object, deferred error and accessor unchanged); hence
any chain of mutator calls returns the builder as it was, with its original deferred
error. -/
theorem C25_lvs_mutators_noop_on_invalid :
    ∀ (σ : Type) (U : String → String) (b : lso.LocalVolumeSetBuilder σ),
    b.Definition ≠ none →
    (lso.LocalVolumeSetBuilder.validate U (some b)).1 = false →
    (∀ g, lso.LocalVolumeSetBuilder.WithGeneration U (some b) g = some (some b)) ∧
    (∀ n, lso.LocalVolumeSetBuilder.WithNodeSelector U (some b) n = some (some b)) ∧
    (∀ n, lso.LocalVolumeSetBuilder.WithStorageClassName U (some b) n = some (some b)) ∧
    (∀ v, lso.LocalVolumeSetBuilder.WithVolumeMode U (some b) v = some (some b)) ∧
    (∀ f, lso.LocalVolumeSetBuilder.WithFSType U (some b) f = some (some b)) ∧
    (∀ n, lso.LocalVolumeSetBuilder.WithMaxDeviceCount U (some b) n = some (some b)) ∧
    (∀ d, lso.LocalVolumeSetBuilder.WithDeviceInclusionSpec U (some b) d = some (some b)) ∧
    (∀ ms, lso.runChain U ms (some b) = some (some b)) := by
  intro σ U b hd hv
  obtain ⟨d, hd1⟩ := Option.ne_none_iff_exists'.1 hd
  have h1 : ∀ g, lso.LocalVolumeSetBuilder.WithGeneration U (some b) g = some (some b) := by
    intro g; simp [lso.LocalVolumeSetBuilder.WithGeneration, hv]; rw [hd1]
  have h2 : ∀ n, lso.LocalVolumeSetBuilder.WithNodeSelector U (some b) n = some (some b) := by
    intro n; simp [lso.LocalVolumeSetBuilder.WithNodeSelector, hv]; rw [hd1]
  have h3 : ∀ n, lso.LocalVolumeSetBuilder.WithStorageClassName U (some b) n
      = some (some b) := by
    intro n; simp [lso.LocalVolumeSetBuilder.WithStorageClassName, hv]; rw [hd1]
  have h4 : ∀ v, lso.LocalVolumeSetBuilder.WithVolumeMode U (some b) v = some (some b) := by
    intro v; simp [lso.LocalVolumeSetBuilder.WithVolumeMode, hv]; rw [hd1]
  have h5 : ∀ f, lso.LocalVolumeSetBuilder.WithFSType U (some b) f = some (some b) := by
    intro f; simp [lso.LocalVolumeSetBuilder.WithFSType, hv]; rw [hd1]
  have h6 : ∀ n, lso.LocalVolumeSetBuilder.WithMaxDeviceCount U (some b) n
      = some (some b) := by
    intro n; simp [lso.LocalVolumeSetBuilder.WithMaxDeviceCount, hv]; rw [hd1]
  have h7 : ∀ d, lso.LocalVolumeSetBuilder.WithDeviceInclusionSpec U (some b) d
      = some (some b) := by
    intro d; simp [lso.LocalVolumeSetBuilder.WithDeviceInclusionSpec, hv]; rw [hd1]
  refine ⟨h1, h2, h3, h4, h5, h6, h7, ?_⟩
  intro ms
  induction ms with
  | nil => rfl
  | cons m ms ih =>
    have hm : m.run U (some b) = some (some b) := by
      cases m <;> simp only [lso.Mutation.run, h1, h2, h3, h4, h5, h6, h7]
    simp only [lso.runChain, hm, ih]

/-- C25 at a concrete input: the sample builder carrying the empty-name deferred error
fails the gate; a mutator call and a chain of mutator calls leave it as it was. -/
theorem C25_lvs_mutators_noop_on_invalid_witness :
    (lso.LocalVolumeSetBuilder.validate msg.sampleUndefinedCrd
      (some { lso.sampleBuilder with errorMsg := "localVolumeSet 'name' cannot be empty" })).1
      = false ∧
    lso.LocalVolumeSetBuilder.WithStorageClassName msg.sampleUndefinedCrd
        (some { lso.sampleBuilder with errorMsg := "localVolumeSet 'name' cannot be empty" }) ""
      = some (some { lso.sampleBuilder with
          errorMsg := "localVolumeSet 'name' cannot be empty" }) ∧
    lso.runChain msg.sampleUndefinedCrd
        [lso.Mutation.WithStorageClassName "", lso.Mutation.WithGeneration 3,
         lso.Mutation.WithFSType "ext4"]
        (some { lso.sampleBuilder with errorMsg := "localVolumeSet 'name' cannot be empty" })
      = some (some { lso.sampleBuilder with
          errorMsg := "localVolumeSet 'name' cannot be empty" }) :=
  ⟨rfl,
    (C25_lvs_mutators_noop_on_invalid _ msg.sampleUndefinedCrd
      { lso.sampleBuilder with errorMsg := "localVolumeSet 'name' cannot be empty" }
      (by simp [lso.sampleBuilder]) rfl).2.2.1 "",
    (C25_lvs_mutators_noop_on_invalid _ msg.sampleUndefinedCrd
      { lso.sampleBuilder with errorMsg := "localVolumeSet 'name' cannot be empty" }
      (by simp [lso.sampleBuilder]) rfl).2.2.2.2.2.2.2 _⟩

/-- C26: the code at the failing input.  The builder of `NewKCBuilder(nil, "")` carries
the deferred error "KubeletConfig 'name' cannot be empty"; Exists on it runs the
gate, which replaces the deferred error by "KubeletConfig builder cannot have nil
apiClient".  Likewise for `NewServiceMeshControlPlane(nil, "", "ns")` and
`NewServiceMeshMemberRoll(nil, "", "ns")`. -/
theorem C26_gate_replaces_deferred_error :
    ((mco.NewKCBuilder (none : Option (mco.Settings Unit)) "").map (fun b => b.errorMsg)
        = some "KubeletConfig 'name' cannot be empty" ∧
      ∃ out, mco.KCBuilder.Exists msg.sampleUndefinedCrd
          (mco.NewKCBuilder (none : Option (mco.Settings Unit)) "") () = some out ∧
        out.recv.map (fun b => b.errorMsg)
          = some "KubeletConfig builder cannot have nil apiClient") ∧
    ((servicemesh.NewServiceMeshControlPlane
          (none : Option (clients.Settings Unit istioV2.ServiceMeshControlPlane)) "" "ns").map
          (fun b => b.errorMsg)
        = some "The serviceMeshControlPlane 'name' cannot be empty" ∧
      ∃ out, servicemesh.ControlPlaneBuilder.Exists msg.sampleUndefinedCrd
          (servicemesh.NewServiceMeshControlPlane
            (none : Option (clients.Settings Unit istioV2.ServiceMeshControlPlane)) "" "ns") ()
          = some out ∧
        out.recv.map (fun b => b.errorMsg)
          = some "ServiceMeshControlPlane builder cannot have nil apiClient") ∧
    ((servicemesh.NewServiceMeshMemberRoll
          (none : Option (clients.Settings Unit istioV1.ServiceMeshMemberRoll)) "" "ns").map
          (fun b => b.errorMsg)
        = some "The serviceMeshMemberRoll 'name' cannot be empty" ∧
      ∃ out, servicemesh.MemberRollBuilder.Exists msg.sampleUndefinedCrd
          (servicemesh.NewServiceMeshMemberRoll
            (none : Option (clients.Settings Unit istioV1.ServiceMeshMemberRoll)) "" "ns") ()
          = some out ∧
        out.recv.map (fun b => b.errorMsg)
          = some "ServiceMeshMemberRoll builder cannot have nil apiClient") :=
  ⟨⟨rfl, _, rfl, rfl⟩, ⟨rfl, _, rfl, rfl⟩, ⟨rfl, _, rfl, rfl⟩⟩

/-- The gate of a KCBuilder, ControlPlaneBuilder or MemberRollBuilder that has a
Definition and an accessor leaves the builder, its deferred error included, as it
was. -/
theorem gate_keeps_builder_with_definition_and_accessor :
    (∀ (σ : Type) (U : String → String) (b : mco.KCBuilder σ),
      b.Definition ≠ none → b.apiClient ≠ none →
      (mco.KCBuilder.validate U (some b)).1 = some b) ∧
    (∀ (σ : Type) (U : String → String) (b : servicemesh.ControlPlaneBuilder σ),
      b.Definition ≠ none → b.apiClient ≠ none →
      (servicemesh.ControlPlaneBuilder.validate U (some b)).1 = some b) ∧
    (∀ (σ : Type) (U : String → String) (b : servicemesh.MemberRollBuilder σ),
      b.Definition ≠ none → b.apiClient ≠ none →
      (servicemesh.MemberRollBuilder.validate U (some b)).1 = some b) := by
  refine ⟨?_, ?_, ?_⟩
  · intro σ U b hd hc
    obtain ⟨d, hd1⟩ := Option.ne_none_iff_exists'.1 hd
    obtain ⟨c, hc1⟩ := Option.ne_none_iff_exists'.1 hc
    simp only [mco.KCBuilder.validate, hd1, hc1]
    split_ifs <;> simp_all
  · intro σ U b hd hc
    obtain ⟨d, hd1⟩ := Option.ne_none_iff_exists'.1 hd
    obtain ⟨c, hc1⟩ := Option.ne_none_iff_exists'.1 hc
    simp only [servicemesh.ControlPlaneBuilder.validate, hd1, hc1]
    split_ifs <;> simp_all
  · intro σ U b hd hc
    obtain ⟨d, hd1⟩ := Option.ne_none_iff_exists'.1 hd
    obtain ⟨c, hc1⟩ := Option.ne_none_iff_exists'.1 hc
    simp only [servicemesh.MemberRollBuilder.validate, hd1, hc1]
    split_ifs <;> simp_all

/-- C27: on a valid LocalVolumeSetBuilder (whose deferred error is therefore empty),
WithStorageClassName, WithFSType and WithVolumeMode with a non-empty string and
WithGeneration and WithMaxDeviceCount with a non-zero number write exactly the given
value into their field of Definition and touch nothing else, the empty deferred error
included; with an empty string or zero they leave Definition as it was and set the
deferred error to their own text. -/
theorem C27_lvs_mutators_write_or_defer :
    ∀ (σ : Type) (U : String → String) (b : lso.LocalVolumeSetBuilder σ)
      (d : lsov1alpha1.LocalVolumeSet),
    (lso.LocalVolumeSetBuilder.validate U (some b)).1 = true →
    b.Definition = some d →
    b.errorMsg = "" ∧
    (∀ v : String, v ≠ "" →
      lso.LocalVolumeSetBuilder.WithStorageClassName U (some b) v
        = some (some { b with
            Definition := some { d with Spec := { d.Spec with StorageClassName := v } } })) ∧
    lso.LocalVolumeSetBuilder.WithStorageClassName U (some b) ""
      = some (some { b with errorMsg := "'storageClassName' argument cannot be empty" }) ∧
    (∀ v : String, v ≠ "" →
      lso.LocalVolumeSetBuilder.WithFSType U (some b) v
        = some (some { b with
            Definition := some { d with Spec := { d.Spec with FSType := v } } })) ∧
    lso.LocalVolumeSetBuilder.WithFSType U (some b) ""
      = some (some { b with errorMsg := "'fstype' argument cannot be empty" }) ∧
    (∀ v : String, v ≠ "" →
      lso.LocalVolumeSetBuilder.WithVolumeMode U (some b) v
        = some (some { b with
            Definition := some { d with Spec := { d.Spec with VolumeMode := v } } })) ∧
    lso.LocalVolumeSetBuilder.WithVolumeMode U (some b) ""
      = some (some { b with errorMsg := "'volumeMode' argument cannot be empty" }) ∧
    (∀ n : Int, n ≠ 0 →
      lso.LocalVolumeSetBuilder.WithGeneration U (some b) n
        = some (some { b with
            Definition := some { d with ObjectMeta := { d.ObjectMeta with Generation := n } } })) ∧
    lso.LocalVolumeSetBuilder.WithGeneration U (some b) 0
      = some (some { b with errorMsg := "'generation' argument cannot be equal zero" }) ∧
    (∀ n : Int, n ≠ 0 →
      lso.LocalVolumeSetBuilder.WithMaxDeviceCount U (some b) n
        = some (some { b with
            Definition := some { d with Spec := { d.Spec with MaxDeviceCount := some n } } })) ∧
    lso.LocalVolumeSetBuilder.WithMaxDeviceCount U (some b) 0
      = some (some { b with errorMsg := "'maxDeviceCount' argument cannot be equal zero" }) := by
  intro σ U b d hv hd
  obtain ⟨d1, o, c, hb⟩ := (lvs_validate_true_iff U (some b)).1 hv
  obtain rfl : b = _ := Option.some.inj hb
  obtain rfl : d1 = d := Option.some.inj hd
  refine ⟨rfl, ?_, ?_, ?_, ?_, ?_, ?_, ?_, ?_, ?_, ?_⟩
  · intro v hne
    simp [lso.LocalVolumeSetBuilder.WithStorageClassName, lvs_validate_valid, hne]
  · simp [lso.LocalVolumeSetBuilder.WithStorageClassName, lvs_validate_valid]
  · intro v hne
    simp [lso.LocalVolumeSetBuilder.WithFSType, lvs_validate_valid, hne]
  · simp [lso.LocalVolumeSetBuilder.WithFSType, lvs_validate_valid]
  · intro v hne
    simp [lso.LocalVolumeSetBuilder.WithVolumeMode, lvs_validate_valid, hne]
  · simp [lso.LocalVolumeSetBuilder.WithVolumeMode, lvs_validate_valid]
  · intro n hne
    simp [lso.LocalVolumeSetBuilder.WithGeneration, lvs_validate_valid, hne]
  · simp [lso.LocalVolumeSetBuilder.WithGeneration, lvs_validate_valid]
  · intro n hne
    simp [lso.LocalVolumeSetBuilder.WithMaxDeviceCount, lvs_validate_valid, hne]
  · simp [lso.LocalVolumeSetBuilder.WithMaxDeviceCount, lvs_validate_valid]

/-- C27 at a concrete input: on the valid sample builder, WithFSType "ext4" writes the
file-system type and WithGeneration 0 records its deferred error. -/
theorem C27_lvs_mutators_write_or_defer_witness :
    (lso.LocalVolumeSetBuilder.validate msg.sampleUndefinedCrd (some lso.sampleBuilder)).1
      = true ∧
    lso.LocalVolumeSetBuilder.WithFSType msg.sampleUndefinedCrd (some lso.sampleBuilder) "ext4"
      = some (some { lso.sampleBuilder with
          Definition := some { ObjectMeta := { Name := "lvs", Namespace := "ns" }
                               Spec := { FSType := "ext4" } } }) ∧
    lso.LocalVolumeSetBuilder.WithGeneration msg.sampleUndefinedCrd (some lso.sampleBuilder) 0
      = some (some { lso.sampleBuilder with
          errorMsg := "'generation' argument cannot be equal zero" }) :=
  ⟨rfl,
    (C27_lvs_mutators_write_or_defer _ msg.sampleUndefinedCrd lso.sampleBuilder
      { ObjectMeta := { Name := "lvs", Namespace := "ns" } } rfl rfl).2.2.2.1 "ext4"
      (by decide),
    (C27_lvs_mutators_write_or_defer _ msg.sampleUndefinedCrd lso.sampleBuilder
      { ObjectMeta := { Name := "lvs", Namespace := "ns" } } rfl rfl).2.2.2.2.2.2.2.2.1⟩

/-- C29: the code at the failing input.  On a nil LocalVolumeSetBuilder (what
`NewLocalVolumeSetBuilder` returns for a nil accessor) and on a builder whose
Definition is nil, each of the seven mutators, with any argument, crashes: the log
line at the top of the method reads the name of the Definition before the gate is
run. -/
theorem C29_lvs_mutators_crash_before_gate :
    ∀ (σ : Type) (U : String → String) (name nsname : String)
      (o : Option lsov1alpha1.LocalVolumeSet) (m : String)
      (c : Option (goclient.Client σ lsov1alpha1.LocalVolumeSet))
      (g : Int) (n : corev1.NodeSelector) (v : String)
      (d : lsov1alpha1.DeviceInclusionSpec),
    lso.NewLocalVolumeSetBuilder
      (none : Option (clients.Settings σ lsov1alpha1.LocalVolumeSet)) name nsname = none ∧
    (lso.LocalVolumeSetBuilder.WithGeneration U
        (none : Option (lso.LocalVolumeSetBuilder σ)) g = none ∧
      lso.LocalVolumeSetBuilder.WithNodeSelector U
        (none : Option (lso.LocalVolumeSetBuilder σ)) n = none ∧
      lso.LocalVolumeSetBuilder.WithStorageClassName U
        (none : Option (lso.LocalVolumeSetBuilder σ)) v = none ∧
      lso.LocalVolumeSetBuilder.WithVolumeMode U
        (none : Option (lso.LocalVolumeSetBuilder σ)) v = none ∧
      lso.LocalVolumeSetBuilder.WithFSType U
        (none : Option (lso.LocalVolumeSetBuilder σ)) v = none ∧
      lso.LocalVolumeSetBuilder.WithMaxDeviceCount U
        (none : Option (lso.LocalVolumeSetBuilder σ)) g = none ∧
      lso.LocalVolumeSetBuilder.WithDeviceInclusionSpec U
        (none : Option (lso.LocalVolumeSetBuilder σ)) d = none) ∧
    (lso.LocalVolumeSetBuilder.WithGeneration U
        (some { Definition := none, Object := o, errorMsg := m, apiClient := c }) g = none ∧
      lso.LocalVolumeSetBuilder.WithNodeSelector U
        (some { Definition := none, Object := o, errorMsg := m, apiClient := c }) n = none ∧
      lso.LocalVolumeSetBuilder.WithStorageClassName U
        (some { Definition := none, Object := o, errorMsg := m, apiClient := c }) v = none ∧
      lso.LocalVolumeSetBuilder.WithVolumeMode U
        (some { Definition := none, Object := o, errorMsg := m, apiClient := c }) v = none ∧
      lso.LocalVolumeSetBuilder.WithFSType U
        (some { Definition := none, Object := o, errorMsg := m, apiClient := c }) v = none ∧
      lso.LocalVolumeSetBuilder.WithMaxDeviceCount U
        (some { Definition := none, Object := o, errorMsg := m, apiClient := c }) g = none ∧
      lso.LocalVolumeSetBuilder.WithDeviceInclusionSpec U
        (some { Definition := none, Object := o, errorMsg := m, apiClient := c }) d = none) :=
  fun _ _ _ _ _ _ _ _ _ _ _ =>
    ⟨rfl, ⟨rfl, rfl, rfl, rfl, rfl, rfl, rfl⟩, ⟨rfl, rfl, rfl, rfl, rfl, rfl, rfl⟩⟩

/-- C30: the code at the failing input.  `PullKubeletConfig` with a non-nil accessor and
an empty name records "kubeletconfig 'name' cannot be empty" in the builder it
makes, calls Exists, which stops at the gate, and returns a nil builder with the
error "kubeletconfig object  doesn't exist"; the recorded message is not reported.
The accessor is not called. -/
theorem C30_pullKubeletConfig_empty_name :
    ∀ (σ : Type) (U : String → String) (st : mco.Settings σ) (s : σ),
    ∃ out, mco.PullKubeletConfig U (some st) "" s = some out ∧
      out.ret = (none, some { text := "kubeletconfig object  doesn't exist"
                              notFound := false }) ∧
      out.ret.2.map GoError.text ≠ some "kubeletconfig 'name' cannot be empty" ∧
      out.calls = [] ∧ out.state = s := by
  intro σ U st s
  refine ⟨_, rfl, rfl, ?_, rfl, rfl⟩
  show some "kubeletconfig object  doesn't exist" ≠ some "kubeletconfig 'name' cannot be empty"
  decide

/-- Get of a LocalVolumeSetBuilder issues at most one call, whatever the builder and the accessor. -/
theorem lvs_Get_calls {σ : Type} (U : String → String)
    (builder : Option (lso.LocalVolumeSetBuilder σ)) (s : σ)
    (out : Outcome (lso.LocalVolumeSetBuilder σ) (Option lsov1alpha1.LocalVolumeSet × Option GoError) σ lso.Call)
    (h : lso.LocalVolumeSetBuilder.Get U builder s = some out) : out.calls.length ≤ 1 := by
  unfold lso.LocalVolumeSetBuilder.Get at h
  dsimp only at h
  repeat' split at h
  all_goals first
    | (obtain rfl := Option.some.inj h; simp)
    | (exact absurd h (by simp))

/-- Exists of a LocalVolumeSetBuilder issues at most one call. -/
theorem lvs_Exists_calls {σ : Type} (U : String → String)
    (builder : Option (lso.LocalVolumeSetBuilder σ)) (s : σ)
    (out : Outcome (lso.LocalVolumeSetBuilder σ) Bool σ lso.Call)
    (h : lso.LocalVolumeSetBuilder.Exists U builder s = some out) : out.calls.length ≤ 1 := by
  unfold lso.LocalVolumeSetBuilder.Exists at h
  split at h
  · obtain rfl := Option.some.inj h; simp
  · split at h
    · exact absurd h (by simp)
    · next g hg =>
      have := lvs_Get_calls U builder s g hg
      split at h
      · exact absurd h (by simp)
      · obtain rfl := Option.some.inj h; simpa using this

/-- Create of a LocalVolumeSetBuilder issues at most two calls. -/
theorem lvs_Create_calls {σ : Type} (U : String → String)
    (builder : Option (lso.LocalVolumeSetBuilder σ)) (s : σ)
    (out : Outcome (lso.LocalVolumeSetBuilder σ) (Option (lso.LocalVolumeSetBuilder σ) × Option GoError) σ lso.Call)
    (h : lso.LocalVolumeSetBuilder.Create U builder s = some out) : out.calls.length ≤ 2 := by
  unfold lso.LocalVolumeSetBuilder.Create at h
  dsimp only at h
  split at h
  · obtain rfl := Option.some.inj h; simp
  · split at h
    · exact absurd h (by simp)
    · next e he =>
      have := lvs_Exists_calls U _ s e he
      repeat' split at h
      all_goals first
        | (obtain rfl := Option.some.inj h; simp; omega)
        | (exact absurd h (by simp))

/-- Update of a LocalVolumeSetBuilder issues at most two calls. -/
theorem lvs_Update_calls {σ : Type} (U : String → String)
    (builder : Option (lso.LocalVolumeSetBuilder σ)) (s : σ)
    (out : Outcome (lso.LocalVolumeSetBuilder σ) (Option (lso.LocalVolumeSetBuilder σ) × Option GoError) σ lso.Call)
    (h : lso.LocalVolumeSetBuilder.Update U builder s = some out) : out.calls.length ≤ 2 := by
  unfold lso.LocalVolumeSetBuilder.Update at h
  dsimp only at h
  split at h
  · obtain rfl := Option.some.inj h; simp
  · split at h
    · exact absurd h (by simp)
    · next e he =>
      have := lvs_Exists_calls U _ s e he
      repeat' split at h
      all_goals first
        | (obtain rfl := Option.some.inj h; simp; omega)
        | (exact absurd h (by simp))

/-- Delete of a LocalVolumeSetBuilder issues at most two calls. -/
theorem lvs_Delete_calls {σ : Type} (U : String → String)
    (builder : Option (lso.LocalVolumeSetBuilder σ)) (s : σ)
    (out : Outcome (lso.LocalVolumeSetBuilder σ) (Option GoError) σ lso.Call)
    (h : lso.LocalVolumeSetBuilder.Delete U builder s = some out) : out.calls.length ≤ 2 := by
  unfold lso.LocalVolumeSetBuilder.Delete at h
  dsimp only at h
  split at h
  · obtain rfl := Option.some.inj h; simp
  · split at h
    · exact absurd h (by simp)
    · next e he =>
      have := lvs_Exists_calls U _ s e he
      repeat' split at h
      all_goals first
        | (obtain rfl := Option.some.inj h; simp; omega)
        | (exact absurd h (by simp))

/-- Get of a StorageClusterBuilder issues at most one call, whatever the builder and the accessor. -/
theorem sc_Get_calls {σ : Type} (U : String → String)
    (builder : Option (storage.StorageClusterBuilder σ)) (s : σ)
    (out : Outcome (storage.StorageClusterBuilder σ) (Option ocsoperatorv1.StorageCluster × Option GoError) σ storage.Call)
    (h : storage.StorageClusterBuilder.Get U builder s = some out) : out.calls.length ≤ 1 := by
  unfold storage.StorageClusterBuilder.Get at h
  dsimp only at h
  repeat' split at h
  all_goals first
    | (obtain rfl := Option.some.inj h; simp)
    | (exact absurd h (by simp))

/-- Exists of a StorageClusterBuilder issues at most one call. -/
theorem sc_Exists_calls {σ : Type} (U : String → String)
    (builder : Option (storage.StorageClusterBuilder σ)) (s : σ)
    (out : Outcome (storage.StorageClusterBuilder σ) Bool σ storage.Call)
    (h : storage.StorageClusterBuilder.Exists U builder s = some out) : out.calls.length ≤ 1 := by
  unfold storage.StorageClusterBuilder.Exists at h
  split at h
  · obtain rfl := Option.some.inj h; simp
  · split at h
    · exact absurd h (by simp)
    · next g hg =>
      have := sc_Get_calls U builder s g hg
      split at h
      · exact absurd h (by simp)
      · obtain rfl := Option.some.inj h; simpa using this

/-- Create of a StorageClusterBuilder issues at most two calls. -/
theorem sc_Create_calls {σ : Type} (U : String → String)
    (builder : Option (storage.StorageClusterBuilder σ)) (s : σ)
    (out : Outcome (storage.StorageClusterBuilder σ) (Option (storage.StorageClusterBuilder σ) × Option GoError) σ storage.Call)
    (h : storage.StorageClusterBuilder.Create U builder s = some out) : out.calls.length ≤ 2 := by
  unfold storage.StorageClusterBuilder.Create at h
  dsimp only at h
  split at h
  · obtain rfl := Option.some.inj h; simp
  · split at h
    · exact absurd h (by simp)
    · next e he =>
      have := sc_Exists_calls U _ s e he
      repeat' split at h
      all_goals first
        | (obtain rfl := Option.some.inj h; simp; omega)
        | (exact absurd h (by simp))

/-- Update of a StorageClusterBuilder issues at most two calls. -/
theorem sc_Update_calls {σ : Type} (U : String → String)
    (builder : Option (storage.StorageClusterBuilder σ)) (s : σ)
    (out : Outcome (storage.StorageClusterBuilder σ) (Option (storage.StorageClusterBuilder σ) × Option GoError) σ storage.Call)
    (h : storage.StorageClusterBuilder.Update U builder s = some out) : out.calls.length ≤ 2 := by
  unfold storage.StorageClusterBuilder.Update at h
  dsimp only at h
  split at h
  · obtain rfl := Option.some.inj h; simp
  · split at h
    · exact absurd h (by simp)
    · next e he =>
      have := sc_Exists_calls U _ s e he
      repeat' split at h
      all_goals first
        | (obtain rfl := Option.some.inj h; simp; omega)
        | (exact absurd h (by simp))

/-- Delete of a StorageClusterBuilder issues at most one call. -/
theorem sc_Delete_calls {σ : Type} (U : String → String)
    (builder : Option (storage.StorageClusterBuilder σ)) (s : σ)
    (out : Outcome (storage.StorageClusterBuilder σ) (Option GoError) σ storage.Call)
    (h : storage.StorageClusterBuilder.Delete U builder s = some out) : out.calls.length ≤ 1 := by
  unfold storage.StorageClusterBuilder.Delete at h
  dsimp only at h
  repeat' split at h
  all_goals first
    | (obtain rfl := Option.some.inj h; simp)
    | (exact absurd h (by simp))

/-- Exists of a KCBuilder issues at most one call, whatever the builder and the accessor. -/
theorem kc_Exists_calls {σ : Type} (U : String → String)
    (builder : Option (mco.KCBuilder σ)) (s : σ)
    (out : Outcome (mco.KCBuilder σ) (Bool) σ mco.Call)
    (h : mco.KCBuilder.Exists U builder s = some out) : out.calls.length ≤ 1 := by
  unfold mco.KCBuilder.Exists at h
  dsimp only at h
  repeat' split at h
  all_goals first
    | (obtain rfl := Option.some.inj h; simp)
    | (exact absurd h (by simp))

/-- Create of a KCBuilder issues at most two calls. -/
theorem kc_Create_calls {σ : Type} (U : String → String)
    (builder : Option (mco.KCBuilder σ)) (s : σ)
    (out : Outcome (mco.KCBuilder σ) (Option (mco.KCBuilder σ) × Option GoError) σ mco.Call)
    (h : mco.KCBuilder.Create U builder s = some out) : out.calls.length ≤ 2 := by
  unfold mco.KCBuilder.Create at h
  dsimp only at h
  split at h
  · obtain rfl := Option.some.inj h; simp
  · split at h
    · exact absurd h (by simp)
    · next e he =>
      have := kc_Exists_calls U _ s e he
      repeat' split at h
      all_goals first
        | (obtain rfl := Option.some.inj h; simp; omega)
        | (exact absurd h (by simp))

/-- Delete of a KCBuilder issues at most two calls. -/
theorem kc_Delete_calls {σ : Type} (U : String → String)
    (builder : Option (mco.KCBuilder σ)) (s : σ)
    (out : Outcome (mco.KCBuilder σ) (Option GoError) σ mco.Call)
    (h : mco.KCBuilder.Delete U builder s = some out) : out.calls.length ≤ 2 := by
  unfold mco.KCBuilder.Delete at h
  dsimp only at h
  split at h
  · obtain rfl := Option.some.inj h; simp
  · split at h
    · exact absurd h (by simp)
    · next e he =>
      have := kc_Exists_calls U _ s e he
      repeat' split at h
      all_goals first
        | (obtain rfl := Option.some.inj h; simp; omega)
        | (exact absurd h (by simp))

/-- C28, as stated, fails: over the empty store, Create of the valid sample
LocalVolumeSet builder issues two calls on the accessor, the Get of the existence
check and the Create. -/
theorem C28_create_issues_two_calls :
    ∃ out, lso.LocalVolumeSetBuilder.Create msg.sampleUndefinedCrd (some lso.sampleBuilder) []
        = some out ∧
      out.calls = [goclient.Call.Get { Name := "lvs", Namespace := "ns" },
                   goclient.Call.Create { ObjectMeta := { Name := "lvs", Namespace := "ns" } }] ∧
      ¬ out.calls.length ≤ 1 :=
  ⟨_, rfl, rfl, by decide⟩

/-- C28 amended: for every builder state and every accessor behaviour, a lifecycle
operation that returns has issued at most two calls on the accessor.  Exists and Get
of the three builders and Delete of StorageClusterBuilder issue at most one; Create
and Update, and Delete of LocalVolumeSetBuilder and KCBuilder, issue at most two (the
existence check and the operation itself). -/
theorem C28_lifecycle_call_bounds :
    (∀ (σ : Type) (U : String → String) (builder : Option (lso.LocalVolumeSetBuilder σ))
        (s : σ),
      (∀ out, lso.LocalVolumeSetBuilder.Exists U builder s = some out →
        out.calls.length ≤ 1) ∧
      (∀ out, lso.LocalVolumeSetBuilder.Get U builder s = some out → out.calls.length ≤ 1) ∧
      (∀ out, lso.LocalVolumeSetBuilder.Create U builder s = some out →
        out.calls.length ≤ 2) ∧
      (∀ out, lso.LocalVolumeSetBuilder.Update U builder s = some out →
        out.calls.length ≤ 2) ∧
      (∀ out, lso.LocalVolumeSetBuilder.Delete U builder s = some out →
        out.calls.length ≤ 2)) ∧
    (∀ (σ : Type) (U : String → String) (builder : Option (storage.StorageClusterBuilder σ))
        (s : σ),
      (∀ out, storage.StorageClusterBuilder.Exists U builder s = some out →
        out.calls.length ≤ 1) ∧
      (∀ out, storage.StorageClusterBuilder.Get U builder s = some out →
        out.calls.length ≤ 1) ∧
      (∀ out, storage.StorageClusterBuilder.Create U builder s = some out →
        out.calls.length ≤ 2) ∧
      (∀ out, storage.StorageClusterBuilder.Update U builder s = some out →
        out.calls.length ≤ 2) ∧
      (∀ out, storage.StorageClusterBuilder.Delete U builder s = some out →
        out.calls.length ≤ 1)) ∧
    (∀ (σ : Type) (U : String → String) (builder : Option (mco.KCBuilder σ)) (s : σ),
      (∀ out, mco.KCBuilder.Exists U builder s = some out → out.calls.length ≤ 1) ∧
      (∀ out, mco.KCBuilder.Create U builder s = some out → out.calls.length ≤ 2) ∧
      (∀ out, mco.KCBuilder.Delete U builder s = some out → out.calls.length ≤ 2)) :=
  ⟨fun _ U builder s =>
      ⟨lvs_Exists_calls U builder s, lvs_Get_calls U builder s, lvs_Create_calls U builder s,
        lvs_Update_calls U builder s, lvs_Delete_calls U builder s⟩,
    fun _ U builder s =>
      ⟨sc_Exists_calls U builder s, sc_Get_calls U builder s, sc_Create_calls U builder s,
        sc_Update_calls U builder s, sc_Delete_calls U builder s⟩,
    fun _ U builder s =>
      ⟨kc_Exists_calls U builder s, kc_Create_calls U builder s, kc_Delete_calls U builder s⟩⟩

/-- C28 amended, at concrete inputs: Update of the pulled LocalVolumeSet builder over a
store that holds its object, Delete of the StorageCluster builder and Create of the
KubeletConfig builder over the empty store. -/
theorem C28_lifecycle_call_bounds_witness :
    (∃ out, lso.LocalVolumeSetBuilder.Update msg.sampleUndefinedCrd
        (some lso.samplePulledBuilder) [lso.sampleServed] = some out ∧
      out.calls.length ≤ 2) ∧
    (∃ out, storage.StorageClusterBuilder.Delete msg.sampleUndefinedCrd
        (some storage.sampleBuilder) [] = some out ∧ out.calls.length ≤ 1) ∧
    (∃ out, mco.KCBuilder.Create msg.sampleUndefinedCrd (some mco.sampleBuilder) []
        = some out ∧ out.calls.length ≤ 2) :=
  ⟨⟨_, rfl, (C28_lifecycle_call_bounds.1 _ msg.sampleUndefinedCrd
      (some lso.samplePulledBuilder) [lso.sampleServed]).2.2.2.1 _ rfl⟩,
    ⟨_, rfl, (C28_lifecycle_call_bounds.2.1 _ msg.sampleUndefinedCrd
      (some storage.sampleBuilder) []).2.2.2.2 _ rfl⟩,
    ⟨_, rfl, (C28_lifecycle_call_bounds.2.2 _ msg.sampleUndefinedCrd
      (some mco.sampleBuilder) []).2.1 _ rfl⟩⟩

/-- Every deferred error text that the constructor and the mutators of
LocalVolumeSetBuilder store is free of percent signs, so the gate reports it as it
is. -/
theorem lvs_stored_texts_reported_verbatim :
    ∀ t ∈ ["localVolumeSet 'name' cannot be empty", "localVolumeSet 'nsname' cannot be empty",
           "'generation' argument cannot be equal zero",
           "'storageClassName' argument cannot be empty",
           "'volumeMode' argument cannot be empty", "'fstype' argument cannot be empty",
           "'maxDeviceCount' argument cannot be equal zero"],
      (fmt.Errorf t).text = t := by
  decide

/-- Reading a map after a write: the written key yields the written value, every other
key what it yielded before. -/
theorem gomap_get_set (m : List (String × String)) (k v k1 : String) :
    gomap.get (gomap.set m k v) k1 = if k1 = k then some v else gomap.get m k1 := by
  induction m with
  | nil =>
    by_cases h : k1 = k
    · simp [gomap.set, gomap.get, h]
    · have h2 : ¬ k = k1 := fun e => h e.symm
      simp [gomap.set, gomap.get, h, h2]
  | cons e rest ih =>
    by_cases he : e.1 = k
    · by_cases h : k1 = k
      · simp [gomap.set, gomap.get, he, h]
      · have h2 : ¬ k = k1 := fun e => h e.symm
        simp [gomap.set, gomap.get, he, h, h2]
    · by_cases h : k1 = k
      · subst h
        simp [gomap.set, gomap.get, he, ih]
      · by_cases h3 : e.1 = k1
        · simp [gomap.set, gomap.get, he, h, h3]
        · simp [gomap.set, gomap.get, he, h, h3, ih]

/-- An option error reaches the caller of Create through `fmt.Errorf` used on the stored
text as a format: on a valid KCBuilder, after WithOptions with an option that returns
the builder and an error of non-empty text `t`, Create issues no call and returns the
error `fmt.Errorf(t)`, whose text is `t` when `t` has no percent sign. -/
theorem kc_option_error_is_formatted {σ : Type} (U : String → String) (d : mcv1.KubeletConfig)
    (o : Option mcv1.KubeletConfig) (st : mco.Settings σ) (t : String) (s : σ)
    (ht : t ≠ "") :
    ((mco.KCBuilder.WithOptions U
        (some { Definition := some d, Object := o, apiClient := some st, errorMsg := "" })
        [some (mco.failingOption t)]).bind
      (fun w => mco.KCBuilder.Create U w.ret s)).map (fun out => (out.ret.2, out.calls))
      = some (some (fmt.Errorf t), []) ∧
    ('%' ∉ t.toList → (fmt.Errorf t).text = t) := by
  refine ⟨?_, fun h => errorf_text_no_percent t h⟩
  simp [mco.KCBuilder.WithOptions, kc_validate_valid, mco.KCBuilder.applyOptions,
    mco.failingOption, mco.KCBuilder.Create, mco.KCBuilder.validate, ht]

/-- C31: the code at the failing inputs.  On the valid sample KCBuilder, WithOptions with
an option that returns the builder and an error of text "100%" stores "100%" as
deferred error, and Create then issues no call and returns an error whose message is
"100%!(NOVERB)", not "100%": the gate passes the stored text to `fmt.Errorf` as a
format.  The same holds for Create on a LocalVolumeSetBuilder whose deferred error
is "100%".  With an option error of empty text the deferred error stays empty and
Create goes on to the accessor (two calls) and returns a nil error. -/
theorem C31_deferred_error_text_is_formatted :
    (((mco.KCBuilder.WithOptions msg.sampleUndefinedCrd (some mco.sampleBuilder)
        [some (mco.failingOption "100%")]).bind
      (fun w => mco.KCBuilder.Create msg.sampleUndefinedCrd w.ret [])).map
      (fun o => (o.recv.map (fun b => b.errorMsg), o.ret.2.map (fun e => e.text), o.calls))
      = some (some "100%", some "100%!(NOVERB)", [])) ∧
    ((lso.LocalVolumeSetBuilder.Create msg.sampleUndefinedCrd
        (some { lso.sampleBuilder with errorMsg := "100%" }) []).map
      (fun o => (o.recv.map (fun b => b.errorMsg), o.ret.2.map (fun e => e.text), o.calls))
      = some (some "100%", some "100%!(NOVERB)", [])) ∧
    (((mco.KCBuilder.WithOptions msg.sampleUndefinedCrd (some mco.sampleBuilder)
        [some (mco.failingOption "")]).bind
      (fun w => mco.KCBuilder.Create msg.sampleUndefinedCrd w.ret [])).map
      (fun o => (o.recv.map (fun b => b.errorMsg), o.ret.2.map (fun e => e.text),
                 o.calls.length))
      = some (some "", none, 2)) := by
  refine ⟨by decide, by decide, by decide⟩

/-- WithAllAddonsDisabled on a valid ControlPlaneBuilder replaces `Spec.Addons` by the
all-disabled value and leaves everything else. -/
theorem cp_WithAllAddonsDisabled_valid {σ : Type} (U : String → String)
    (d : istioV2.ServiceMeshControlPlane) (o : Option istioV2.ServiceMeshControlPlane)
    (st : clients.Settings σ istioV2.ServiceMeshControlPlane) :
    servicemesh.ControlPlaneBuilder.WithAllAddonsDisabled U
      (some { Definition := some d, Object := o, errorMsg := "", apiClient := some st })
      = some (some { Definition := some { d with Spec := { d.Spec with
                       Addons := some servicemesh.allAddonsDisabled } }
                     Object := o, errorMsg := "", apiClient := some st }) := by
  simp [servicemesh.ControlPlaneBuilder.WithAllAddonsDisabled, cp_validate_valid, servicemesh.allAddonsDisabled]

/-- WithGrafanaAddon on a valid ControlPlaneBuilder sets the Grafana addon from its
arguments and leaves everything else. -/
theorem cp_WithGrafanaAddon_valid {σ : Type} (U : String → String)
    (d : istioV2.ServiceMeshControlPlane) (o : Option istioV2.ServiceMeshControlPlane)
    (st : clients.Settings σ istioV2.ServiceMeshControlPlane)
    (enablement : Bool) (install : Option istioV2.GrafanaInstallConfig)
    (address : Option String) :
    servicemesh.ControlPlaneBuilder.WithGrafanaAddon U
      (some { Definition := some d, Object := o, errorMsg := "", apiClient := some st })
      enablement install address
      = some (some { Definition := some { d with Spec := { d.Spec with
                       Addons := some { (d.Spec.Addons.getD {}) with
                         Grafana := some { Enablement := { Enabled := some enablement }
                                           Install := install, Address := address } } } }
                     Object := o, errorMsg := "", apiClient := some st }) := by
  rcases d with ⟨om, ⟨_ | ⟨p, s, j, _ | g, k, t⟩, gw⟩⟩ <;>
    simp [servicemesh.ControlPlaneBuilder.WithGrafanaAddon, cp_validate_valid]

/-- WithKialiAddon on a valid ControlPlaneBuilder sets the Kiali addon, which has an
install configuration, and leaves everything else. -/
theorem cp_WithKialiAddon_valid {σ : Type} (U : String → String)
    (d : istioV2.ServiceMeshControlPlane) (o : Option istioV2.ServiceMeshControlPlane)
    (st : clients.Settings σ istioV2.ServiceMeshControlPlane)
    (enablement : Bool) (name : String)
    (dashboardViewOnly dashboardEnableGrafana dashboardEnablePrometheus
      dashboardEnableTracing : Bool)
    (serviceLabels serviceAnnotations : Option (List (String × String)))
    (serviceNodePort : Int) (ingressEnablement : Bool)
    (ingressLabels ingressAnnotations : Option (List (String × String)))
    (ingressHosts : Option (List String)) (ingressContextPath : String)
    (ingressTLS : istioV1.HelmValues) :
    ∃ install : istioV2.KialiInstallConfig,
    servicemesh.ControlPlaneBuilder.WithKialiAddon U
      (some { Definition := some d, Object := o, errorMsg := "", apiClient := some st })
      enablement name dashboardViewOnly dashboardEnableGrafana dashboardEnablePrometheus
      dashboardEnableTracing serviceLabels serviceAnnotations serviceNodePort
      ingressEnablement ingressLabels ingressAnnotations ingressHosts ingressContextPath
      ingressTLS
      = some (some { Definition := some { d with Spec := { d.Spec with
                       Addons := some { (d.Spec.Addons.getD {}) with
                         Kiali := some { Enablement := { Enabled := some enablement }
                                         Name := name, Install := some install } } } }
                     Object := o, errorMsg := "", apiClient := some st }) := by
  rcases d with ⟨om, ⟨_ | ⟨p, s, j, g, _ | k, t⟩, gw⟩⟩ <;>
    exact ⟨_, by
      unfold servicemesh.ControlPlaneBuilder.WithKialiAddon
      rw [cp_validate_valid]; rfl⟩

/-- WithJaegerAddon on a valid ControlPlaneBuilder sets the Jaeger addon, which has a
storage configuration, and leaves everything else. -/
theorem cp_WithJaegerAddon_valid {σ : Type} (U : String → String)
    (d : istioV2.ServiceMeshControlPlane) (o : Option istioV2.ServiceMeshControlPlane)
    (st : clients.Settings σ istioV2.ServiceMeshControlPlane)
    (name : String) (storageType : String)
    (memoryStorageMaxTraces : Int) (elasticSearchNodesCount : Int)
    (elasticsearchStorage : istioV1.HelmValues) (elasticsearchRedundancyPolicy : String)
    (elasticsearchIndexCleaner : istioV1.HelmValues) (ingressEnablement : Bool)
    (ingressLabels ingressAnnotations : Option (List (String × String))) :
    ∃ (storage : istioV2.JaegerStorageConfig) (ingress : Option istioV2.JaegerIngressConfig),
    servicemesh.ControlPlaneBuilder.WithJaegerAddon U
      (some { Definition := some d, Object := o, errorMsg := "", apiClient := some st })
      name storageType memoryStorageMaxTraces elasticSearchNodesCount elasticsearchStorage
      elasticsearchRedundancyPolicy elasticsearchIndexCleaner ingressEnablement
      ingressLabels ingressAnnotations
      = some (some { Definition := some { d with Spec := { d.Spec with
                       Addons := some { (d.Spec.Addons.getD {}) with
                         Jaeger := some { Name := name, Install := some {
                           Storage := some storage, Ingress := ingress } } } } }
                     Object := o, errorMsg := "", apiClient := some st }) := by
  rcases d with ⟨om, ⟨_ | ⟨p, s, _ | j, g, k, t⟩, gw⟩⟩ <;>
    exact ⟨_, _, by
      unfold servicemesh.ControlPlaneBuilder.WithJaegerAddon
      rw [cp_validate_valid]; rfl⟩

/-- WithPrometheusAddon on a valid ControlPlaneBuilder sets the Prometheus addon, which
has an install configuration, and leaves everything else. -/
theorem cp_WithPrometheusAddon_valid {σ : Type} (U : String → String)
    (d : istioV2.ServiceMeshControlPlane) (o : Option istioV2.ServiceMeshControlPlane)
    (st : clients.Settings σ istioV2.ServiceMeshControlPlane)
    (enablement : Bool) (metricsExpiryDuration : String) (scrape : Bool)
    (installRetention installScrapeInterval : String)
    (serviceLabels serviceAnnotations : Option (List (String × String)))
    (serviceNodePort : Int) (ingressEnablement : Bool)
    (ingressLabels ingressAnnotations : Option (List (String × String)))
    (ingressHosts : Option (List String)) (ingressContextPath : String)
    (ingressTLS : istioV1.HelmValues) (useTLS : Bool) (address : String) :
    ∃ install : istioV2.PrometheusInstallConfig,
    servicemesh.ControlPlaneBuilder.WithPrometheusAddon U
      (some { Definition := some d, Object := o, errorMsg := "", apiClient := some st })
      enablement metricsExpiryDuration scrape installRetention installScrapeInterval
      serviceLabels serviceAnnotations serviceNodePort ingressEnablement ingressLabels
      ingressAnnotations ingressHosts ingressContextPath ingressTLS useTLS address
      = some (some { Definition := some { d with Spec := { d.Spec with
                       Addons := some { (d.Spec.Addons.getD {}) with
                         Prometheus := some { Enablement := { Enabled := some enablement }
                                              MetricsExpiryDuration := metricsExpiryDuration
                                              Scrape := some scrape
                                              Install := some install
                                              Address := some address } } } }
                     Object := o, errorMsg := "", apiClient := some st }) := by
  rcases d with ⟨om, ⟨_ | ⟨_ | p, s, j, g, k, t⟩, gw⟩⟩ <;>
    exact ⟨_, by
      unfold servicemesh.ControlPlaneBuilder.WithPrometheusAddon
      rw [cp_validate_valid]; rfl⟩

/-- C32, counterexample: on the valid sample ControlPlaneBuilder, WithAllAddonsDisabled
followed by WithGrafanaAddon(true, nil, nil) yields a Definition whose Grafana addon
is enabled, while WithGrafanaAddon(true, nil, nil) followed by WithAllAddonsDisabled
yields the Definition with every addon disabled: the two orders give different
Definitions. -/
theorem C32_disabling_after_grafana_differs :
    (servicemesh.ControlPlaneBuilder.validate msg.sampleUndefinedCrd
      (some servicemesh.sampleControlPlaneBuilder)).2.1 = true ∧
    (((servicemesh.ControlPlaneBuilder.WithAllAddonsDisabled msg.sampleUndefinedCrd
          (some servicemesh.sampleControlPlaneBuilder)).bind
        (fun b1 => servicemesh.ControlPlaneBuilder.WithGrafanaAddon msg.sampleUndefinedCrd b1
          true none none)).map (fun r => r.bind (fun b => b.Definition))
      = some (some
          { ObjectMeta := { Name := "cp", Namespace := "ns" }
            Spec := { Addons := some { servicemesh.allAddonsDisabled with
              Grafana := some { Enablement := { Enabled := some true } } } } })) ∧
    (((servicemesh.ControlPlaneBuilder.WithGrafanaAddon msg.sampleUndefinedCrd
          (some servicemesh.sampleControlPlaneBuilder) true none none).bind
        (fun b1 => servicemesh.ControlPlaneBuilder.WithAllAddonsDisabled
          msg.sampleUndefinedCrd b1)).map (fun r => r.bind (fun b => b.Definition))
      = some (some
          { ObjectMeta := { Name := "cp", Namespace := "ns" }
            Spec := { Addons := some servicemesh.allAddonsDisabled } })) ∧
    (some { servicemesh.allAddonsDisabled with
        Grafana := some { Enablement := { Enabled := some true } } }
      ≠ some servicemesh.allAddonsDisabled) := by
  refine ⟨by rfl, by decide, by decide, by decide⟩

/-- C32, amended: WithAllAddonsDisabled and an addon mutator do not commute; the last
one wins.  For every valid ControlPlaneBuilder and all arguments: an addon mutator
(WithGrafanaAddon, WithKialiAddon, WithJaegerAddon, WithPrometheusAddon) followed by
WithAllAddonsDisabled yields the Definition with `Spec.Addons` all disabled, as if the
addon mutator had not been applied; WithAllAddonsDisabled followed by the addon
mutator yields the all-disabled Addons with that one addon replaced by the one built
from the arguments.  For WithGrafanaAddon the two orders agree exactly when the
arguments are (false, nil, nil); for the other three the addon built differs from the
disabled one, so the two orders never agree. -/
theorem C32_disabling_all_addons_is_last_write_wins :
    ∀ (σ : Type) (U : String → String) (b : servicemesh.ControlPlaneBuilder σ)
      (d : istioV2.ServiceMeshControlPlane),
    (servicemesh.ControlPlaneBuilder.validate U (some b)).2.1 = true →
    b.Definition = some d →
    (∀ (enablement : Bool) (install : Option istioV2.GrafanaInstallConfig)
        (address : Option String),
      (servicemesh.ControlPlaneBuilder.WithGrafanaAddon U (some b) enablement install
          address).bind (fun b1 => servicemesh.ControlPlaneBuilder.WithAllAddonsDisabled U b1)
        = some (some { b with Definition := some { d with Spec := { d.Spec with
            Addons := some servicemesh.allAddonsDisabled } } }) ∧
      (servicemesh.ControlPlaneBuilder.WithAllAddonsDisabled U (some b)).bind
          (fun b1 => servicemesh.ControlPlaneBuilder.WithGrafanaAddon U b1 enablement install
            address)
        = some (some { b with Definition := some { d with Spec := { d.Spec with
            Addons := some { servicemesh.allAddonsDisabled with
              Grafana := some { Enablement := { Enabled := some enablement }
                                Install := install, Address := address } } } } }) ∧
      ((servicemesh.ControlPlaneBuilder.WithAllAddonsDisabled U (some b)).bind
          (fun b1 => servicemesh.ControlPlaneBuilder.WithGrafanaAddon U b1 enablement install
            address)
        = (servicemesh.ControlPlaneBuilder.WithGrafanaAddon U (some b) enablement install
          address).bind (fun b1 => servicemesh.ControlPlaneBuilder.WithAllAddonsDisabled U b1)
        ↔ enablement = false ∧ install = none ∧ address = none)) ∧
    (∀ (enablement : Bool) (name : String)
        (dashboardViewOnly dashboardEnableGrafana dashboardEnablePrometheus
          dashboardEnableTracing : Bool)
        (serviceLabels serviceAnnotations : Option (List (String × String)))
        (serviceNodePort : Int) (ingressEnablement : Bool)
        (ingressLabels ingressAnnotations : Option (List (String × String)))
        (ingressHosts : Option (List String)) (ingressContextPath : String)
        (ingressTLS : istioV1.HelmValues),
      (servicemesh.ControlPlaneBuilder.WithKialiAddon U (some b) enablement name
          dashboardViewOnly dashboardEnableGrafana dashboardEnablePrometheus
          dashboardEnableTracing serviceLabels serviceAnnotations serviceNodePort
          ingressEnablement ingressLabels ingressAnnotations ingressHosts ingressContextPath
          ingressTLS).bind
          (fun b1 => servicemesh.ControlPlaneBuilder.WithAllAddonsDisabled U b1)
        = some (some { b with Definition := some { d with Spec := { d.Spec with
            Addons := some servicemesh.allAddonsDisabled } } }) ∧
      ∃ kiali : istioV2.KialiAddonConfig,
        some kiali ≠ servicemesh.allAddonsDisabled.Kiali ∧
        (servicemesh.ControlPlaneBuilder.WithAllAddonsDisabled U (some b)).bind
            (fun b1 => servicemesh.ControlPlaneBuilder.WithKialiAddon U b1 enablement name
              dashboardViewOnly dashboardEnableGrafana dashboardEnablePrometheus
              dashboardEnableTracing serviceLabels serviceAnnotations serviceNodePort
              ingressEnablement ingressLabels ingressAnnotations ingressHosts
              ingressContextPath ingressTLS)
          = some (some { b with Definition := some { d with Spec := { d.Spec with
              Addons := some { servicemesh.allAddonsDisabled with Kiali := some kiali } } } })) ∧
    (∀ (name : String) (storageType : String)
        (memoryStorageMaxTraces : Int) (elasticSearchNodesCount : Int)
        (elasticsearchStorage : istioV1.HelmValues) (elasticsearchRedundancyPolicy : String)
        (elasticsearchIndexCleaner : istioV1.HelmValues) (ingressEnablement : Bool)
        (ingressLabels ingressAnnotations : Option (List (String × String))),
      (servicemesh.ControlPlaneBuilder.WithJaegerAddon U (some b) name storageType
          memoryStorageMaxTraces elasticSearchNodesCount elasticsearchStorage
          elasticsearchRedundancyPolicy elasticsearchIndexCleaner ingressEnablement
          ingressLabels ingressAnnotations).bind
          (fun b1 => servicemesh.ControlPlaneBuilder.WithAllAddonsDisabled U b1)
        = some (some { b with Definition := some { d with Spec := { d.Spec with
            Addons := some servicemesh.allAddonsDisabled } } }) ∧
      ∃ jaeger : istioV2.JaegerAddonConfig,
        some jaeger ≠ servicemesh.allAddonsDisabled.Jaeger ∧
        (servicemesh.ControlPlaneBuilder.WithAllAddonsDisabled U (some b)).bind
            (fun b1 => servicemesh.ControlPlaneBuilder.WithJaegerAddon U b1 name storageType
              memoryStorageMaxTraces elasticSearchNodesCount elasticsearchStorage
              elasticsearchRedundancyPolicy elasticsearchIndexCleaner ingressEnablement
              ingressLabels ingressAnnotations)
          = some (some { b with Definition := some { d with Spec := { d.Spec with
              Addons := some { servicemesh.allAddonsDisabled with
                Jaeger := some jaeger } } } })) ∧
    (∀ (enablement : Bool) (metricsExpiryDuration : String) (scrape : Bool)
        (installRetention installScrapeInterval : String)
        (serviceLabels serviceAnnotations : Option (List (String × String)))
        (serviceNodePort : Int) (ingressEnablement : Bool)
        (ingressLabels ingressAnnotations : Option (List (String × String)))
        (ingressHosts : Option (List String)) (ingressContextPath : String)
        (ingressTLS : istioV1.HelmValues) (useTLS : Bool) (address : String),
      (servicemesh.ControlPlaneBuilder.WithPrometheusAddon U (some b) enablement
          metricsExpiryDuration scrape installRetention installScrapeInterval serviceLabels
          serviceAnnotations serviceNodePort ingressEnablement ingressLabels
          ingressAnnotations ingressHosts ingressContextPath ingressTLS useTLS address).bind
          (fun b1 => servicemesh.ControlPlaneBuilder.WithAllAddonsDisabled U b1)
        = some (some { b with Definition := some { d with Spec := { d.Spec with
            Addons := some servicemesh.allAddonsDisabled } } }) ∧
      ∃ prometheus : istioV2.PrometheusAddonConfig,
        some prometheus ≠ servicemesh.allAddonsDisabled.Prometheus ∧
        (servicemesh.ControlPlaneBuilder.WithAllAddonsDisabled U (some b)).bind
            (fun b1 => servicemesh.ControlPlaneBuilder.WithPrometheusAddon U b1 enablement
              metricsExpiryDuration scrape installRetention installScrapeInterval
              serviceLabels serviceAnnotations serviceNodePort ingressEnablement ingressLabels
              ingressAnnotations ingressHosts ingressContextPath ingressTLS useTLS address)
          = some (some { b with Definition := some { d with Spec := { d.Spec with
              Addons := some { servicemesh.allAddonsDisabled with
                Prometheus := some prometheus } } } })) := by
  intro σ U b d hv hd
  obtain ⟨o, st, rfl⟩ := (cp_validate_true_iff U b d hd).1 hv
  refine ⟨?_, ?_, ?_, ?_⟩
  · intro e i a
    have h1 : (servicemesh.ControlPlaneBuilder.WithGrafanaAddon U
        (some { Definition := some d, Object := o, errorMsg := "", apiClient := some st })
        e i a).bind (fun b1 => servicemesh.ControlPlaneBuilder.WithAllAddonsDisabled U b1)
        = some (some { Definition := some { d with Spec := { d.Spec with
            Addons := some servicemesh.allAddonsDisabled } }
                       Object := o, errorMsg := "", apiClient := some st }) := by
      rw [cp_WithGrafanaAddon_valid]
      simp only [Option.some_bind]
      rw [cp_WithAllAddonsDisabled_valid]
    have h2 : (servicemesh.ControlPlaneBuilder.WithAllAddonsDisabled U
        (some { Definition := some d, Object := o, errorMsg := "", apiClient := some st })).bind
        (fun b1 => servicemesh.ControlPlaneBuilder.WithGrafanaAddon U b1 e i a)
        = some (some { Definition := some { d with Spec := { d.Spec with
            Addons := some { servicemesh.allAddonsDisabled with
              Grafana := some { Enablement := { Enabled := some e }
                                Install := i, Address := a } } } }
                       Object := o, errorMsg := "", apiClient := some st }) := by
      rw [cp_WithAllAddonsDisabled_valid]
      simp only [Option.some_bind]
      rw [cp_WithGrafanaAddon_valid]
      rfl
    refine ⟨h1, h2, ?_⟩
    rw [h1, h2]
    simp [servicemesh.allAddonsDisabled]
  · intro a1 a2 a3 a4 a5 a6 a7 a8 a9 a10 a11 a12 a13 a14 a15
    obtain ⟨ins, hk⟩ := cp_WithKialiAddon_valid U d o st a1 a2 a3 a4 a5 a6 a7 a8 a9 a10 a11
      a12 a13 a14 a15
    obtain ⟨ins2, hk2⟩ := cp_WithKialiAddon_valid U
      { d with Spec := { d.Spec with Addons := some servicemesh.allAddonsDisabled } } o st
      a1 a2 a3 a4 a5 a6 a7 a8 a9 a10 a11 a12 a13 a14 a15
    refine ⟨?_, { Enablement := { Enabled := some a1 }, Name := a2, Install := some ins2 }, ?_, ?_⟩
    · rw [hk]
      simp only [Option.some_bind]
      rw [cp_WithAllAddonsDisabled_valid]
    · simp [servicemesh.allAddonsDisabled]
    · rw [cp_WithAllAddonsDisabled_valid]
      simp only [Option.some_bind]
      rw [hk2]
      rfl
  · intro a1 a2 a3 a4 a5 a6 a7 a8 a9 a10
    obtain ⟨sto, ing, hk⟩ := cp_WithJaegerAddon_valid U d o st a1 a2 a3 a4 a5 a6 a7 a8 a9 a10
    obtain ⟨sto2, ing2, hk2⟩ := cp_WithJaegerAddon_valid U
      { d with Spec := { d.Spec with Addons := some servicemesh.allAddonsDisabled } } o st
      a1 a2 a3 a4 a5 a6 a7 a8 a9 a10
    refine ⟨?_, { Name := a1, Install := some { Storage := some sto2, Ingress := ing2 } }, ?_, ?_⟩
    · rw [hk]
      simp only [Option.some_bind]
      rw [cp_WithAllAddonsDisabled_valid]
    · simp [servicemesh.allAddonsDisabled]
    · rw [cp_WithAllAddonsDisabled_valid]
      simp only [Option.some_bind]
      rw [hk2]
      rfl
  · intro a1 a2 a3 a4 a5 a6 a7 a8 a9 a10 a11 a12 a13 a14 a15 a16
    obtain ⟨ins, hk⟩ := cp_WithPrometheusAddon_valid U d o st a1 a2 a3 a4 a5 a6 a7 a8 a9 a10
      a11 a12 a13 a14 a15 a16
    obtain ⟨ins2, hk2⟩ := cp_WithPrometheusAddon_valid U
      { d with Spec := { d.Spec with Addons := some servicemesh.allAddonsDisabled } } o st
      a1 a2 a3 a4 a5 a6 a7 a8 a9 a10 a11 a12 a13 a14 a15 a16
    refine ⟨?_, ⟨{ Enabled := some a1 }, a2, some a3, some ins2, some a16⟩, ?_, ?_⟩
    · rw [hk]
      simp only [Option.some_bind]
      rw [cp_WithAllAddonsDisabled_valid]
    · simp [servicemesh.allAddonsDisabled]
    · rw [cp_WithAllAddonsDisabled_valid]
      simp only [Option.some_bind]
      rw [hk2]
      rfl

/-- C32 (amended) at a concrete input: on the valid sample ControlPlaneBuilder with the
arguments (true, nil, nil), WithGrafanaAddon followed by WithAllAddonsDisabled yields
the all-disabled Addons, and the other order yields them with Grafana enabled. -/
theorem C32_disabling_all_addons_is_last_write_wins_witness :
    (servicemesh.ControlPlaneBuilder.validate msg.sampleUndefinedCrd
      (some servicemesh.sampleControlPlaneBuilder)).2.1 = true ∧
    (servicemesh.ControlPlaneBuilder.WithGrafanaAddon msg.sampleUndefinedCrd
        (some servicemesh.sampleControlPlaneBuilder) true none none).bind
        (fun b1 => servicemesh.ControlPlaneBuilder.WithAllAddonsDisabled
          msg.sampleUndefinedCrd b1)
      = some (some { servicemesh.sampleControlPlaneBuilder with
          Definition := some {
            ObjectMeta := { Name := "cp", Namespace := "ns" }
            Spec := { Addons := some servicemesh.allAddonsDisabled } } }) ∧
    (servicemesh.ControlPlaneBuilder.WithAllAddonsDisabled msg.sampleUndefinedCrd
        (some servicemesh.sampleControlPlaneBuilder)).bind
        (fun b1 => servicemesh.ControlPlaneBuilder.WithGrafanaAddon msg.sampleUndefinedCrd b1
          true none none)
      = some (some { servicemesh.sampleControlPlaneBuilder with
          Definition := some {
            ObjectMeta := { Name := "cp", Namespace := "ns" }
            Spec := { Addons := some { servicemesh.allAddonsDisabled with
              Grafana := some { Enablement := { Enabled := some true } } } } } }) :=
  ⟨rfl,
    ((C32_disabling_all_addons_is_last_write_wins _ msg.sampleUndefinedCrd
      servicemesh.sampleControlPlaneBuilder
      { ObjectMeta := { Name := "cp", Namespace := "ns" } } rfl rfl).1 true none none).1,
    ((C32_disabling_all_addons_is_last_write_wins _ msg.sampleUndefinedCrd
      servicemesh.sampleControlPlaneBuilder
      { ObjectMeta := { Name := "cp", Namespace := "ns" } } rfl rfl).1 true none none).2.1⟩

/-- C33: for every valid ControlPlaneBuilder, WithAllAddonsDisabled sets `Spec.Addons` to a
value that does not depend on the previous one: Prometheus, Grafana and Kiali present
with `Enabled` false, Jaeger present with the `Enabled` of its ingress false,
Stackdriver and ThreeScale absent; every other field of Definition and of the builder
is unchanged, and applying the mutator a second time changes nothing. -/
theorem C33_withAllAddonsDisabled_overwrites_addons :
    ∀ (σ : Type) (U : String → String) (b : servicemesh.ControlPlaneBuilder σ)
      (d : istioV2.ServiceMeshControlPlane),
    (servicemesh.ControlPlaneBuilder.validate U (some b)).2.1 = true →
    b.Definition = some d →
    servicemesh.ControlPlaneBuilder.WithAllAddonsDisabled U (some b)
      = some (some { b with Definition := some { d with Spec := { d.Spec with
          Addons := some
            { Prometheus := some { Enablement := { Enabled := some false } }
              Stackdriver := none
              Jaeger := some { Install := some { Ingress := some {
                Enablement := { Enabled := some false } } } }
              Grafana := some { Enablement := { Enabled := some false } }
              Kiali := some { Enablement := { Enabled := some false } }
              ThreeScale := none } } } }) ∧
    (servicemesh.ControlPlaneBuilder.WithAllAddonsDisabled U (some b)).bind
        (fun b1 => servicemesh.ControlPlaneBuilder.WithAllAddonsDisabled U b1)
      = servicemesh.ControlPlaneBuilder.WithAllAddonsDisabled U (some b) := by
  intro σ U b d hv hd
  obtain ⟨o, st, rfl⟩ := (cp_validate_true_iff U b d hd).1 hv
  refine ⟨?_, ?_⟩
  · rw [cp_WithAllAddonsDisabled_valid]; rfl
  · rw [cp_WithAllAddonsDisabled_valid]
    simp only [Option.some_bind]
    rw [cp_WithAllAddonsDisabled_valid]

/-- C33 at a concrete input: on a valid builder whose Definition has Grafana enabled,
Stackdriver configured and gateways enabled, WithAllAddonsDisabled leaves Grafana
disabled and Stackdriver absent, and keeps the gateways. -/
theorem C33_withAllAddonsDisabled_overwrites_addons_witness :
    (servicemesh.ControlPlaneBuilder.validate msg.sampleUndefinedCrd (some servicemesh.sampleConfiguredBuilder)).2.1
      = true ∧
    servicemesh.ControlPlaneBuilder.WithAllAddonsDisabled msg.sampleUndefinedCrd
        (some servicemesh.sampleConfiguredBuilder)
      = some (some { servicemesh.sampleConfiguredBuilder with
          Definition := some {
            ObjectMeta := { Name := "cp", Namespace := "ns" }
            Spec := { Addons := some
                        { Prometheus := some { Enablement := { Enabled := some false } }
                          Stackdriver := none
                          Jaeger := some { Install := some { Ingress := some {
                            Enablement := { Enabled := some false } } } }
                          Grafana := some { Enablement := { Enabled := some false } }
                          Kiali := some { Enablement := { Enabled := some false } }
                          ThreeScale := none }
                      Gateways := some { Enablement := { Enabled := some true } } } } }) :=
  ⟨rfl,
    (C33_withAllAddonsDisabled_overwrites_addons _ msg.sampleUndefinedCrd
      servicemesh.sampleConfiguredBuilder _ rfl rfl).1⟩

/-- WithSystemReserved on a valid KCBuilder with non-empty arguments stores a
KubeletConfiguration whose SystemReserved map is keyed by the two arguments themselves:
a key yields a value exactly when it is one of the arguments, and the value is the
key. -/
theorem kc_WithSystemReserved_valid {σ : Type} (U : String → String) (d : mcv1.KubeletConfig)
    (o : Option mcv1.KubeletConfig) (st : mco.Settings σ) (cpu memory : String)
    (hc : cpu ≠ "") (hm : memory ≠ "") :
    ∃ reserved : List (String × String),
      mco.KCBuilder.WithSystemReserved U
        (some { Definition := some d, Object := o, apiClient := some st, errorMsg := "" })
        cpu memory
        = some (some
            { Definition := some { d with Spec := { d.Spec with
                KubeletConfig := some
                  { Raw := some ((d.Spec.KubeletConfig.bind (fun r => r.Raw)).getD [])
                    Object := some { SystemReserved := some reserved } } } }
              Object := o, apiClient := some st, errorMsg := "" }) ∧
      ∀ k : String, gomap.get reserved k
        = if k = memory then some memory else if k = cpu then some cpu else none := by
  refine ⟨gomap.set (gomap.set [] cpu cpu) memory memory, ?_, ?_⟩
  rotate_left
  · intro k
    rw [gomap_get_set, gomap_get_set]
    rfl
  · rcases d with ⟨om, ⟨sel, _ | ⟨_ | raw, ob⟩⟩⟩ <;>
      simp [mco.KCBuilder.WithSystemReserved, kc_validate_valid, hc, hm]

/-- WithSystemReserved on a valid KCBuilder with an empty argument leaves Definition as it
is and records the deferred error of the first empty argument. -/
theorem kc_WithSystemReserved_empty {σ : Type} (U : String → String) (d : mcv1.KubeletConfig)
    (o : Option mcv1.KubeletConfig) (st : mco.Settings σ) (cpu memory : String) :
    mco.KCBuilder.WithSystemReserved U
        (some { Definition := some d, Object := o, apiClient := some st, errorMsg := "" })
        "" memory
      = some (some { Definition := some d, Object := o, apiClient := some st
                     errorMsg := "'cpu' cannot be empty" }) ∧
    (cpu ≠ "" →
      mco.KCBuilder.WithSystemReserved U
          (some { Definition := some d, Object := o, apiClient := some st, errorMsg := "" })
          cpu ""
        = some (some { Definition := some d, Object := o, apiClient := some st
                       errorMsg := "'memory' cannot be empty" })) := by
  refine ⟨?_, ?_⟩
  · simp [mco.KCBuilder.WithSystemReserved, kc_validate_valid]
  · intro hc
    simp [mco.KCBuilder.WithSystemReserved, kc_validate_valid, hc]

/-- C34: the code at the failing input.  On the valid sample KCBuilder,
WithSystemReserved("500m", "1Gi") stores the SystemReserved map with the entries
"500m" -> "500m" and "1Gi" -> "1Gi": the arguments are used as keys as well as
values, and the map has no entry under "cpu" or under "memory". -/
theorem C34_withSystemReserved_keys_are_the_values :
    mco.KCBuilder.WithSystemReserved msg.sampleUndefinedCrd (some mco.sampleBuilder)
        "500m" "1Gi"
      = some (some { mco.sampleBuilder with
          Definition := some
            { ObjectMeta := { Name := "kc" }
              Spec := { KubeletConfig := some { Raw := some [], Object := some {
                SystemReserved := some [("500m", "500m"), ("1Gi", "1Gi")] } } } } }) ∧
    gomap.get [("500m", "500m"), ("1Gi", "1Gi")] "cpu" = none ∧
    gomap.get [("500m", "500m"), ("1Gi", "1Gi")] "memory" = none ∧
    gomap.get [("500m", "500m"), ("1Gi", "1Gi")] "500m" = some "500m" ∧
    gomap.get [("500m", "500m"), ("1Gi", "1Gi")] "1Gi" = some "1Gi" := by
  refine ⟨by rfl, by decide, by decide, by decide, by decide⟩

/-- WithMCPoolSelector on a valid KCBuilder with a non-empty key writes the label into the
`MatchLabels` of the pool selector, both created if nil, and leaves everything
else. -/
theorem kc_WithMCPoolSelector_valid {σ : Type} (U : String → String) (d : mcv1.KubeletConfig)
    (o : Option mcv1.KubeletConfig) (st : mco.Settings σ) (key value : String)
    (hk : key ≠ "") :
    mco.KCBuilder.WithMCPoolSelector U
      (some { Definition := some d, Object := o, apiClient := some st, errorMsg := "" })
      key value
      = some (some
          { Definition := some { d with Spec := { d.Spec with
              MachineConfigPoolSelector := some
                { (d.Spec.MachineConfigPoolSelector.getD {}) with
                  MatchLabels := some (gomap.set
                    ((d.Spec.MachineConfigPoolSelector.getD {}).MatchLabels.getD [])
                    key value) } } }
            Object := o, apiClient := some st, errorMsg := "" }) := by
  rcases d with ⟨om, ⟨_ | ⟨_ | ml, me⟩, kcfg⟩⟩ <;>
    simp [mco.KCBuilder.WithMCPoolSelector, kc_validate_valid, hk]

/-- C35: for every valid KCBuilder, every non-empty key `k` and every value `v`,
WithMCPoolSelector(k, v) changes nothing but the `MatchLabels` of the pool selector of
Definition (the selector is created if nil and keeps its other field), and the new
labels map `k` to `v` and every other key as the old labels did (nothing for a nil
selector or nil labels); with an empty key it leaves Definition as it is and sets the
deferred error to "'key' cannot be empty". -/
theorem C35_withMCPoolSelector_adds_one_label :
    ∀ (σ : Type) (U : String → String) (b : mco.KCBuilder σ) (d : mcv1.KubeletConfig),
    (mco.KCBuilder.validate U (some b)).2.1 = true →
    b.Definition = some d →
    (∀ k v : String, k ≠ "" →
      ∃ labels : List (String × String),
        mco.KCBuilder.WithMCPoolSelector U (some b) k v
          = some (some { b with
              Definition := some { d with Spec := { d.Spec with
                MachineConfigPoolSelector := some
                  { (d.Spec.MachineConfigPoolSelector.getD {}) with
                    MatchLabels := some labels } } } }) ∧
        ∀ k1 : String, gomap.get labels k1
          = if k1 = k then some v
            else gomap.get
              ((d.Spec.MachineConfigPoolSelector.bind (fun sel => sel.MatchLabels)).getD [])
              k1) ∧
    (∀ v : String,
      mco.KCBuilder.WithMCPoolSelector U (some b) "" v
        = some (some { b with errorMsg := "'key' cannot be empty" })) := by
  intro σ U b d hv hd
  obtain ⟨o, st, rfl⟩ := (kc_validate_true_iff U b d hd).1 hv
  refine ⟨?_, ?_⟩
  · intro k v hk
    refine ⟨_, kc_WithMCPoolSelector_valid U d o st k v hk, ?_⟩
    intro k1
    rw [gomap_get_set]
    rcases d with ⟨om, ⟨_ | ⟨ml, me⟩, kcfg⟩⟩ <;> rfl
  · intro v
    simp [mco.KCBuilder.WithMCPoolSelector, kc_validate_valid]

/-- C35 at a concrete input: on the valid sample builder, WithMCPoolSelector("role",
"worker") yields labels that map "role" to "worker" and nothing else, and
WithMCPoolSelector("", "worker") records the deferred error. -/
theorem C35_withMCPoolSelector_adds_one_label_witness :
    (mco.KCBuilder.validate msg.sampleUndefinedCrd (some mco.sampleBuilder)).2.1 = true ∧
    (∃ labels : List (String × String),
      mco.KCBuilder.WithMCPoolSelector msg.sampleUndefinedCrd (some mco.sampleBuilder)
          "role" "worker"
        = some (some { mco.sampleBuilder with
            Definition := some
              { ObjectMeta := { Name := "kc" }
                Spec := { MachineConfigPoolSelector := some { MatchLabels := some labels } } } }) ∧
      ∀ k1 : String, gomap.get labels k1 = if k1 = "role" then some "worker" else none) ∧
    mco.KCBuilder.WithMCPoolSelector msg.sampleUndefinedCrd (some mco.sampleBuilder) "" "worker"
      = some (some { mco.sampleBuilder with errorMsg := "'key' cannot be empty" }) :=
  ⟨rfl,
    (C35_withMCPoolSelector_adds_one_label _ msg.sampleUndefinedCrd mco.sampleBuilder
      { ObjectMeta := { Name := "kc" } } rfl rfl).1 "role" "worker" (by decide),
    (C35_withMCPoolSelector_adds_one_label _ msg.sampleUndefinedCrd mco.sampleBuilder
      { ObjectMeta := { Name := "kc" } } rfl rfl).2 "worker"⟩

/-- The positions `nonNil` reports are at least the first position. -/
theorem nonNil_positions_ge {α : Type} (options : List (Option α)) :
    ∀ (i : Nat) (p : Nat × α), p ∈ mco.nonNil i options → i ≤ p.1 := by
  induction options with
  | nil => intro i p hp; simp [mco.nonNil] at hp
  | cons o rest ih =>
    intro i p hp
    cases o with
    | none =>
      simp only [mco.nonNil] at hp
      exact Nat.le_of_succ_le (ih (i + 1) p hp)
    | some a =>
      simp only [mco.nonNil, List.mem_cons] at hp
      rcases hp with rfl | hp
      · exact le_refl _
      · exact Nat.le_of_succ_le (ih (i + 1) p hp)

/-- The positions `nonNil` reports are strictly increasing. -/
theorem nonNil_positions_increasing {α : Type} (options : List (Option α)) :
    ∀ i : Nat, ((mco.nonNil i options).map (fun p => p.1)).Pairwise (fun a b => a < b) := by
  induction options with
  | nil => intro i; simp [mco.nonNil]
  | cons o rest ih =>
    intro i
    cases o with
    | none => simpa [mco.nonNil] using ih (i + 1)
    | some a =>
      simp only [mco.nonNil, List.map_cons, List.pairwise_cons]
      refine ⟨?_, ih (i + 1)⟩
      intro x hx
      obtain ⟨p, hp, rfl⟩ := List.mem_map.1 hx
      exact nonNil_positions_ge rest (i + 1) p hp

/-- The entries `nonNil` reports are the non-nil entries, at their positions. -/
theorem nonNil_mem_iff {α : Type} (options : List (Option α)) :
    ∀ (i : Nat) (p : Nat × α),
      p ∈ mco.nonNil i options ↔ i ≤ p.1 ∧ options[p.1 - i]? = some (some p.2) := by
  induction options with
  | nil => intro i p; simp [mco.nonNil]
  | cons o rest ih =>
    intro i p
    cases o with
    | none =>
      simp only [mco.nonNil]
      rw [ih (i + 1) p]
      constructor
      · rintro ⟨h1, h2⟩
        refine ⟨by omega, ?_⟩
        have : p.1 - i = (p.1 - (i + 1)) + 1 := by omega
        rw [this]; simpa using h2
      · rintro ⟨h1, h2⟩
        by_cases h : p.1 = i
        · rw [h] at h2; simp at h2
        · refine ⟨by omega, ?_⟩
          have : p.1 - i = (p.1 - (i + 1)) + 1 := by omega
          rw [this] at h2; simpa using h2
    | some a =>
      simp only [mco.nonNil, List.mem_cons]
      rw [ih (i + 1) p]
      constructor
      · rintro (rfl | ⟨h1, h2⟩)
        · simp
        · refine ⟨by omega, ?_⟩
          have : p.1 - i = (p.1 - (i + 1)) + 1 := by omega
          rw [this]; simpa using h2
      · rintro ⟨h1, h2⟩
        by_cases h : p.1 = i
        · left
          rw [h] at h2
          simp at h2
          exact Prod.ext h h2.symm
        · right
          refine ⟨by omega, ?_⟩
          have : p.1 - i = (p.1 - (i + 1)) + 1 := by omega
          rw [this] at h2; simpa using h2

/-- The loop of WithOptions, when every option returns the builder it was given, does
what the in-order application of the non-nil options does. -/
theorem kc_applyOptions_in_order {σ : Type}
    (options : List (Option (mco.KCAdditionalOptions σ)))
    (H : ∀ opt, some opt ∈ options → ∀ b1 : mco.KCBuilder σ,
      ∃ r, opt b1 = some r ∧ r.builder = mco.Returned.given) :
    ∀ (b : mco.KCBuilder σ) (i : Nat),
      mco.KCBuilder.applyOptions b i options
        = some { recv := some (mco.applyInOrder b (mco.nonNil i options)).1
                 ret := some (mco.applyInOrder b (mco.nonNil i options)).1
                 invoked := (mco.applyInOrder b (mco.nonNil i options)).2.1 } := by
  induction options with
  | nil => intro b i; rfl
  | cons o rest ih =>
    have Hrest : ∀ opt, some opt ∈ rest → ∀ b1 : mco.KCBuilder σ,
        ∃ r, opt b1 = some r ∧ r.builder = mco.Returned.given :=
      fun opt h => H opt (List.mem_cons_of_mem _ h)
    intro b i
    cases o with
    | none =>
      simp only [mco.KCBuilder.applyOptions, mco.nonNil]
      exact ih Hrest b (i + 1)
    | some opt =>
      obtain ⟨r, hr, hg⟩ := H opt (List.mem_cons_self _ _) b
      rcases r with ⟨g, rb, err⟩
      simp only at hg
      subst hg
      cases err with
      | some e =>
        simp [mco.KCBuilder.applyOptions, mco.nonNil, mco.applyInOrder, hr]
      | none =>
        simp [mco.KCBuilder.applyOptions, mco.nonNil, mco.applyInOrder, hr,
          ih Hrest g (i + 1)]

/-- The in-order run applies an initial segment of the options it is given, all of them
when no option returned an error; when one did, the deferred error is its text. -/
theorem applyInOrder_invoked {σ : Type} (l : List (Nat × mco.KCAdditionalOptions σ))
    (H : ∀ p ∈ l, ∀ b1 : mco.KCBuilder σ, ∃ r, p.2 b1 = some r) :
    ∀ b : mco.KCBuilder σ,
      (mco.applyInOrder b l).2.1 <+: l.map (fun p => p.1) ∧
      ((mco.applyInOrder b l).2.2 = none →
        (mco.applyInOrder b l).2.1 = l.map (fun p => p.1)) ∧
      (∀ e, (mco.applyInOrder b l).2.2 = some e →
        (mco.applyInOrder b l).1.errorMsg = e.text) := by
  induction l with
  | nil => intro b; simp [mco.applyInOrder]
  | cons p rest ih =>
    have Hrest : ∀ q ∈ rest, ∀ b1 : mco.KCBuilder σ, ∃ r, q.2 b1 = some r :=
      fun q h => H q (List.mem_cons_of_mem _ h)
    intro b
    obtain ⟨r, hr⟩ := H p (List.mem_cons_self _ _) b
    rcases r with ⟨g, rb, err⟩
    cases err with
    | some e =>
      simp [mco.applyInOrder, hr]
    | none =>
      obtain ⟨h1, h2, h3⟩ := ih Hrest g
      simp only [mco.applyInOrder, hr, List.map_cons]
      refine ⟨?_, ?_, ?_⟩
      · obtain ⟨t, ht⟩ := h1
        exact ⟨t, by simp [← ht]⟩
      · intro hn
        rw [h2 hn]
      · intro e he
        exact h3 e he

/-- When no option changes the deferred error and none returns an error, the in-order run
leaves the deferred error as it was. -/
theorem applyInOrder_keeps_deferred_error {σ : Type}
    (l : List (Nat × mco.KCAdditionalOptions σ))
    (K : ∀ p ∈ l, ∀ (b1 : mco.KCBuilder σ) (r : mco.Applied σ),
      p.2 b1 = some r → r.given.errorMsg = b1.errorMsg) :
    ∀ b : mco.KCBuilder σ,
      (mco.applyInOrder b l).2.2 = none → (mco.applyInOrder b l).1.errorMsg = b.errorMsg := by
  induction l with
  | nil => intro b _; rfl
  | cons p rest ih =>
    have Krest : ∀ q ∈ rest, ∀ (b1 : mco.KCBuilder σ) (r : mco.Applied σ),
        q.2 b1 = some r → r.given.errorMsg = b1.errorMsg :=
      fun q h => K q (List.mem_cons_of_mem _ h)
    intro b
    cases hr : p.2 b with
    | none => simp [mco.applyInOrder, hr]
    | some r =>
      rcases r with ⟨g, rb, err⟩
      have hg := K p (List.mem_cons_self _ _) b _ hr
      cases err with
      | some e => simp [mco.applyInOrder, hr]
      | none =>
        simp only [mco.applyInOrder, hr]
        intro hn
        rw [ih Krest g hn]
        exact hg

/-- The sample options return the builder they are given. -/
theorem sampleOptions_return_given :
    ∀ opt, some opt ∈ mco.sampleOptions → ∀ b1 : mco.KCBuilder (List mcv1.KubeletConfig),
      ∃ r, opt b1 = some r ∧ r.builder = mco.Returned.given := by
  have hw : ∀ b1 : mco.KCBuilder (List mcv1.KubeletConfig),
      ∃ r, mco.workerOption msg.sampleUndefinedCrd b1 = some r
        ∧ r.builder = mco.Returned.given := by
    intro b1
    have hU : msg.sampleUndefinedCrd "KubeletConfig" ≠ "" := by decide
    rcases b1 with ⟨_ | d, o, _ | st, m⟩ <;>
      simp [mco.workerOption, mco.KCBuilder.WithMCPoolSelector, mco.KCBuilder.validate, hU]
    by_cases hm : m = ""
    · simp [hm]
    · simp [hm]
  intro opt hopt b1
  simp only [mco.sampleOptions, List.mem_cons, Option.some.injEq, List.mem_singleton] at hopt
  rcases hopt with h | rfl | rfl | rfl | h
  · cases h
  · exact hw b1
  · exact ⟨_, rfl, rfl⟩
  · exact hw b1
  · cases h

/-- C36, counterexample: on the valid sample KCBuilder, the option that calls
WithMCPoolSelector with an empty key returns the builder it was given and a nil error;
WithOptions with that option invokes it and returns the builder with the deferred
error "'key' cannot be empty": no option returned an error and yet the deferred error
is not empty. -/
theorem C36_option_records_deferred_error :
    (mco.KCBuilder.validate msg.sampleUndefinedCrd (some mco.sampleBuilder)).2.1 = true ∧
    ((mco.emptyKeyOption msg.sampleUndefinedCrd mco.sampleBuilder).map
      (fun r => (r.builder.isGiven, r.err))) = some (true, none) ∧
    ((mco.KCBuilder.WithOptions msg.sampleUndefinedCrd (some mco.sampleBuilder)
        [some (mco.emptyKeyOption msg.sampleUndefinedCrd)]).map
      (fun o => (o.ret.map (fun b => b.errorMsg), o.invoked)))
      = some (some "'key' cannot be empty", [0]) := by
  refine ⟨by rfl, by decide, by decide⟩

/-- C36, amended.  On a builder that fails validation WithOptions invokes no option and
returns the builder as the gate left it.  For every valid KCBuilder and every list of
options each of which returns (without crashing) the builder it was given, WithOptions
returns its receiver, left as the in-order application of the non-nil options leaves
it: the options invoked are an initial segment of the non-nil entries, taken in
increasing position; the run stops at the first option that returns an error, and the
deferred error is then the text of that error; when no option returns an error every
non-nil option has been invoked and WithOptions writes no deferred error itself, so
the deferred error is the one the options left, which is empty when no option changes
the deferred error. -/
theorem C36_withOptions_applies_in_order :
    ∀ (σ : Type) (U : String → String) (options : List (Option (mco.KCAdditionalOptions σ))),
    (∀ builder : Option (mco.KCBuilder σ),
      (mco.KCBuilder.validate U builder).2.1 = false →
      mco.KCBuilder.WithOptions U builder options
        = some { recv := (mco.KCBuilder.validate U builder).1
                 ret := (mco.KCBuilder.validate U builder).1, invoked := [] }) ∧
    (∀ (b : mco.KCBuilder σ) (d : mcv1.KubeletConfig),
      (mco.KCBuilder.validate U (some b)).2.1 = true →
      b.Definition = some d →
      (∀ opt, some opt ∈ options → ∀ b1 : mco.KCBuilder σ,
        ∃ r, opt b1 = some r ∧ r.builder = mco.Returned.given) →
      mco.KCBuilder.WithOptions U (some b) options
        = some { recv := some (mco.applyInOrder b (mco.nonNil 0 options)).1
                 ret := some (mco.applyInOrder b (mco.nonNil 0 options)).1
                 invoked := (mco.applyInOrder b (mco.nonNil 0 options)).2.1 } ∧
      (∀ p : Nat × mco.KCAdditionalOptions σ,
        p ∈ mco.nonNil 0 options ↔ options[p.1]? = some (some p.2)) ∧
      ((mco.nonNil 0 options).map (fun p => p.1)).Pairwise (fun i j => i < j) ∧
      (mco.applyInOrder b (mco.nonNil 0 options)).2.1
        <+: (mco.nonNil 0 options).map (fun p => p.1) ∧
      (∀ e, (mco.applyInOrder b (mco.nonNil 0 options)).2.2 = some e →
        (mco.applyInOrder b (mco.nonNil 0 options)).1.errorMsg = e.text) ∧
      ((mco.applyInOrder b (mco.nonNil 0 options)).2.2 = none →
        (mco.applyInOrder b (mco.nonNil 0 options)).2.1
          = (mco.nonNil 0 options).map (fun p => p.1) ∧
        ((∀ opt, some opt ∈ options → ∀ (b1 : mco.KCBuilder σ) (r : mco.Applied σ),
            opt b1 = some r → r.given.errorMsg = b1.errorMsg) →
          (mco.applyInOrder b (mco.nonNil 0 options)).1.errorMsg = ""))) := by
  intro σ U options
  refine ⟨?_, ?_⟩
  · intro builder hv
    unfold mco.KCBuilder.WithOptions
    rcases hx : mco.KCBuilder.validate U builder with ⟨b0, v, e⟩
    rw [hx] at hv
    simp only at hv
    subst hv
    rfl
  · intro b d hv hd H
    obtain ⟨o, st, rfl⟩ := (kc_validate_true_iff U b d hd).1 hv
    have hmem : ∀ p : Nat × mco.KCAdditionalOptions σ,
        p ∈ mco.nonNil 0 options ↔ options[p.1]? = some (some p.2) := by
      intro p
      simpa using nonNil_mem_iff options 0 p
    have Hl : ∀ p ∈ mco.nonNil 0 options, ∀ b1 : mco.KCBuilder σ, ∃ r, p.2 b1 = some r := by
      intro p hp b1
      have h1 := (hmem p).1 hp
      have h2 : some p.2 ∈ options := List.mem_iff_getElem?.2 ⟨_, h1⟩
      obtain ⟨r, hr, _⟩ := H p.2 h2 b1
      exact ⟨r, hr⟩
    obtain ⟨h1, h2, h3⟩ := applyInOrder_invoked (mco.nonNil 0 options) Hl
      { Definition := some d, Object := o, apiClient := some st, errorMsg := "" }
    refine ⟨?_, hmem, nonNil_positions_increasing options 0, h1, h3, ?_⟩
    · unfold mco.KCBuilder.WithOptions
      rw [kc_validate_valid]
      exact kc_applyOptions_in_order options H _ 0
    · intro hn
      refine ⟨h2 hn, ?_⟩
      intro K
      have Kl : ∀ p ∈ mco.nonNil 0 options, ∀ (b1 : mco.KCBuilder σ) (r : mco.Applied σ),
          p.2 b1 = some r → r.given.errorMsg = b1.errorMsg := by
        intro p hp b1 r hr
        exact K p.2 (List.mem_iff_getElem?.2 ⟨_, (hmem p).1 hp⟩) b1 r hr
      exact applyInOrder_keeps_deferred_error _ Kl _ hn

/-- C36 (amended) at a concrete input: on a nil builder no option is invoked; on the valid
sample builder with the four sample options (a nil entry, a labelling option, an
option failing with "boom", the labelling option again) the options at positions 1
and 2 are invoked and the deferred error is "boom". -/
theorem C36_withOptions_applies_in_order_witness :
    (mco.KCBuilder.validate msg.sampleUndefinedCrd
      (none : Option (mco.KCBuilder (List mcv1.KubeletConfig)))).2.1 = false ∧
    mco.KCBuilder.WithOptions msg.sampleUndefinedCrd none mco.sampleOptions
      = some { recv := none, ret := none, invoked := [] } ∧
    (mco.KCBuilder.validate msg.sampleUndefinedCrd (some mco.sampleBuilder)).2.1 = true ∧
    mco.KCBuilder.WithOptions msg.sampleUndefinedCrd (some mco.sampleBuilder) mco.sampleOptions
      = some { recv := some (mco.applyInOrder mco.sampleBuilder
                 (mco.nonNil 0 mco.sampleOptions)).1
               ret := some (mco.applyInOrder mco.sampleBuilder
                 (mco.nonNil 0 mco.sampleOptions)).1
               invoked := (mco.applyInOrder mco.sampleBuilder
                 (mco.nonNil 0 mco.sampleOptions)).2.1 } ∧
    (mco.applyInOrder mco.sampleBuilder (mco.nonNil 0 mco.sampleOptions)).2.1 = [1, 2] ∧
    (mco.applyInOrder mco.sampleBuilder (mco.nonNil 0 mco.sampleOptions)).1.errorMsg
      = "boom" :=
  ⟨rfl,
    (C36_withOptions_applies_in_order _ msg.sampleUndefinedCrd mco.sampleOptions).1 none rfl,
    rfl,
    ((C36_withOptions_applies_in_order _ msg.sampleUndefinedCrd mco.sampleOptions).2
      mco.sampleBuilder { ObjectMeta := { Name := "kc" } } rfl rfl
      sampleOptions_return_given).1,
    by decide, by decide⟩

/-- C37: for every StorageClusterBuilder that passes validation and every argument,
WithStorageDeviceSet appends the device set to `Spec.StorageDeviceSets` (a nil list
counting as empty), WithManagedResources writes `Spec.ManagedResources` and
WithMultiCloudGateway writes `Spec.MultiCloudGateway`; each leaves every other field of
Definition and of the builder, the deferred error included, as it was. -/
theorem C37_sc_mutators_always_write :
    ∀ (σ : Type) (U : String → String) (b : storage.StorageClusterBuilder σ),
    (storage.StorageClusterBuilder.validate U (some b)).1 = true →
    ∃ d : ocsoperatorv1.StorageCluster, b.Definition = some d ∧
      (∀ s : ocsoperatorv1.StorageDeviceSet,
        storage.StorageClusterBuilder.WithStorageDeviceSet U (some b) s
          = some (some { b with Definition := some { d with Spec := { d.Spec with
              StorageDeviceSets := some (d.Spec.StorageDeviceSets.getD [] ++ [s]) } } })) ∧
      (∀ r : ocsoperatorv1.ManagedResourcesSpec,
        storage.StorageClusterBuilder.WithManagedResources U (some b) r
          = some (some { b with Definition := some { d with Spec := { d.Spec with
              ManagedResources := r } } })) ∧
      (∀ g : ocsoperatorv1.MultiCloudGatewaySpec,
        storage.StorageClusterBuilder.WithMultiCloudGateway U (some b) g
          = some (some { b with Definition := some { d with Spec := { d.Spec with
              MultiCloudGateway := some g } } })) := by
  intro σ U b hv
  obtain ⟨d, o, p, m, hb⟩ := (sc_validate_true_iff U (some b)).1 hv
  obtain rfl : b = _ := Option.some.inj hb
  refine ⟨d, rfl, ?_, ?_, ?_⟩
  · intro s
    rcases d with ⟨tm, om, ⟨mn, mr, md, mg, _ | sets⟩⟩ <;>
      simp [storage.StorageClusterBuilder.WithStorageDeviceSet, sc_validate_valid,
        goruntime.addrIsNil]
  · intro r
    simp [storage.StorageClusterBuilder.WithManagedResources, sc_validate_valid,
      goruntime.addrIsNil]
  · intro g
    simp [storage.StorageClusterBuilder.WithMultiCloudGateway, sc_validate_valid,
      goruntime.addrIsNil]

/-- C37 at a concrete input: on a builder that passes validation, holds one device set
and carries the deferred error "earlier", WithStorageDeviceSet appends the second
device set and keeps the deferred error. -/
theorem C37_sc_mutators_always_write_witness :
    (storage.StorageClusterBuilder.validate msg.sampleUndefinedCrd
      (some { storage.sampleBuilder with
        Definition := some { storage.sampleDefinition with
          Spec := { StorageDeviceSets := some [{ Name := "a", Count := 1 }] } }
        errorMsg := "earlier" })).1 = true ∧
    storage.StorageClusterBuilder.WithStorageDeviceSet msg.sampleUndefinedCrd
        (some { storage.sampleBuilder with
          Definition := some { storage.sampleDefinition with
            Spec := { StorageDeviceSets := some [{ Name := "a", Count := 1 }] } }
          errorMsg := "earlier" })
        { Name := "b", Count := 3 }
      = some (some { storage.sampleBuilder with
          Definition := some { storage.sampleDefinition with
            Spec := {
              StorageDeviceSets := some [{ Name := "a", Count := 1 }, { Name := "b", Count := 3 }] } }
          errorMsg := "earlier" }) :=
  ⟨rfl, by
    obtain ⟨d, h1, h2, _⟩ := C37_sc_mutators_always_write _ msg.sampleUndefinedCrd
      { storage.sampleBuilder with
        Definition := some { storage.sampleDefinition with
          Spec := { StorageDeviceSets := some [{ Name := "a", Count := 1 }] } }
        errorMsg := "earlier" } rfl
    obtain rfl := Option.some.inj h1
    exact h2 { Name := "b", Count := 3 }⟩

/-- The readers of a StorageClusterBuilder that passes the gate, with a live client: when
the remote Get succeeds they return the Spec field of the object it fetched; when it
fails with a not-found error they return an error; when it fails with any other error
they crash, reading `Object`, which is nil. -/
theorem sc_readers_on_live_client {σ : Type} (U : String → String)
    (d : ocsoperatorv1.StorageCluster) (o : Option ocsoperatorv1.StorageCluster)
    (c : goclient.Client σ ocsoperatorv1.StorageCluster) (m : String) (s : σ) :
    ((c.Get { Name := d.ObjectMeta.Name } s).1.2 = none →
      (storage.StorageClusterBuilder.GetManageNodes U
          (some { Definition := some d, Object := o
                  apiClient := storage.ClientIface.settings (some { Client := some c })
                  errorMsg := m }) s).map (fun out => out.ret)
        = some ((c.Get { Name := d.ObjectMeta.Name } s).1.1.Spec.ManageNodes, none) ∧
      (storage.StorageClusterBuilder.GetManagedResources U
          (some { Definition := some d, Object := o
                  apiClient := storage.ClientIface.settings (some { Client := some c })
                  errorMsg := m }) s).map (fun out => out.ret)
        = some (some (c.Get { Name := d.ObjectMeta.Name } s).1.1.Spec.ManagedResources, none) ∧
      (storage.StorageClusterBuilder.GetMonDataDirHostPath U
          (some { Definition := some d, Object := o
                  apiClient := storage.ClientIface.settings (some { Client := some c })
                  errorMsg := m }) s).map (fun out => out.ret)
        = some ((c.Get { Name := d.ObjectMeta.Name } s).1.1.Spec.MonDataDirHostPath, none) ∧
      (storage.StorageClusterBuilder.GetMultiCloudGateway U
          (some { Definition := some d, Object := o
                  apiClient := storage.ClientIface.settings (some { Client := some c })
                  errorMsg := m }) s).map (fun out => out.ret)
        = some ((c.Get { Name := d.ObjectMeta.Name } s).1.1.Spec.MultiCloudGateway, none) ∧
      (storage.StorageClusterBuilder.GetStorageDeviceSets U
          (some { Definition := some d, Object := o
                  apiClient := storage.ClientIface.settings (some { Client := some c })
                  errorMsg := m }) s).map (fun out => out.ret)
        = some ((c.Get { Name := d.ObjectMeta.Name } s).1.1.Spec.StorageDeviceSets, none)) ∧
    (∀ e, (c.Get { Name := d.ObjectMeta.Name } s).1.2 = some e → e.notFound = true →
      (storage.StorageClusterBuilder.GetManageNodes U
          (some { Definition := some d, Object := o
                  apiClient := storage.ClientIface.settings (some { Client := some c })
                  errorMsg := m }) s).map (fun out => out.ret.2.isSome) = some true ∧
      (storage.StorageClusterBuilder.GetManagedResources U
          (some { Definition := some d, Object := o
                  apiClient := storage.ClientIface.settings (some { Client := some c })
                  errorMsg := m }) s).map (fun out => out.ret.2.isSome) = some true ∧
      (storage.StorageClusterBuilder.GetMonDataDirHostPath U
          (some { Definition := some d, Object := o
                  apiClient := storage.ClientIface.settings (some { Client := some c })
                  errorMsg := m }) s).map (fun out => out.ret.2.isSome) = some true ∧
      (storage.StorageClusterBuilder.GetMultiCloudGateway U
          (some { Definition := some d, Object := o
                  apiClient := storage.ClientIface.settings (some { Client := some c })
                  errorMsg := m }) s).map (fun out => out.ret.2.isSome) = some true ∧
      (storage.StorageClusterBuilder.GetStorageDeviceSets U
          (some { Definition := some d, Object := o
                  apiClient := storage.ClientIface.settings (some { Client := some c })
                  errorMsg := m }) s).map (fun out => out.ret.2.isSome) = some true) ∧
    (∀ e, (c.Get { Name := d.ObjectMeta.Name } s).1.2 = some e → e.notFound = false →
      storage.StorageClusterBuilder.GetManageNodes U
          (some { Definition := some d, Object := o
                  apiClient := storage.ClientIface.settings (some { Client := some c })
                  errorMsg := m }) s = none ∧
      storage.StorageClusterBuilder.GetManagedResources U
          (some { Definition := some d, Object := o
                  apiClient := storage.ClientIface.settings (some { Client := some c })
                  errorMsg := m }) s = none ∧
      storage.StorageClusterBuilder.GetMonDataDirHostPath U
          (some { Definition := some d, Object := o
                  apiClient := storage.ClientIface.settings (some { Client := some c })
                  errorMsg := m }) s = none ∧
      storage.StorageClusterBuilder.GetMultiCloudGateway U
          (some { Definition := some d, Object := o
                  apiClient := storage.ClientIface.settings (some { Client := some c })
                  errorMsg := m }) s = none ∧
      storage.StorageClusterBuilder.GetStorageDeviceSets U
          (some { Definition := some d, Object := o
                  apiClient := storage.ClientIface.settings (some { Client := some c })
                  errorMsg := m }) s = none) := by
  refine ⟨?_, ?_, ?_⟩
  · intro h
    simp [storage.StorageClusterBuilder.GetManageNodes,
      storage.StorageClusterBuilder.GetManagedResources,
      storage.StorageClusterBuilder.GetMonDataDirHostPath,
      storage.StorageClusterBuilder.GetMultiCloudGateway,
      storage.StorageClusterBuilder.GetStorageDeviceSets,
      sc_validate_valid, sc_Exists_valid, h, k8serrors.IsNotFound]
  · intro e h hn
    simp [storage.StorageClusterBuilder.GetManageNodes,
      storage.StorageClusterBuilder.GetManagedResources,
      storage.StorageClusterBuilder.GetMonDataDirHostPath,
      storage.StorageClusterBuilder.GetMultiCloudGateway,
      storage.StorageClusterBuilder.GetStorageDeviceSets,
      sc_validate_valid, sc_Exists_valid, h, hn, k8serrors.IsNotFound]
  · intro e h hn
    simp [storage.StorageClusterBuilder.GetManageNodes,
      storage.StorageClusterBuilder.GetManagedResources,
      storage.StorageClusterBuilder.GetMonDataDirHostPath,
      storage.StorageClusterBuilder.GetMultiCloudGateway,
      storage.StorageClusterBuilder.GetStorageDeviceSets,
      sc_validate_valid, sc_Exists_valid, h, hn, k8serrors.IsNotFound]

/-- C38: the code at the failing input.  On a StorageClusterBuilder that passes validation
and whose accessor fails every call with "connection refused" (not a not-found
error), Exists issues its Get, answers true and leaves `Object` nil, and each of
GetManageNodes, GetManagedResources, GetMonDataDirHostPath, GetMultiCloudGateway and
GetStorageDeviceSets then crashes on the read of `builder.Object.Spec`: none returns
an error. -/
theorem C38_sc_readers_crash_on_unreachable_accessor :
    (storage.StorageClusterBuilder.validate msg.sampleUndefinedCrd
      (some storage.sampleUnreachableBuilder)).1 = true ∧
    ((storage.StorageClusterBuilder.Exists msg.sampleUndefinedCrd
        (some storage.sampleUnreachableBuilder) ()).map
      (fun e => (e.ret, e.recv.map (fun b => b.Object), e.calls)))
      = some (true, some none, [goclient.Call.Get { Name := "sc" }]) ∧
    storage.StorageClusterBuilder.GetManageNodes msg.sampleUndefinedCrd
      (some storage.sampleUnreachableBuilder) () = none ∧
    storage.StorageClusterBuilder.GetManagedResources msg.sampleUndefinedCrd
      (some storage.sampleUnreachableBuilder) () = none ∧
    storage.StorageClusterBuilder.GetMonDataDirHostPath msg.sampleUndefinedCrd
      (some storage.sampleUnreachableBuilder) () = none ∧
    storage.StorageClusterBuilder.GetMultiCloudGateway msg.sampleUndefinedCrd
      (some storage.sampleUnreachableBuilder) () = none ∧
    storage.StorageClusterBuilder.GetStorageDeviceSets msg.sampleUndefinedCrd
      (some storage.sampleUnreachableBuilder) () = none := by
  refine ⟨by rfl, by decide, by rfl, by rfl, by rfl, by rfl, by rfl⟩

/-- A format check passes exactly for a well-formed text, whatever the path. -/
theorem formatOf_none_iff (Default : strfmt.Registry) (formats : Option strfmt.Registry)
    (path in_ format data : String) :
    validate.FormatOf Default path in_ format data formats = none
      ↔ models.wellFormed Default formats format data = true := by
  have key : ∀ r : strfmt.Registry,
      (if (!r.ContainsName format) = true then some (errors.InvalidTypeName format)
        else if (!r.Validates format data) = true then
          some (errors.InvalidType path in_ data)
        else none) = none
      ↔ (r.ContainsName format && r.Validates format data) = true := by
    intro r
    cases r.ContainsName format <;> cases r.Validates format data <;> simp
  cases formats with
  | none => exact key Default
  | some r => exact key r

/-- The loop over the IPv4 addresses passes exactly when every address is well formed. -/
theorem validateIPV4AddressesLoop_none_iff (Default : strfmt.Registry)
    (formats : Option strfmt.Registry) (l : List String) :
    ∀ i : Nat,
      models.DomainResolutionResponseDomain.validateIPV4AddressesLoop Default formats i l = none
        ↔ l.all (models.wellFormed Default formats "ipv4") = true := by
  induction l with
  | nil => intro i; simp [models.DomainResolutionResponseDomain.validateIPV4AddressesLoop]
  | cons a rest ih =>
    intro i
    simp only [models.DomainResolutionResponseDomain.validateIPV4AddressesLoop,
      List.all_cons, Bool.and_eq_true]
    cases h : validate.FormatOf Default ("ipv4_addresses" ++ "." ++ toString i) "body" "ipv4" a
        formats with
    | none =>
      have := (formatOf_none_iff Default formats _ _ _ _).1 h
      simp [this, ih (i + 1)]
    | some err =>
      have : ¬ models.wellFormed Default formats "ipv4" a = true := by
        intro hw
        rw [(formatOf_none_iff Default formats _ _ _ _).2 hw] at h
        cases h
      simp [this]

/-- The loop over the IPv6 addresses passes exactly when every address is well formed. -/
theorem validateIPV6AddressesLoop_none_iff (Default : strfmt.Registry)
    (formats : Option strfmt.Registry) (l : List String) :
    ∀ i : Nat,
      models.DomainResolutionResponseDomain.validateIPV6AddressesLoop Default formats i l = none
        ↔ l.all (models.wellFormed Default formats "ipv6") = true := by
  induction l with
  | nil => intro i; simp [models.DomainResolutionResponseDomain.validateIPV6AddressesLoop]
  | cons a rest ih =>
    intro i
    simp only [models.DomainResolutionResponseDomain.validateIPV6AddressesLoop,
      List.all_cons, Bool.and_eq_true]
    cases h : validate.FormatOf Default ("ipv6_addresses" ++ "." ++ toString i) "body" "ipv6" a
        formats with
    | none =>
      have := (formatOf_none_iff Default formats _ _ _ _).1 h
      simp [this, ih (i + 1)]
    | some err =>
      have : ¬ models.wellFormed Default formats "ipv6" a = true := by
        intro hw
        rw [(formatOf_none_iff Default formats _ _ _ _).2 hw] at h
        cases h
      simp [this]

/-- The validation of one element passes exactly when the element is acceptable. -/
theorem domain_Validate_none_iff (Default : strfmt.Registry)
    (formats : Option strfmt.Registry) (e : models.DomainResolutionResponseDomain) :
    models.DomainResolutionResponseDomain.Validate Default e formats = none
      ↔ models.acceptable Default formats e = true := by
  rcases e with ⟨cn, dn, v4, v6⟩
  have h4 : models.DomainResolutionResponseDomain.validateIPV4Addresses Default
      ⟨cn, dn, v4, v6⟩ formats = none
      ↔ (v4.getD []).all (models.wellFormed Default formats "ipv4") = true := by
    cases v4 with
    | none => simp [models.DomainResolutionResponseDomain.validateIPV4Addresses, swag.IsZero]
    | some l =>
      simp only [models.DomainResolutionResponseDomain.validateIPV4Addresses, swag.IsZero,
        Option.isNone_some, Bool.false_eq_true, if_false, Option.getD_some]
      exact validateIPV4AddressesLoop_none_iff Default formats l 0
  have h6 : models.DomainResolutionResponseDomain.validateIPV6Addresses Default
      ⟨cn, dn, v4, v6⟩ formats = none
      ↔ (v6.getD []).all (models.wellFormed Default formats "ipv6") = true := by
    cases v6 with
    | none => simp [models.DomainResolutionResponseDomain.validateIPV6Addresses, swag.IsZero]
    | some l =>
      simp only [models.DomainResolutionResponseDomain.validateIPV6Addresses, swag.IsZero,
        Option.isNone_some, Bool.false_eq_true, if_false, Option.getD_some]
      exact validateIPV6AddressesLoop_none_iff Default formats l 0
  unfold models.DomainResolutionResponseDomain.Validate models.acceptable
  simp only [Bool.and_eq_true]
  rw [← h4, ← h6]
  cases dn <;>
    cases models.DomainResolutionResponseDomain.validateIPV4Addresses Default
      ⟨cn, _, v4, v6⟩ formats <;>
    cases models.DomainResolutionResponseDomain.validateIPV6Addresses Default
      ⟨cn, _, v4, v6⟩ formats <;>
    simp [models.DomainResolutionResponseDomain.validateDomainName, validate.Required]

/-- One step of the loop over the resolutions at an element that is not nil. -/
theorem validateResolutionsLoop_cons_some (Default : strfmt.Registry)
    (formats : Option strfmt.Registry) (i : Nat) (e : models.DomainResolutionResponseDomain)
    (rest : List (Option models.DomainResolutionResponseDomain)) :
    models.DomainResolutionResponse.validateResolutionsLoop Default formats i (some e :: rest)
      = match models.DomainResolutionResponseDomain.Validate Default e formats with
        | some err => some (errors.Error.ValidateName ("resolutions." ++ toString i) err)
        | none =>
          models.DomainResolutionResponse.validateResolutionsLoop Default formats (i + 1) rest := by
  have hs : "resolutions" ++ "." = "resolutions." := by decide
  simp only [models.DomainResolutionResponse.validateResolutionsLoop, swag.IsZero,
    Option.isNone_some, Bool.false_eq_true, if_false, hs]
  cases h : models.DomainResolutionResponseDomain.Validate Default e formats with
  | none => rfl
  | some err => cases err <;> rfl

/-- One step of the loop over the resolutions at a nil element. -/
theorem validateResolutionsLoop_cons_none (Default : strfmt.Registry)
    (formats : Option strfmt.Registry) (i : Nat)
    (rest : List (Option models.DomainResolutionResponseDomain)) :
    models.DomainResolutionResponse.validateResolutionsLoop Default formats i (none :: rest)
      = models.DomainResolutionResponse.validateResolutionsLoop Default formats (i + 1) rest := by
  simp [models.DomainResolutionResponse.validateResolutionsLoop, swag.IsZero]

/-- The loop over the resolutions passes exactly when every element that is not nil is
acceptable. -/
theorem validateResolutionsLoop_none_iff (Default : strfmt.Registry)
    (formats : Option strfmt.Registry) (l : List (Option models.DomainResolutionResponseDomain)) :
    ∀ i : Nat,
      models.DomainResolutionResponse.validateResolutionsLoop Default formats i l = none
        ↔ ∀ e, some e ∈ l → models.acceptable Default formats e = true := by
  induction l with
  | nil => intro i; simp [models.DomainResolutionResponse.validateResolutionsLoop]
  | cons r rest ih =>
    intro i
    cases r with
    | none =>
      rw [validateResolutionsLoop_cons_none, ih (i + 1)]
      simp
    | some e =>
      rw [validateResolutionsLoop_cons_some]
      cases h : models.DomainResolutionResponseDomain.Validate Default e formats with
      | none =>
        have ha := (domain_Validate_none_iff Default formats e).1 h
        simp only [ih (i + 1), List.mem_cons, Option.some.injEq]
        constructor
        · rintro H e1 (rfl | h1)
          · exact ha
          · exact H e1 h1
        · intro H e1 h1
          exact H e1 (Or.inr h1)
      | some err =>
        have ha : ¬ models.acceptable Default formats e = true := by
          intro hacc
          rw [(domain_Validate_none_iff Default formats e).2 hacc] at h
          cases h
        simp only [List.mem_cons, Option.some.injEq, false_iff, reduceCtorEq]
        intro H
        exact ha (H e (Or.inl rfl))

/-- The loop over the resolutions stops at the first element that is not acceptable and
reports the error of that element under the name "resolutions." followed by its
index. -/
theorem validateResolutionsLoop_first_failure (Default : strfmt.Registry)
    (formats : Option strfmt.Registry) (l : List (Option models.DomainResolutionResponseDomain)) :
    ∀ (i j : Nat) (e : models.DomainResolutionResponseDomain),
      l[j]? = some (some e) →
      models.acceptable Default formats e = false →
      (∀ (k : Nat) (e1 : models.DomainResolutionResponseDomain),
        k < j → l[k]? = some (some e1) → models.acceptable Default formats e1 = true) →
      ∃ err, models.DomainResolutionResponseDomain.Validate Default e formats = some err ∧
        models.DomainResolutionResponse.validateResolutionsLoop Default formats i l
          = some (errors.Error.ValidateName ("resolutions." ++ toString (i + j)) err) := by
  induction l with
  | nil => intro i j e h; simp at h
  | cons r rest ih =>
    intro i j e hj hbad hbefore
    cases j with
    | zero =>
      simp only [List.getElem?_cons_zero, Option.some.injEq] at hj
      subst hj
      rw [validateResolutionsLoop_cons_some]
      cases h : models.DomainResolutionResponseDomain.Validate Default e formats with
      | none =>
        rw [(domain_Validate_none_iff Default formats e).1 h] at hbad
        cases hbad
      | some err => exact ⟨err, rfl, rfl⟩
    | succ j =>
      simp only [List.getElem?_cons_succ] at hj
      have hrest : ∀ (k : Nat) (e1 : models.DomainResolutionResponseDomain),
          k < j → rest[k]? = some (some e1) → models.acceptable Default formats e1 = true := by
        intro k e1 hk h1
        exact hbefore (k + 1) e1 (by omega) (by simpa using h1)
      obtain ⟨err, h1, h2⟩ := ih (i + 1) j e hj hbad hrest
      refine ⟨err, h1, ?_⟩
      have hij : i + (j + 1) = i + 1 + j := by omega
      rw [hij, ← h2]
      cases r with
      | none => rw [validateResolutionsLoop_cons_none]
      | some e0 =>
        rw [validateResolutionsLoop_cons_some]
        have h0 := hbefore 0 e0 (by omega) (by simp)
        rw [(domain_Validate_none_iff Default formats e0).2 h0]

/-- C39: `DomainResolutionResponse.Validate` on a non-nil response always returns, and it
returns nil exactly when `Resolutions` is non-nil (an empty list included) and every
element that is not nil is acceptable: its DomainName is non-nil and each of its IPv4
and IPv6 addresses is well formed for the format registry in force; nil elements are
skipped.  With nil `Resolutions` the error is the required-field error of
"resolutions".  When an element is not acceptable, the error is the composite error
holding the error of the lowest-indexed such element, renamed under
"resolutions.<index>". -/
theorem C39_domainResolutionResponse_validate :
    ∀ (Default : strfmt.Registry) (formats : Option strfmt.Registry)
      (m : models.DomainResolutionResponse),
    (models.DomainResolutionResponse.Validate Default (some m) formats = some none
      ↔ ∃ l, m.Resolutions = some l ∧
          ∀ e, some e ∈ l → models.acceptable Default formats e = true) ∧
    (m.Resolutions = none →
      models.DomainResolutionResponse.Validate Default (some m) formats
        = some (some (errors.Error.CompositeError
            [errors.Error.Validation errors.Kind.Required "resolutions" "body" ""]))) ∧
    (∀ (l : List (Option models.DomainResolutionResponseDomain)) (j : Nat)
        (e : models.DomainResolutionResponseDomain),
      m.Resolutions = some l →
      l[j]? = some (some e) →
      models.acceptable Default formats e = false →
      (∀ (k : Nat) (e1 : models.DomainResolutionResponseDomain),
        k < j → l[k]? = some (some e1) → models.acceptable Default formats e1 = true) →
      ∃ err, models.DomainResolutionResponseDomain.Validate Default e formats = some err ∧
        models.DomainResolutionResponse.Validate Default (some m) formats
          = some (some (errors.Error.CompositeError
              [errors.Error.ValidateName ("resolutions." ++ toString j) err]))) ∧
    (models.DomainResolutionResponse.Validate Default (some m) formats).isSome = true := by
  intro Default formats m
  rcases m with ⟨_ | l⟩
  · refine ⟨?_, ?_, ?_, rfl⟩
    · simp [models.DomainResolutionResponse.Validate,
        models.DomainResolutionResponse.validateResolutions, validate.Required]
    · intro _
      rfl
    · intro l j e h
      cases h
  · have hv : models.DomainResolutionResponse.Validate Default (some ⟨some l⟩) formats
        = match models.DomainResolutionResponse.validateResolutionsLoop Default formats 0 l with
          | some err => some (some (errors.Error.CompositeError [err]))
          | none => some none := by
      simp only [models.DomainResolutionResponse.Validate,
        models.DomainResolutionResponse.validateResolutions, validate.Required]
      cases models.DomainResolutionResponse.validateResolutionsLoop Default formats 0 l <;>
        simp [errors.CompositeValidationError]
    refine ⟨?_, ?_, ?_, ?_⟩
    rotate_right
    · rw [hv]
      cases models.DomainResolutionResponse.validateResolutionsLoop Default formats 0 l <;> rfl
    · rw [hv]
      constructor
      · intro h
        refine ⟨l, rfl, ?_⟩
        apply (validateResolutionsLoop_none_iff Default formats l 0).1
        cases hl : models.DomainResolutionResponse.validateResolutionsLoop Default formats 0 l
          with
        | none => rfl
        | some err => rw [hl] at h; simp at h
      · rintro ⟨l1, h1, h2⟩
        obtain rfl : l = l1 := Option.some.inj h1
        rw [(validateResolutionsLoop_none_iff Default formats l 0).2 h2]
    · intro h
      cases h
    · intro l1 j e h1 hj hbad hbefore
      obtain rfl : l = l1 := Option.some.inj h1
      obtain ⟨err, he, hloop⟩ :=
        validateResolutionsLoop_first_failure Default formats l 0 j e hj hbad hbefore
      refine ⟨err, he, ?_⟩
      rw [hv, hloop]
      simp

/-- C39 at a concrete input, with the sample registry: a response with a nil element and
a good element is valid; the response whose elements at positions 2 and 3 lack a
domain name is refused with the errors of the element at position 2, named
"resolutions.2.domain_name" and "resolutions.2.ipv4_addresses.1". -/
theorem C39_domainResolutionResponse_validate_witness :
    models.DomainResolutionResponse.Validate models.sampleRegistry
        (some { Resolutions := some [none, some models.sampleGood] }) none = some none ∧
    models.acceptable models.sampleRegistry none models.sampleBad = false ∧
    (∃ err,
      models.DomainResolutionResponseDomain.Validate models.sampleRegistry models.sampleBad none
        = some err ∧
      models.DomainResolutionResponse.Validate models.sampleRegistry
          (some models.sampleResponse) none
        = some (some (errors.Error.CompositeError
            [errors.Error.ValidateName ("resolutions." ++ toString 2) err]))) ∧
    models.DomainResolutionResponse.Validate models.sampleRegistry
        (some models.sampleResponse) none
      = some (some (errors.Error.CompositeError [errors.Error.CompositeError
          [errors.Error.Validation errors.Kind.Required "resolutions.2.domain_name" "body" "",
           errors.Error.Validation errors.Kind.InvalidType "resolutions.2.ipv4_addresses.1"
             "body" "fe80::1"]])) :=
  ⟨(C39_domainResolutionResponse_validate models.sampleRegistry none
      { Resolutions := some [none, some models.sampleGood] }).1.2
      ⟨_, rfl, by
        intro e he
        simp only [List.mem_cons, Option.some.injEq, List.mem_singleton] at he
        rcases he with h | rfl | h
        · cases h
        · decide
        · cases h⟩,
    by decide,
    (C39_domainResolutionResponse_validate models.sampleRegistry none
      models.sampleResponse).2.2.1 _ 2 models.sampleBad rfl rfl (by decide) (by
        intro k e1 hk h
        have hk2 : k = 0 ∨ k = 1 := by omega
        rcases hk2 with rfl | rfl
        · cases h
        · obtain rfl : models.sampleGood = e1 := Option.some.inj (Option.some.inj h)
          decide),
    by rfl⟩
